import Mathlib

/-!
HTTP coroutine adapter layer (indra/llmessage/llcorehttputil.cpp) and the tab
transitions of the group panel (indra/newview/llpanelgroup.cpp).

A shallow embedding of the completion handler, the coroutine adapter and the
adapter registry of `llcorehttputil.cpp` and of the tab transitions of
`llpanelgroup.cpp`, followed by theorems about them.

Conventions of the embedding.

* Objects that the C++ code reaches through pointers are named by a natural
  number (their address). A `weak_ptr` is an optional address; `lock()` yields
  the object only while the heap still lists it as owned.
* A member function becomes a function from the object (and its arguments) to
  an `Outcome`: the object after the call, the returned value, and the calls it
  made on its collaborators (transport engine, reply pumps), in order.
* Logging (`llinfos`, `llwarns`, `LL_INFOS`, `LL_DEBUGS`) and the construction
  of local, unused `LLEventStream` objects touch neither the adapter, the
  transport, nor a reply pump that anyone listens to; they are left out.
* `std::string` is a Lean `String` (one character per C++ `char`).
-/

namespace LLCoreHttpUtil

/-! ## The structured-document value type `LLSD` (llcommon, used as a library) -/

/-- One byte of a `BufferArray` or of an `LLSD::Binary`. -/
abbrev U8 := Fin 256

/-- The tree-shaped value type `LLSD`. The scalar kinds this file never inspects
(`real`, `uuid`, `date`, `uri`) carry an uninterpreted payload. A map is kept as
an association list; `LLSD.get` reads the first binding of a key and `LLSD.set`
overwrites it, so a key has one visible value as in `std::map`. -/
inductive LLSD where
  | undefined
  | boolean (b : Bool)
  | integer (i : Int)
  | real (bits : Nat)
  | string (s : String)
  | uuid (s : String)
  | date (s : String)
  | uri (s : String)
  | binary (bytes : List U8)
  | map (fields : List (String × LLSD))
  | array (items : List LLSD)

namespace LLSD

/-- Source `LLSD::emptyMap()`. -/
def emptyMap : LLSD := .map []

/-- Source `LLSD::isUndefined()`. -/
def isUndefined : LLSD → Bool
  | .undefined => true
  | _ => false

/-- Source `LLSD::isMap()`. -/
def isMap : LLSD → Bool
  | .map _ => true
  | _ => false

/-- Value bound to `k` in an association list, `undefined` when there is none. -/
def lookupField (k : String) : List (String × LLSD) → LLSD
  | [] => .undefined
  | (k1, v) :: rest => if k1 = k then v else lookupField k rest

/-- Whether `k` is bound in an association list. -/
def hasField (k : String) : List (String × LLSD) → Bool
  | [] => false
  | (k1, _) :: rest => if k1 = k then true else hasField k rest

/-- Bind `k` to `v`: overwrite the binding when there is one, add it otherwise. -/
def assignField (k : String) (v : LLSD) : List (String × LLSD) → List (String × LLSD)
  | [] => [(k, v)]
  | (k1, v1) :: rest =>
    if k1 = k then (k1, v) :: rest else (k1, v1) :: assignField k v rest

/-- The const `operator[](const String&)`: the member of a map, `undefined` for a
missing key and for every value that is not a map. -/
def get (x : LLSD) (k : String) : LLSD :=
  match x with
  | .map fs => lookupField k fs
  | _ => .undefined

/-- Source `LLSD::has(key)`: false on everything that is not a map. -/
def has (x : LLSD) (k : String) : Bool :=
  match x with
  | .map fs => hasField k fs
  | _ => false

/-- The assignment `x[k] = v` through the non-const `operator[]`: a value that
is not a map is first replaced by an empty map. -/
def set (x : LLSD) (k : String) (v : LLSD) : LLSD :=
  match x with
  | .map fs => .map (assignField k v fs)
  | _ => .map [(k, v)]

/-- The keys of a map in storage order (empty for a value that is not a map). -/
def keys (x : LLSD) : List String :=
  match x with
  | .map fs => fs.map Prod.fst
  | _ => []

end LLSD

/-- The `std::string` holding the given bytes, one character per byte. -/
def bytesToString (bytes : List U8) : String :=
  String.mk (bytes.map (fun b => Char.ofNat b.val))

/-! ## Transport-engine types (llcorehttp, used as a library) -/

/-- An `LLCore::HttpHandle`. -/
abbrev HttpHandle := Nat

/-- The null handle `LLCORE_HTTP_HANDLE_INVALID`. -/
def LLCORE_HTTP_HANDLE_INVALID : HttpHandle := 0

/-- An `LLCore::HttpStatus`: a type (the HTTP code for HTTP statuses), a status
code and a message. -/
structure HttpStatus where
  mType : Int
  mStatus : Int
  mMessage : String
deriving DecidableEq

namespace HttpStatus

/-- The conversion `operator bool`: a status is a success when its code is 0. -/
def toBool (s : HttpStatus) : Bool := s.mStatus == 0

/-- The comparison `operator==`: type and code, the message is not compared. -/
def eq (s t : HttpStatus) : Bool := s.mType == t.mType && s.mStatus == t.mStatus

end HttpStatus

/-- Constants that `llcorehttputil.cpp` takes from headers outside the file. -/
structure HttpConsts where
  /-- Source `LLCore::HttpStatus::LLCORE`. -/
  LLCORE : Int
  /-- Source `LLCore::HE_HANDLE_NOT_FOUND`. -/
  HE_HANDLE_NOT_FOUND : Int
  /-- The global `gStatusCancelled`. -/
  gStatusCancelled : HttpStatus
  /-- Source `HTTP_OUT_HEADER_ACCEPT`. -/
  HTTP_OUT_HEADER_ACCEPT : String
  /-- Source `HTTP_OUT_HEADER_CONTENT_TYPE`. -/
  HTTP_OUT_HEADER_CONTENT_TYPE : String
  /-- Source `HTTP_CONTENT_LLSD_XML`. -/
  HTTP_CONTENT_LLSD_XML : String

/-- An `LLCore::HttpResponse` as far as this file reads it. The body and the
header object are pointers that may be null. -/
structure HttpResponse where
  mStatus : HttpStatus
  mRequestURL : String
  mBody : Option (List U8)
  mHeaders : Option (List (String × String))

/-- What a member function did to its collaborators. -/
inductive Effect where
  /-- Source `request->requestCancel(handle, handler)` on the transport at `request`. -/
  | requestCancel (request : Nat) (handle : HttpHandle) (handler : Nat)
  /-- A request submitted to the transport (`requestGet`, `requestPost`, ...). -/
  | submit (request : Nat) (verb : String) (url : String)
  /-- Source `pump.post(event)` on the reply pump named `pump`. -/
  | post (pump : String) (event : LLSD)

namespace Effect

/-- Whether the effect is a post to a reply pump. -/
def isPost : Effect → Bool
  | .post _ _ => true
  | _ => false

/-- Whether the effect is a cancel request to the transport. -/
def isRequestCancel : Effect → Bool
  | .requestCancel _ _ _ => true
  | _ => false

/-- Whether the effect is a submission to the transport. -/
def isSubmit : Effect → Bool
  | .submit _ _ _ => true
  | _ => false

end Effect

/-- The object after a member call, the value returned, the effects in order. -/
structure Outcome (σ : Type) (α : Type) where
  self : σ
  ret : α
  effects : List Effect

/-! ## HttpCoroHandler -/

/-- The names of the Result fields. -/
def HTTP_RESULTS : String := "http_result"
def HTTP_RESULTS_SUCCESS : String := "success"
def HTTP_RESULTS_TYPE : String := "type"
def HTTP_RESULTS_STATUS : String := "status"
def HTTP_RESULTS_MESSAGE : String := "message"
def HTTP_RESULTS_URL : String := "url"
def HTTP_RESULTS_HEADERS : String := "headers"
def HTTP_RESULTS_CONTENT : String := "content"
def HTTP_RESULTS_RAW : String := "raw"

/-- A completion handler: the reply pump it posts to and its two virtual
members. `handleSuccess` receives the status by reference and may replace it;
`parseBody` receives the `success` flag by reference, so it is given the
incoming value and returns the outgoing one. -/
structure HttpCoroHandler where
  mReplyPump : String
  handleSuccess : Option HttpResponse → HttpStatus → LLSD × HttpStatus
  parseBody : Option HttpResponse → Bool → LLSD × Bool

namespace HttpCoroHandler

/-- Source `HttpCoroHandler::writeStatusCodes`. -/
def writeStatusCodes (status : HttpStatus) (url : String) (result : LLSD) : LLSD :=
  let result := result.set HTTP_RESULTS_SUCCESS (.boolean status.toBool)
  let result := result.set HTTP_RESULTS_TYPE (.integer status.mType)
  let result := result.set HTTP_RESULTS_STATUS (.integer status.mStatus)
  let result := result.set HTTP_RESULTS_MESSAGE (.string status.mMessage)
  result.set HTTP_RESULTS_URL (.string url)

/-- The header loop of `buildStatusEntry`: a non-empty value is stored as a
string, an empty one as the boolean `true`. -/
def copyHeaders (hdrs : List (String × String)) (httpheaders : LLSD) : LLSD :=
  hdrs.foldl
    (fun acc it => if it.2 ≠ "" then acc.set it.1 (.string it.2) else acc.set it.1 (.boolean true))
    httpheaders

/-- Source `HttpCoroHandler::buildStatusEntry`: nothing is written for a null response. -/
def buildStatusEntry (response : Option HttpResponse) (status : HttpStatus) (result : LLSD) :
    LLSD :=
  match response with
  | none => result
  | some resp =>
    let httpresults := writeStatusCodes status resp.mRequestURL LLSD.emptyMap
    let httpheaders :=
      match resp.mHeaders with
      | some hdrs => copyHeaders hdrs LLSD.emptyMap
      | none => LLSD.emptyMap
    let httpresults := httpresults.set HTTP_RESULTS_HEADERS httpheaders
    result.set HTTP_RESULTS httpresults

/-- The status `bad_handle` of `onCompleted`: (LLCORE, HE_HANDLE_NOT_FOUND). -/
def bad_handle (K : HttpConsts) : HttpStatus :=
  { mType := K.LLCORE, mStatus := K.HE_HANDLE_NOT_FOUND, mMessage := "" }

/-- The first half of `onCompleted` (up to the call of `buildStatusEntry`): the
result before the status entry is written, and the status after `handleSuccess`
had its chance to replace it. -/
def composeBody (h : HttpCoroHandler) (resp : HttpResponse) : LLSD × HttpStatus :=
  let status := resp.mStatus
  if !status.toBool then
    let result := LLSD.emptyMap
    let error := status.mType
    if error ≥ 400 ∧ error < 500 then
      let body := (h.parseBody (some resp) false).1
      if !body.isUndefined then
        if !body.isMap then
          (result.set HTTP_RESULTS_CONTENT body, status)
        else
          (body, status)
      else (result, status)
    else (result, status)
  else
    h.handleSuccess (some resp) status

/-- The second half of `onCompleted`: for a failed status the `error_body`
entry is written into the status entry, from `parseBody` when it reports
success and from the raw bytes of the body otherwise. -/
def attachErrorBody (h : HttpCoroHandler) (resp : HttpResponse) (status : HttpStatus)
    (result : LLSD) : LLSD :=
  if !status.toBool then
    let status_llsd := result.get HTTP_RESULTS
    let parsed := h.parseBody (some resp) false
    if parsed.2 then
      result.set HTTP_RESULTS (status_llsd.set "error_body" parsed.1)
    else
      let bodydata := bytesToString (resp.mBody.getD [])
      result.set HTTP_RESULTS (status_llsd.set "error_body" (.string bodydata))
  else result

/-- The Result that `onCompleted` composes for a response it does not drop. -/
def composeResult (h : HttpCoroHandler) (resp : HttpResponse) : LLSD :=
  let r := composeBody h resp
  let result := buildStatusEntry (some resp) r.2 r.1
  attachErrorBody h resp r.2 result

/-- Source `HttpCoroHandler::onCompleted`: a null response and the handle-not-found
status are dropped; everything else is composed and posted to the reply pump. -/
def onCompleted (K : HttpConsts) (h : HttpCoroHandler) (_handle : HttpHandle)
    (response : Option HttpResponse) : List Effect :=
  match response with
  | none => []
  | some resp =>
    if resp.mStatus.eq (bad_handle K) then []
    else [Effect.post h.mReplyPump (composeResult h resp)]

end HttpCoroHandler

/-- Source `HttpCoroRawHandler`: the body of a successful response is copied into the
`raw` entry; `parseBody` reports success and yields the undefined value. -/
def HttpCoroRawHandler (reply : String) : HttpCoroHandler where
  mReplyPump := reply
  handleSuccess := fun response status =>
    let result := LLSD.emptyMap
    let body := match response with
      | some r => r.mBody
      | none => none
    match body with
    | none => (result, status)
    | some data =>
      if data.length = 0 then (result, status)
      else (result.set HTTP_RESULTS_RAW (.binary data), status)
  parseBody := fun _ _ => (LLSD.undefined, true)

/-- Source `HttpCoroJSONHandler`: both members are stubs that return an empty map;
`parseBody` leaves the `success` flag as it found it. -/
def HttpCoroJSONHandler (reply : String) : HttpCoroHandler where
  mReplyPump := reply
  handleSuccess := fun _ status => (LLSD.emptyMap, status)
  parseBody := fun _ success => (LLSD.emptyMap, success)

/-! ## HttpCoroutineAdapter -/

/-- Which shared objects are still owned by some `shared_ptr`: the transport
engines (`HttpRequest`) by address, and the completion handlers by address
together with the object itself. -/
structure Heap where
  requests : List Nat
  handlers : List (Nat × HttpCoroHandler)

namespace Heap

/-- Source `weak_ptr<HttpRequest>::lock()`. -/
def lockRequest (heap : Heap) (weak : Option Nat) : Option Nat :=
  match weak with
  | none => none
  | some r => if r ∈ heap.requests then some r else none

/-- Source `weak_ptr<HttpCoroHandler>::lock()`. -/
def lockHandler (heap : Heap) (weak : Option Nat) : Option (Nat × HttpCoroHandler) :=
  match weak with
  | none => none
  | some p =>
    match heap.handlers.lookup p with
    | some h => some (p, h)
    | none => none

end Heap

/-- The members of an `HttpCoroutineAdapter`. `mRequest` is a `shared_ptr` that
may be null; `mWeakRequest` and `mWeakHandler` are `weak_ptr`s. The four members
`mURL`, `mWeakRequest`, `mWeakHandler`, `mYieldingHandle` are the PendingCall. -/
structure HttpCoroutineAdapter where
  mAdapterName : String
  mPolicyId : Nat
  mPriority : Nat
  mYieldingHandle : HttpHandle
  mRequest : Option Nat
  mWeakRequest : Option Nat
  mWeakHandler : Option Nat
  mURL : String
deriving DecidableEq

namespace HttpCoroutineAdapter

/-- The member initialisers of both constructors: the name, policy and priority
are stored, the yielding handle is the invalid handle, the weak pointers and the
URL are empty. The insertion into the registry is `instances_list_t.insert`. -/
def construct (name : String) (request : Option Nat) (polid pri : Nat) :
    HttpCoroutineAdapter :=
  { mAdapterName := name, mPolicyId := polid, mPriority := pri,
    mYieldingHandle := LLCORE_HTTP_HANDLE_INVALID, mRequest := request,
    mWeakRequest := none, mWeakHandler := none, mURL := "" }

/-- Source `HttpCoroutineAdapter::saveState`. -/
def saveState (self : HttpCoroutineAdapter) (url : String) (yielding_handle : HttpHandle)
    (handler : Nat) : HttpCoroutineAdapter :=
  { self with
    mURL := url
    mWeakRequest := self.mRequest
    mWeakHandler := some handler
    mYieldingHandle := yielding_handle }

/-- Source `HttpCoroutineAdapter::cleanState`. -/
def cleanState (self : HttpCoroutineAdapter) : HttpCoroutineAdapter :=
  { self with
    mURL := ""
    mWeakRequest := none
    mWeakHandler := none
    mYieldingHandle := LLCORE_HTTP_HANDLE_INVALID }

/-- Source `HttpCoroutineAdapter::cancelSuspendedOperation`. The fake result is built
after `cleanState`, from the members as `cleanState` left them. -/
def cancelSuspendedOperation (K : HttpConsts) (heap : Heap) (self : HttpCoroutineAdapter) :
    Outcome HttpCoroutineAdapter Unit :=
  let request := heap.lockRequest self.mWeakRequest
  let handler := heap.lockHandler self.mWeakHandler
  match request, handler with
  | some req, some (hp, h) =>
    if self.mYieldingHandle ≠ LLCORE_HTTP_HANDLE_INVALID then
      let e1 := Effect.requestCancel req self.mYieldingHandle hp
      let self1 := self.cleanState
      let status := HttpCoroHandler.writeStatusCodes K.gStatusCancelled self1.mURL LLSD.emptyMap
      let result := LLSD.emptyMap.set "http_result" status
      { self := self1, ret := (), effects := [e1, Effect.post h.mReplyPump result] }
    else
      { self := self, ret := (), effects := [] }
  | _, _ => { self := self, ret := (), effects := [] }

end HttpCoroutineAdapter

/-! ## The adapter registry `sInstances` -/

/-- The registry `sInstances`: the addresses of the adapters, without repeats. -/
abbrev instances_list_t := List Nat

namespace instances_list_t

/-- The set insertion `sInstances.insert(this)`. -/
def insert (s : instances_list_t) (p : Nat) : instances_list_t :=
  if p ∈ s then s else s ++ [p]

/-- The set removal `sInstances.erase(this)`. -/
def erase (s : instances_list_t) (p : Nat) : instances_list_t :=
  s.filter (fun q => q ≠ p)

/-- The membership test `sInstances.count(adapter)`. -/
def count (s : instances_list_t) (p : Nat) : Nat :=
  if p ∈ s then 1 else 0

end instances_list_t

/-- The destructor of the adapter at address `this`: the registry after
`sInstances.erase(this)` and the outcome of `cancelSuspendedOperation()`. -/
def HttpCoroutineAdapter.destructor (K : HttpConsts) (heap : Heap) (sInstances : instances_list_t)
    (this : Nat) (self : HttpCoroutineAdapter) :
    instances_list_t × Outcome HttpCoroutineAdapter Unit :=
  let sInstances := sInstances.erase this
  (sInstances, self.cancelSuspendedOperation K heap)

/-! ## The verb operations

Every verb operation of this source is a stub: after the test of `mRequest` it
returns a default-constructed (undefined) `LLSD` without touching the transport
or the PendingCall members. Overloads are told apart by a suffix. -/

/-- An `LLCore::HttpOptions` object as far as this file sets it. -/
structure HttpOptions where
  mWantHeaders : Bool
deriving DecidableEq

/-- The pointer type `LLCore::HttpOptions::ptr_t` (may be null). -/
abbrev HttpOptionsPtr := Option HttpOptions

/-- The pointer type `LLCore::HttpHeaders::ptr_t` (may be null). -/
abbrev HttpHeadersPtr := Option (List (String × String))

/-- The pointer type `LLCore::BufferArray::ptr_t` (may be null). -/
abbrev BufferArrayPtr := Option (List U8)

namespace HttpCoroutineAdapter

/-- The return of a member call that leaves the adapter alone and makes no call
on a collaborator. -/
def returns (self : HttpCoroutineAdapter) (v : LLSD) : Outcome HttpCoroutineAdapter LLSD :=
  { self := self, ret := v, effects := [] }

/-- Source `postAndSuspend(url, const LLSD& body, options, headers)`. -/
def postAndSuspend (self : HttpCoroutineAdapter) (_url : String) (_body : LLSD)
    (_options : HttpOptionsPtr) (_headers : HttpHeadersPtr) : Outcome HttpCoroutineAdapter LLSD :=
  match self.mRequest with
  | none => self.returns LLSD.undefined
  | some _ =>
    let result := LLSD.undefined
    self.returns result

/-- The private `postAndSuspend_(url, const LLSD& body, options, headers, handler)`. -/
def postAndSuspend_ (self : HttpCoroutineAdapter) (_url : String) (_body : LLSD)
    (_options : HttpOptionsPtr) (_headers : HttpHeadersPtr) (_handler : HttpCoroHandler) :
    Outcome HttpCoroutineAdapter LLSD :=
  let results := LLSD.undefined
  self.returns results

/-- Source `postAndSuspend(url, BufferArray::ptr_t rawbody, options, headers)`. -/
def postAndSuspend_rawbody (self : HttpCoroutineAdapter) (_url : String) (_rawbody : BufferArrayPtr)
    (_options : HttpOptionsPtr) (_headers : HttpHeadersPtr) : Outcome HttpCoroutineAdapter LLSD :=
  match self.mRequest with
  | none => self.returns LLSD.undefined
  | some _ =>
    let result := LLSD.undefined
    self.returns result

/-- The private `postAndSuspend_(url, BufferArray::ptr_t& rawbody, options,
headers, handler)`. -/
def postAndSuspend__rawbody (self : HttpCoroutineAdapter) (_url : String)
    (_rawbody : BufferArrayPtr) (_options : HttpOptionsPtr) (_headers : HttpHeadersPtr)
    (_handler : HttpCoroHandler) : Outcome HttpCoroutineAdapter LLSD :=
  let result := LLSD.undefined
  self.returns result

/-- Source `postRawAndSuspend`: a raw handler on a fresh reply pump named after the
adapter is handed to the private `postAndSuspend_`. -/
def postRawAndSuspend (self : HttpCoroutineAdapter) (url : String) (rawbody : BufferArrayPtr)
    (options : HttpOptionsPtr) (headers : HttpHeadersPtr) : Outcome HttpCoroutineAdapter LLSD :=
  match self.mRequest with
  | none => self.returns LLSD.undefined
  | some _ =>
    let http_handler := HttpCoroRawHandler self.mAdapterName
    self.postAndSuspend__rawbody url rawbody options headers http_handler

/-- Source `postFileAndSuspend(url, std::string filename, options, headers)`. The
argument `file` is the content of the named file, `none` when it cannot be
opened; the buffer handed on is then empty. -/
def postFileAndSuspend (self : HttpCoroutineAdapter) (url : String) (file : Option (List U8))
    (options : HttpOptionsPtr) (headers : HttpHeadersPtr) : Outcome HttpCoroutineAdapter LLSD :=
  match self.mRequest with
  | none => self.returns LLSD.undefined
  | some _ =>
    let filedata : List U8 := file.getD []
    self.postAndSuspend_rawbody url (some filedata) options headers

/-- Source `postFileAndSuspend(url, const LLUUID& assetid, assetType, options, headers)`. -/
def postFileAndSuspend_asset (self : HttpCoroutineAdapter) (_url : String) (_assetid : String)
    (_assetType : Int) (_options : HttpOptionsPtr) (_headers : HttpHeadersPtr) :
    Outcome HttpCoroutineAdapter LLSD :=
  let result := LLSD.undefined
  self.returns result

/-- Source `postJsonAndSuspend`: there is no test of `mRequest`. -/
def postJsonAndSuspend (self : HttpCoroutineAdapter) (_url : String) (_body : LLSD)
    (_options : HttpOptionsPtr) (_headers : HttpHeadersPtr) : Outcome HttpCoroutineAdapter LLSD :=
  let result := LLSD.undefined
  self.returns result

/-- Source `putAndSuspend`. -/
def putAndSuspend (self : HttpCoroutineAdapter) (_url : String) (_body : LLSD)
    (_options : HttpOptionsPtr) (_headers : HttpHeadersPtr) : Outcome HttpCoroutineAdapter LLSD :=
  match self.mRequest with
  | none => self.returns LLSD.undefined
  | some _ =>
    let result := LLSD.undefined
    self.returns result

/-- Source `putJsonAndSuspend`. -/
def putJsonAndSuspend (self : HttpCoroutineAdapter) (_url : String) (_body : LLSD)
    (_options : HttpOptionsPtr) (_headers : HttpHeadersPtr) : Outcome HttpCoroutineAdapter LLSD :=
  match self.mRequest with
  | none => self.returns LLSD.undefined
  | some _ =>
    let result := LLSD.undefined
    self.returns result

/-- Source `getAndSuspend`. -/
def getAndSuspend (self : HttpCoroutineAdapter) (_url : String)
    (_options : HttpOptionsPtr) (_headers : HttpHeadersPtr) : Outcome HttpCoroutineAdapter LLSD :=
  match self.mRequest with
  | none => self.returns LLSD.undefined
  | some _ =>
    let result := LLSD.undefined
    self.returns result

/-- Source `getRawAndSuspend`. -/
def getRawAndSuspend (self : HttpCoroutineAdapter) (_url : String)
    (_options : HttpOptionsPtr) (_headers : HttpHeadersPtr) : Outcome HttpCoroutineAdapter LLSD :=
  match self.mRequest with
  | none => self.returns LLSD.undefined
  | some _ =>
    let result := LLSD.undefined
    self.returns result

/-- Source `getJsonAndSuspend`. -/
def getJsonAndSuspend (self : HttpCoroutineAdapter) (_url : String)
    (_options : HttpOptionsPtr) (_headers : HttpHeadersPtr) : Outcome HttpCoroutineAdapter LLSD :=
  match self.mRequest with
  | none => self.returns LLSD.undefined
  | some _ =>
    let result := LLSD.undefined
    self.returns result

/-- The private `getAndSuspend_`. -/
def getAndSuspend_ (self : HttpCoroutineAdapter) (_url : String)
    (_options : HttpOptionsPtr) (_headers : HttpHeadersPtr) (_handler : HttpCoroHandler) :
    Outcome HttpCoroutineAdapter LLSD :=
  let result := LLSD.undefined
  self.returns result

/-- Source `deleteAndSuspend`. -/
def deleteAndSuspend (self : HttpCoroutineAdapter) (_url : String)
    (_options : HttpOptionsPtr) (_headers : HttpHeadersPtr) : Outcome HttpCoroutineAdapter LLSD :=
  match self.mRequest with
  | none => self.returns LLSD.undefined
  | some _ =>
    let result := LLSD.undefined
    self.returns result

/-- Source `deleteJsonAndSuspend`. -/
def deleteJsonAndSuspend (self : HttpCoroutineAdapter) (_url : String)
    (_options : HttpOptionsPtr) (_headers : HttpHeadersPtr) : Outcome HttpCoroutineAdapter LLSD :=
  match self.mRequest with
  | none => self.returns LLSD.undefined
  | some _ =>
    let result := LLSD.undefined
    self.returns result

/-- Source `patchAndSuspend`. -/
def patchAndSuspend (self : HttpCoroutineAdapter) (_url : String) (_body : LLSD)
    (_options : HttpOptionsPtr) (_headers : HttpHeadersPtr) : Outcome HttpCoroutineAdapter LLSD :=
  match self.mRequest with
  | none => self.returns LLSD.undefined
  | some _ =>
    let result := LLSD.undefined
    self.returns result

/-- Source `copyAndSuspend`. -/
def copyAndSuspend (self : HttpCoroutineAdapter) (_url : String) (_dest : String)
    (_options : HttpOptionsPtr) (_headers : HttpHeadersPtr) : Outcome HttpCoroutineAdapter LLSD :=
  match self.mRequest with
  | none => self.returns LLSD.undefined
  | some _ =>
    let result := LLSD.undefined
    self.returns result

/-- Source `moveAndSuspend`. -/
def moveAndSuspend (self : HttpCoroutineAdapter) (_url : String) (_dest : String)
    (_options : HttpOptionsPtr) (_headers : HttpHeadersPtr) : Outcome HttpCoroutineAdapter LLSD :=
  match self.mRequest with
  | none => self.returns LLSD.undefined
  | some _ =>
    let result := LLSD.undefined
    self.returns result

end HttpCoroutineAdapter

/-! ## The process state around the registry: `cleanup` -/

/-- The process state `cleanup` runs in: the registry, the adapter object at
each address, the heap, and the effects so far. -/
structure World where
  sInstances : instances_list_t
  adapters : Nat → HttpCoroutineAdapter
  heap : Heap
  effects : List Effect

/-- What the listeners of a reply pump do with a posted event, the resumed task
included: an arbitrary change of the process state. -/
abbrev Listeners := String → LLSD → World → World

namespace World

/-- The call `adapter->cancelSuspendedOperation()` inside the process state:
the adapter object is updated, its effects are appended, and the post, being
the last thing the call does, hands control to the listeners of the pump. -/
def cancelSuspendedOperation (K : HttpConsts) (listeners : Listeners) (adapter : Nat)
    (w : World) : World :=
  let o := (w.adapters adapter).cancelSuspendedOperation K w.heap
  let w1 : World :=
    { w with adapters := Function.update w.adapters adapter o.self
             effects := w.effects ++ o.effects }
  match o.effects.getLast? with
  | some (Effect.post pump event) => listeners pump event w1
  | _ => w1

/-- The loop of `cleanup` over the copy of the registry: the state after the
loop and the adapters on which it called `cancelSuspendedOperation`, in order. -/
def cleanupLoop (K : HttpConsts) (listeners : Listeners) :
    List Nat → World → World × List Nat
  | [], w => (w, [])
  | adapter :: rest, w =>
    if w.sInstances.count adapter ≠ 0 then
      let r := cleanupLoop K listeners rest (w.cancelSuspendedOperation K listeners adapter)
      (r.1, adapter :: r.2)
    else
      cleanupLoop K listeners rest w

/-- The static `HttpCoroutineAdapter::cleanup`. -/
def cleanup (K : HttpConsts) (listeners : Listeners) (w : World) : World × List Nat :=
  if w.sInstances.isEmpty then (w, [])
  else
    let copy := w.sInstances
    cleanupLoop K listeners copy w

end World

/-! ## Status extraction and the immediate error result -/

/-- The conversions `asInteger()` of the scalar kinds whose payload this
development leaves uninterpreted: reals, strings and dates. -/
structure LLSDConversions where
  realAsInteger : Nat → Int
  stringAsInteger : String → Int
  dateAsInteger : String → Int

/-- Source `LLSD::asInteger()`: an integer is itself, a boolean is 1 or 0, the
undefined value and the kinds without an integer reading (uuid, uri, binary,
map, array) are 0. -/
def LLSD.asInteger (C : LLSDConversions) : LLSD → Int
  | .undefined => 0
  | .boolean b => if b then 1 else 0
  | .integer i => i
  | .real bits => C.realAsInteger bits
  | .string s => C.stringAsInteger s
  | .date s => C.dateAsInteger s
  | .uuid _ => 0
  | .uri _ => 0
  | .binary _ => 0
  | .map _ => 0
  | .array _ => 0

/-- The cast `(short)code` of a 32-bit integer: the low 16 bits, read as a
signed number. -/
def toShort (i : Int) : Int := (i + 32768) % 65536 - 32768

/-- Source `HttpCoroutineAdapter::getStatusFromLLSD`: the type and the code are read
from the `http_result` entry when there is one and from the value itself
otherwise; the status built from them has an empty message. -/
def HttpCoroutineAdapter.getStatusFromLLSD (C : LLSDConversions) (results : LLSD) : HttpStatus :=
  let resp := if results.has HTTP_RESULTS then results.get HTTP_RESULTS else results
  let type := (resp.get HTTP_RESULTS_TYPE).asInteger C
  let code := (resp.get HTTP_RESULTS_STATUS).asInteger C
  { mType := type, mStatus := toShort code, mMessage := "" }

/-- Source `HttpCoroutineAdapter::buildImmediateErrorResult`. The argument
`getStatus` gives the status that the transport at an address reports. -/
def HttpCoroutineAdapter.buildImmediateErrorResult (self : HttpCoroutineAdapter)
    (getStatus : Nat → HttpStatus) (url : String) : LLSD :=
  match self.mRequest with
  | none => LLSD.undefined
  | some request =>
    let status := getStatus request
    let httpresults := HttpCoroHandler.writeStatusCodes status url LLSD.emptyMap
    let errors := LLSD.emptyMap
    errors.set "http_result" httpresults

/-! ## LLPanelGroup (indra/newview/llpanelgroup.cpp)

The tabs are named by a natural number (their address). What the panel asks of
its collaborators (the tabs, the tab container, the parent view) is given by a
`PanelEnv`; what it tells them is recorded as `PanelEffect`s. -/

/-- The tab container as far as the panel reads it: `getCurrentPanel()`. -/
structure LLTabContainer where
  mCurrentPanel : Option Nat
deriving DecidableEq

/-- The members of `LLPanelGroup` that the tab transitions read or write. -/
structure LLPanelGroup where
  mCurrentTab : Option Nat
  mRequestedTab : Option Nat
  mTabContainer : Option LLTabContainer
  mIgnoreTransition : Bool
  mForceClose : Bool
  mAllowEdit : Bool
  mShowingNotifyDialog : Bool
  mDefaultNeedsApplyMesg : String
  mWantApplyMesg : String
deriving DecidableEq

/-- The collaborators of the panel. -/
structure PanelEnv where
  /-- The answer of `LLPanelGroupTab::needsApply(mesg)` and the message it sets. -/
  needsApply : Nat → Bool × String
  /-- The answer of `hasModal()` of a tab. -/
  hasModal : Nat → Bool
  /-- Whether the parent view of the panel is a floater. -/
  parentIsFloater : Bool
  /-- The container after `selectTabPanel(tab)` and whether the selection
  triggers the commit callback of the container, which is `handleClickTab`. -/
  selectTabPanel : LLTabContainer → Option Nat → LLTabContainer × Bool

/-- What the panel tells its collaborators. -/
inductive PanelEffect where
  /-- The call `LLNotificationsUtil::add(name, args, ...)` with the two messages. -/
  | notify (name : String) (needs_apply_message want_apply_message : String)
  /-- The call `mTabContainer->selectTabPanel(tab)`. -/
  | selectTabPanel (tab : Option Nat)
  /-- The call `deactivate()` on a tab. -/
  | deactivate (tab : Nat)
  /-- The call `activate()` on a tab. -/
  | activate (tab : Nat)
  /-- The call `close()` on the parent floater. -/
  | closeFloater
deriving DecidableEq

/-- The panel after a member call, the value returned, the effects in order. -/
structure PanelOutcome (α : Type) where
  self : LLPanelGroup
  ret : α
  effects : List PanelEffect

/-- How a call ends: it returns, it dereferences a null pointer, or the fuel of
the model is used up. -/
inductive Run (α : Type) where
  | done (a : α)
  | crashed
  | outOfFuel

namespace LLPanelGroup

/-- Source `LLPanelGroup::close`. -/
def close (E : PanelEnv) (self : LLPanelGroup) : PanelOutcome Unit :=
  if E.parentIsFloater then
    { self := { self with mForceClose := true }, ret := (),
      effects := [PanelEffect.closeFloater] }
  else { self := self, ret := (), effects := [] }

/-- Source `LLPanelGroup::transitionToTab`. -/
def transitionToTab (E : PanelEnv) (self : LLPanelGroup) : PanelOutcome Unit :=
  let e1 : List PanelEffect :=
    match self.mCurrentTab with
    | some tab => [PanelEffect.deactivate tab]
    | none => []
  match self.mRequestedTab with
  | some requested =>
    { self := { self with mCurrentTab := some requested }, ret := (),
      effects := e1 ++ [PanelEffect.activate requested] }
  | none =>
    let o := close E self
    { self := o.self, ret := (), effects := e1 ++ o.effects }

mutual

/-- Source `LLPanelGroup::attemptTransition`. The re-selection of the current tab
runs the commit callback `handleClickTab` when the container triggers it. -/
def attemptTransition (E : PanelEnv) : Nat → LLPanelGroup → Run (PanelOutcome Bool)
  | 0, _ => Run.outOfFuel
  | fuel + 1, self =>
    let needs : Option (Nat × String) :=
      match self.mCurrentTab with
      | some tab => if (E.needsApply tab).1 then some (tab, (E.needsApply tab).2) else none
      | none => none
    match needs with
    | some (tab, mesg) =>
      let mesg := if mesg = "" then self.mDefaultNeedsApplyMesg else mesg
      let e1 := PanelEffect.notify "PanelGroupApply" mesg self.mWantApplyMesg
      let self := { self with mShowingNotifyDialog := true }
      match self.mTabContainer with
      | some container =>
        let self := { self with mIgnoreTransition := true }
        let selected := E.selectTabPanel container (some tab)
        let self := { self with mTabContainer := some selected.1 }
        let e2 := PanelEffect.selectTabPanel (some tab)
        if selected.2 then
          match handleClickTab E fuel self with
          | Run.done o =>
            Run.done { self := { o.self with mIgnoreTransition := false }, ret := false,
                       effects := [e1, e2] ++ o.effects }
          | Run.crashed => Run.crashed
          | Run.outOfFuel => Run.outOfFuel
        else
          Run.done { self := { self with mIgnoreTransition := false }, ret := false,
                     effects := [e1, e2] }
      | none => Run.done { self := self, ret := false, effects := [e1] }
    | none =>
      match self.mRequestedTab with
      | some _ =>
        let o := transitionToTab E self
        Run.done { self := o.self, ret := true, effects := o.effects }
      | none => Run.done { self := self, ret := true, effects := [] }

/-- Source `LLPanelGroup::handleClickTab`. -/
def handleClickTab (E : PanelEnv) : Nat → LLPanelGroup → Run (PanelOutcome Unit)
  | 0, _ => Run.outOfFuel
  | fuel + 1, self =>
    if self.mIgnoreTransition then
      Run.done { self := self, ret := (), effects := [] }
    else
      match self.mTabContainer with
      | none => Run.crashed
      | some container =>
        let self := { self with mRequestedTab := container.mCurrentPanel }
        if self.mRequestedTab = self.mCurrentTab then
          Run.done { self := self, ret := (), effects := [] }
        else
          match attemptTransition E fuel self with
          | Run.done o => Run.done { self := o.self, ret := (), effects := o.effects }
          | Run.crashed => Run.crashed
          | Run.outOfFuel => Run.outOfFuel

end

/-- Source `LLPanelGroup::canClose`. -/
def canClose (E : PanelEnv) (fuel : Nat) (self : LLPanelGroup) : Run (PanelOutcome Bool) :=
  if self.mShowingNotifyDialog then
    Run.done { self := self, ret := false, effects := [] }
  else if (match self.mCurrentTab with
      | some tab => E.hasModal tab
      | none => false) then
    Run.done { self := self, ret := false, effects := [] }
  else if self.mForceClose || !self.mAllowEdit then
    Run.done { self := self, ret := true, effects := [] }
  else
    let self := { self with mRequestedTab := none }
    attemptTransition E fuel self

end LLPanelGroup

/-! ## Auxiliary definitions used in the statements -/

/-- The Result that `cancelSuspendedOperation` posts: an `http_result` entry
written from `gStatusCancelled` and the URL member as `cleanState` left it. -/
def cancelledResult (K : HttpConsts) : LLSD :=
  LLSD.emptyMap.set "http_result"
    (HttpCoroHandler.writeStatusCodes K.gStatusCancelled "" LLSD.emptyMap)

/-- Whether `onCompleted` goes on to compose a Result for the completion: the
response is not null and its status is not the handle-not-found status. -/
def isGenuine (K : HttpConsts) (response : Option HttpResponse) : Bool :=
  match response with
  | none => false
  | some resp => !(resp.mStatus.eq (HttpCoroHandler.bad_handle K))

/-- The effects of a sequence of `onCompleted` invocations on one handler. -/
def completions (K : HttpConsts) (h : HttpCoroHandler) :
    List (HttpHandle × Option HttpResponse) → List Effect
  | [] => []
  | ev :: rest => HttpCoroHandler.onCompleted K h ev.1 ev.2 ++ completions K h rest

/-- The number of posts among a list of effects. -/
def postCount (effects : List Effect) : Nat := (effects.filter Effect.isPost).length

/-- The number of posts to the pump `pump` among a list of effects. -/
def postCountOn (pump : String) : List Effect → Nat
  | [] => 0
  | Effect.post p _ :: rest => (if p = pump then 1 else 0) + postCountOn pump rest
  | _ :: rest => postCountOn pump rest

/-- The status entry that `buildStatusEntry` stores under `http_result`. -/
def statusEntry (resp : HttpResponse) (status : HttpStatus) : LLSD :=
  (HttpCoroHandler.writeStatusCodes status resp.mRequestURL LLSD.emptyMap).set
    HTTP_RESULTS_HEADERS
    (match resp.mHeaders with
     | some hdrs => HttpCoroHandler.copyHeaders hdrs LLSD.emptyMap
     | none => LLSD.emptyMap)

/-- The value that `onCompleted` stores under `error_body` for a failed status. -/
def errorBody (h : HttpCoroHandler) (resp : HttpResponse) : LLSD :=
  if (h.parseBody (some resp) false).2 then (h.parseBody (some resp) false).1
  else LLSD.string (bytesToString (resp.mBody.getD []))

/-- The value of the header named `name` in a header list: that of the last
header carrying the name when there are several, `none` when there is none. -/
def headerValue (name : String) : List (String × String) → Option String
  | [] => none
  | (n, v) :: rest =>
    match headerValue name rest with
    | some w => some w
    | none => if n = name then some v else none

/-- The value under which `buildStatusEntry` records a header value. -/
def headerEntry (value : String) : LLSD :=
  if value ≠ "" then LLSD.string value else LLSD.boolean true

/-- The `headers` map inside the status entry of a Result. -/
def headersOf (result : LLSD) : LLSD :=
  (result.get HTTP_RESULTS).get HTTP_RESULTS_HEADERS

/-- Whether a status fits the machine types of `HttpStatus`: a type that is a
32-bit integer and a code that is a `short`. -/
def HttpStatus.wellTyped (s : HttpStatus) : Prop :=
  -2147483648 ≤ s.mType ∧ s.mType ≤ 2147483647 ∧ -32768 ≤ s.mStatus ∧ s.mStatus ≤ 32767

/-- Modelled from the spec: the value of the global `gStatusCancelled`, which is
declared outside the source file. The spec calls it a sentinel "operation was
cancelled" code of the status category `Cancelled`, which is not a success and
which the caller can distinguish from any real HTTP status: it is a failed
status, and its type is not an HTTP code (100 to 999), the type that the status
of an HTTP response carries. -/
def HttpConsts.cancelledIsSentinel (K : HttpConsts) : Prop :=
  K.gStatusCancelled.toBool = false ∧
  ¬ (100 ≤ K.gStatusCancelled.mType ∧ K.gStatusCancelled.mType ≤ 999) ∧
  K.gStatusCancelled.wellTyped

/-- Whether a status is that of an HTTP response: its type is the HTTP code. -/
def HttpStatus.isHttp (s : HttpStatus) : Prop := 100 ≤ s.mType ∧ s.mType ≤ 999

/-! ## Default headers and the fire-and-forget calls -/

/-- Source `HttpCoroutineAdapter::checkDefaultHeaders`. The header set is a vector
of name and value pairs; `find` is `headerValue` (the search of `HttpHeaders`
runs from the end) and `append` adds at the end. -/
def HttpCoroutineAdapter.checkDefaultHeaders (K : HttpConsts) (headers : HttpHeadersPtr) :
    HttpHeadersPtr :=
  let hdrs : List (String × String) :=
    match headers with
    | none => []
    | some h => h
  let hdrs :=
    if (headerValue K.HTTP_OUT_HEADER_ACCEPT hdrs).isNone then
      hdrs ++ [(K.HTTP_OUT_HEADER_ACCEPT, K.HTTP_CONTENT_LLSD_XML)]
    else hdrs
  let hdrs :=
    if (headerValue K.HTTP_OUT_HEADER_CONTENT_TYPE hdrs).isNone then
      hdrs ++ [(K.HTTP_OUT_HEADER_CONTENT_TYPE, K.HTTP_CONTENT_LLSD_XML)]
    else hdrs
  some hdrs

/-- An invocation of one of the two completion callbacks, with its argument. -/
inductive CallbackCall where
  | success (arg : LLSD)
  | failure (arg : LLSD)

namespace CallbackCall

/-- Whether the invocation is one of the success callback. -/
def isSuccess : CallbackCall → Bool
  | .success _ => true
  | .failure _ => false

/-- Whether the invocation is one of the failure callback. -/
def isFailure : CallbackCall → Bool
  | .success _ => false
  | .failure _ => true

end CallbackCall

/-- The part that `trivialGetCoro` and `trivialPostCoro` share after the
suspending call has returned `result`: the status is extracted and one of the
callbacks is invoked. A callback is given as `true` when it was supplied and as
`false` when it is null. -/
def dispatchCompletion (C : LLSDConversions) (result : LLSD) (success failure : Bool) :
    List CallbackCall :=
  let status := HttpCoroutineAdapter.getStatusFromLLSD C result
  if status.toBool then
    if success then [CallbackCall.success result] else []
  else if failure then
    let http_results := result.get HTTP_RESULTS
    [CallbackCall.failure http_results]
  else []

/-- Source `HttpCoroutineAdapter::trivialGetCoro`. The arguments `defaultRequest` and
`defaultHeaders` stand for the macro `DEFAULT_HTTP_REQUEST` and the default
header argument, which are declared outside the file. -/
def HttpCoroutineAdapter.trivialGetCoro (C : LLSDConversions) (defaultRequest : Option Nat)
    (defaultHeaders : HttpHeadersPtr) (url : String) (policy_id : Nat)
    (success failure : Bool) : List CallbackCall :=
  let options : HttpOptionsPtr := some { mWantHeaders := true }
  let adapter := HttpCoroutineAdapter.construct "genericGetCoro" defaultRequest policy_id 0
  let result := (adapter.getAndSuspend url options defaultHeaders).ret
  dispatchCompletion C result success failure

/-- Source `HttpCoroutineAdapter::trivialPostCoro`. -/
def HttpCoroutineAdapter.trivialPostCoro (C : LLSDConversions) (defaultRequest : Option Nat)
    (defaultHeaders : HttpHeadersPtr) (url : String) (policy_id : Nat) (postdata : LLSD)
    (success failure : Bool) : List CallbackCall :=
  let options : HttpOptionsPtr := some { mWantHeaders := true }
  let adapter := HttpCoroutineAdapter.construct "genericPostCoro" defaultRequest policy_id 0
  let result := (adapter.postAndSuspend url postdata options defaultHeaders).ret
  dispatchCompletion C result success failure

/-! ## The life of adapters in the process state -/

/-- A call of one of the verb operations, with its arguments. -/
inductive VerbCall where
  | getAndSuspend (url : String) (options : HttpOptionsPtr) (headers : HttpHeadersPtr)
  | getRawAndSuspend (url : String) (options : HttpOptionsPtr) (headers : HttpHeadersPtr)
  | getJsonAndSuspend (url : String) (options : HttpOptionsPtr) (headers : HttpHeadersPtr)
  | postAndSuspend (url : String) (body : LLSD) (options : HttpOptionsPtr)
      (headers : HttpHeadersPtr)
  | postAndSuspend_rawbody (url : String) (rawbody : BufferArrayPtr) (options : HttpOptionsPtr)
      (headers : HttpHeadersPtr)
  | postRawAndSuspend (url : String) (rawbody : BufferArrayPtr) (options : HttpOptionsPtr)
      (headers : HttpHeadersPtr)
  | postFileAndSuspend (url : String) (file : Option (List U8)) (options : HttpOptionsPtr)
      (headers : HttpHeadersPtr)
  | postFileAndSuspend_asset (url : String) (assetid : String) (assetType : Int)
      (options : HttpOptionsPtr) (headers : HttpHeadersPtr)
  | postJsonAndSuspend (url : String) (body : LLSD) (options : HttpOptionsPtr)
      (headers : HttpHeadersPtr)
  | putAndSuspend (url : String) (body : LLSD) (options : HttpOptionsPtr)
      (headers : HttpHeadersPtr)
  | putJsonAndSuspend (url : String) (body : LLSD) (options : HttpOptionsPtr)
      (headers : HttpHeadersPtr)
  | patchAndSuspend (url : String) (body : LLSD) (options : HttpOptionsPtr)
      (headers : HttpHeadersPtr)
  | deleteAndSuspend (url : String) (options : HttpOptionsPtr) (headers : HttpHeadersPtr)
  | deleteJsonAndSuspend (url : String) (options : HttpOptionsPtr) (headers : HttpHeadersPtr)
  | copyAndSuspend (url : String) (dest : String) (options : HttpOptionsPtr)
      (headers : HttpHeadersPtr)
  | moveAndSuspend (url : String) (dest : String) (options : HttpOptionsPtr)
      (headers : HttpHeadersPtr)

/-- The verb operation that a `VerbCall` names, run on an adapter. -/
def VerbCall.run (call : VerbCall) (self : HttpCoroutineAdapter) :
    Outcome HttpCoroutineAdapter LLSD :=
  match call with
  | .getAndSuspend url o h => self.getAndSuspend url o h
  | .getRawAndSuspend url o h => self.getRawAndSuspend url o h
  | .getJsonAndSuspend url o h => self.getJsonAndSuspend url o h
  | .postAndSuspend url b o h => self.postAndSuspend url b o h
  | .postAndSuspend_rawbody url b o h => self.postAndSuspend_rawbody url b o h
  | .postRawAndSuspend url b o h => self.postRawAndSuspend url b o h
  | .postFileAndSuspend url f o h => self.postFileAndSuspend url f o h
  | .postFileAndSuspend_asset url a t o h => self.postFileAndSuspend_asset url a t o h
  | .postJsonAndSuspend url b o h => self.postJsonAndSuspend url b o h
  | .putAndSuspend url b o h => self.putAndSuspend url b o h
  | .putJsonAndSuspend url b o h => self.putJsonAndSuspend url b o h
  | .patchAndSuspend url b o h => self.patchAndSuspend url b o h
  | .deleteAndSuspend url o h => self.deleteAndSuspend url o h
  | .deleteJsonAndSuspend url o h => self.deleteJsonAndSuspend url o h
  | .copyAndSuspend url d o h => self.copyAndSuspend url d o h
  | .moveAndSuspend url d o h => self.moveAndSuspend url d o h

/-- An operation on the adapters of the process. -/
inductive AdapterEvent where
  /-- Either constructor, run for the adapter at address `p`. -/
  | construct (p : Nat) (name : String) (request : Option Nat) (polid pri : Nat)
  /-- The destructor of the adapter at address `p`. -/
  | destroy (p : Nat)
  /-- A verb operation on the adapter at address `p`. -/
  | verb (p : Nat) (call : VerbCall)
  /-- The call `cancelSuspendedOperation()` on the adapter at address `p`. -/
  | cancel (p : Nat)
  /-- The static `cleanup()`. -/
  | cleanup

namespace World

/-- A constructor inside the process state: the members are initialised and
`this` is inserted into `sInstances`. -/
def construct (p : Nat) (name : String) (request : Option Nat) (polid pri : Nat) (w : World) :
    World :=
  { w with
    adapters := Function.update w.adapters p
      (HttpCoroutineAdapter.construct name request polid pri)
    sInstances := w.sInstances.insert p }

/-- The destructor inside the process state: `this` is erased from `sInstances`,
then `cancelSuspendedOperation()` runs. -/
def destroy (K : HttpConsts) (listeners : Listeners) (p : Nat) (w : World) : World :=
  World.cancelSuspendedOperation K listeners p { w with sInstances := w.sInstances.erase p }

/-- A verb operation inside the process state. -/
def verb (p : Nat) (call : VerbCall) (w : World) : World :=
  let o := call.run (w.adapters p)
  { w with adapters := Function.update w.adapters p o.self
           effects := w.effects ++ o.effects }

/-- One operation on the adapters. -/
def step (K : HttpConsts) (listeners : Listeners) (ev : AdapterEvent) (w : World) : World :=
  match ev with
  | .construct p name request polid pri => w.construct p name request polid pri
  | .destroy p => w.destroy K listeners p
  | .verb p call => w.verb p call
  | .cancel p => w.cancelSuspendedOperation K listeners p
  | .cleanup => (w.cleanup K listeners).1

/-- A finite sequence of operations on the adapters, in order. -/
def run (K : HttpConsts) (listeners : Listeners) : List AdapterEvent → World → World
  | [], w => w
  | ev :: rest, w => run K listeners rest (w.step K listeners ev)

end World

/-- Whether the adapter at address `p` has been constructed and not yet
destroyed after a sequence of operations, given whether it was so before. -/
def liveAfter (p : Nat) : List AdapterEvent → Bool → Bool
  | [], b => b
  | AdapterEvent.construct q _ _ _ _ :: rest, b => liveAfter p rest (if q = p then true else b)
  | AdapterEvent.destroy q :: rest, b => liveAfter p rest (if q = p then false else b)
  | _ :: rest, b => liveAfter p rest b

/-- The six fields of the status entry that `buildStatusEntry` writes. -/
def statusEntryKeys : List String :=
  [HTTP_RESULTS_SUCCESS, HTTP_RESULTS_TYPE, HTTP_RESULTS_STATUS, HTTP_RESULTS_MESSAGE,
    HTTP_RESULTS_URL, HTTP_RESULTS_HEADERS]

/-! ## Concrete values used by the closed statements -/

/-- A choice of the outside constants. -/
def K0 : HttpConsts :=
  { LLCORE := 2, HE_HANDLE_NOT_FOUND := 5,
    gStatusCancelled := { mType := 2, mStatus := 3, mMessage := "Operation canceled" },
    HTTP_OUT_HEADER_ACCEPT := "Accept",
    HTTP_OUT_HEADER_CONTENT_TYPE := "Content-Type",
    HTTP_CONTENT_LLSD_XML := "application/llsd+xml" }

/-- A heap with the transport at address 1 and a raw handler at address 7 that
posts to the pump `reply`. -/
def heap0 : Heap :=
  { requests := [1], handlers := [(7, HttpCoroRawHandler "reply")] }

/-- An adapter on transport 1 that recorded a call to `/slow` with handle 5 and
handler 7. -/
def pending0 : HttpCoroutineAdapter :=
  (HttpCoroutineAdapter.construct "adapter" (some 1) 0 0).saveState "/slow" 5 7

/-- An adapter on transport 1 that has no call recorded. -/
def idle0 : HttpCoroutineAdapter := HttpCoroutineAdapter.construct "adapter" (some 1) 0 0

/-- An adapter without a transport. -/
def norequest0 : HttpCoroutineAdapter := HttpCoroutineAdapter.construct "adapter" none 0 0

/-- The bytes of the text `{"a": 1}`. -/
def bodyA1 : List U8 := [123, 34, 97, 34, 58, 32, 49, 125]

/-- A response with HTTP status 200 that echoes `{"a": 1}`. -/
def resp200 : HttpResponse :=
  { mStatus := { mType := 200, mStatus := 0, mMessage := "OK" },
    mRequestURL := "/echo", mBody := some bodyA1, mHeaders := none }

/-- A process state with three registered adapters (addresses 1, 2, 3), each
with a call pending on its own handler (addresses 11, 12, 13) and reply pump. -/
def world0 : World :=
  { sInstances := [1, 2, 3],
    adapters := fun p =>
      (HttpCoroutineAdapter.construct "adapter" (some 1) 0 0).saveState "/slow" (p + 1) (10 + p),
    heap := { requests := [1],
              handlers := [(11, HttpCoroRawHandler "reply1"), (12, HttpCoroRawHandler "reply2"),
                           (13, HttpCoroRawHandler "reply3")] },
    effects := [] }

/-- Listeners under which the task resumed through the pump `reply1` destroys
the adapter at address 2 (here: takes it out of the registry). -/
def listeners0 : Listeners := fun pump _ w =>
  if pump = "reply1" then { w with sInstances := w.sInstances.erase 2 } else w

/-- The document `{"a": 1}`. -/
def docA1 : LLSD := LLSD.map [("a", LLSD.integer 1)]

/-- A response with HTTP status 404 (type 404, code 1) and the given body. -/
def resp404 (body : List U8) : HttpResponse :=
  { mStatus := { mType := 404, mStatus := 1, mMessage := "Not Found" },
    mRequestURL := "/missing", mBody := some body, mHeaders := none }

/-- A handler variant whose `parseBody` yields the given document for every
response and reports the parse as failed or succeeded as told. -/
def parsingHandler (reply : String) (doc : LLSD) (ok : Bool) : HttpCoroHandler where
  mReplyPump := reply
  handleSuccess := fun _ status => (doc, status)
  parseBody := fun _ _ => (doc, ok)

/-- A map body that carries an `http_result` field of its own. -/
def spoofBody : LLSD :=
  LLSD.map [("error", LLSD.string "not found"), ("http_result", LLSD.string "spoof")]

/-- A handler variant whose `handleSuccess` reads the body and, when the body
is the text `oops`, replaces the status it was given by the failure (499, 1)
with the message `Failed to deserialize LLSD.`; for every other body it leaves
the status alone. Its `parseBody` reports failure. -/
def deserializingHandler (reply : String) : HttpCoroHandler where
  mReplyPump := reply
  handleSuccess := fun response status =>
    match response with
    | some r =>
      if r.mBody = some [111, 111, 112, 115] then
        (LLSD.emptyMap,
          { mType := 499, mStatus := 1, mMessage := "Failed to deserialize LLSD." })
      else (LLSD.emptyMap, status)
    | none => (LLSD.emptyMap, status)
  parseBody := fun _ _ => (LLSD.undefined, false)

/-- Conversions that read every real, string and date as 0. -/
def C0 : LLSDConversions :=
  { realAsInteger := fun _ => 0, stringAsInteger := fun _ => 0, dateAsInteger := fun _ => 0 }

/-- The bytes of the text `oops`. -/
def bodyOops : List U8 := [111, 111, 112, 115]

/-- A response with HTTP status 500 (type 500, code 1) and the given body. -/
def resp500 (body : Option (List U8)) : HttpResponse :=
  { mStatus := { mType := 500, mStatus := 1, mMessage := "Internal Server Error" },
    mRequestURL := "/broken", mBody := body, mHeaders := none }

/-- A successful response (status 200) with the given body and headers. -/
def respOk (body : Option (List U8)) (headers : Option (List (String × String))) :
    HttpResponse :=
  { mStatus := { mType := 200, mStatus := 0, mMessage := "OK" },
    mRequestURL := "/data", mBody := body, mHeaders := headers }

/-- A response whose status is the handle-not-found status of `K0`. -/
def respBadHandle : HttpResponse :=
  { mStatus := { mType := 2, mStatus := 5, mMessage := "Handle not found" },
    mRequestURL := "/slow", mBody := none, mHeaders := none }

/-- A header list with a valued header, a header without a value and a
repeated name. -/
def headers0 : List (String × String) :=
  [("Content-Type", "text/plain"), ("X-Flag", ""), ("Set-Cookie", "a=1"), ("Set-Cookie", "b=2")]

/-- A process state without adapters. -/
def emptyWorld : World :=
  { sInstances := [], adapters := fun _ => HttpCoroutineAdapter.construct "" none 0 0,
    heap := heap0, effects := [] }

/-- Listeners that do nothing. -/
def quietListeners : Listeners := fun _ _ w => w

/-- A sequence of operations: two adapters are constructed, one is used and
cancelled, `cleanup` runs and the first adapter is destroyed. -/
def events0 : List AdapterEvent :=
  [AdapterEvent.construct 1 "a" (some 1) 0 0, AdapterEvent.construct 2 "b" none 0 0,
   AdapterEvent.verb 1 (VerbCall.getAndSuspend "/x" none none), AdapterEvent.cancel 1,
   AdapterEvent.cleanup, AdapterEvent.destroy 1]

/-- Collaborators of a panel whose tab 1 has changes to apply and whose tab
container triggers the commit callback on every selection. -/
def panelEnv0 : PanelEnv :=
  { needsApply := fun tab => if tab = 1 then (true, "") else (false, ""),
    hasModal := fun _ => false,
    parentIsFloater := true,
    selectTabPanel := fun _ tab => ({ mCurrentPanel := tab }, true) }

/-- A panel that shows tab 1 while the user has clicked tab 2. -/
def panel0 : LLPanelGroup :=
  { mCurrentTab := some 1, mRequestedTab := some 2,
    mTabContainer := some { mCurrentPanel := some 2 },
    mIgnoreTransition := false, mForceClose := false, mAllowEdit := true,
    mShowingNotifyDialog := false,
    mDefaultNeedsApplyMesg := "There are unapplied changes", mWantApplyMesg := "Apply?" }

/-- A panel that shows tab 3, which has nothing to apply, while the user has
clicked tab 2. -/
def panel1 : LLPanelGroup := { panel0 with mCurrentTab := some 3 }

/-! ## Theorems -/

section Cancellation

open HttpCoroutineAdapter

theorem lockHandler_recorded {heap : Heap} {weak : Option Nat} {hp : Nat} {h : HttpCoroHandler}
    (hh : heap.lockHandler weak = some (hp, h)) : weak = some hp := by
  unfold Heap.lockHandler at hh
  cases weak with
  | none => simp at hh
  | some p =>
    cases hl : heap.handlers.lookup p with
    | none => simp [hl] at hh
    | some h1 =>
      simp only [hl, Option.some.injEq, Prod.mk.injEq] at hh
      rw [hh.1]

theorem lockRequest_recorded {heap : Heap} {weak : Option Nat} {req : Nat}
    (hr : heap.lockRequest weak = some req) : weak = some req := by
  unfold Heap.lockRequest at hr
  cases weak with
  | none => simp at hr
  | some r =>
    by_cases hm : r ∈ heap.requests
    · simp only [hm, if_true, Option.some.injEq] at hr
      rw [hr]
    · simp [hm] at hr

theorem cancel_pending_outcome (K : HttpConsts) (heap : Heap) (self : HttpCoroutineAdapter)
    (req hp : Nat) (h : HttpCoroHandler)
    (hreq : heap.lockRequest self.mWeakRequest = some req)
    (hh : heap.lockHandler self.mWeakHandler = some (hp, h))
    (hy : self.mYieldingHandle ≠ LLCORE_HTTP_HANDLE_INVALID) :
    self.cancelSuspendedOperation K heap =
      { self := self.cleanState, ret := (),
        effects := [Effect.requestCancel req self.mYieldingHandle hp,
                    Effect.post h.mReplyPump (cancelledResult K)] } := by
  unfold HttpCoroutineAdapter.cancelSuspendedOperation
  simp only [hreq, hh]
  rw [if_pos hy]
  simp [cancelledResult, cleanState]

theorem cancel_idle_outcome (K : HttpConsts) (heap : Heap) (self : HttpCoroutineAdapter)
    (hno : self.mYieldingHandle = LLCORE_HTTP_HANDLE_INVALID ∨
      heap.lockRequest self.mWeakRequest = none ∨
      heap.lockHandler self.mWeakHandler = none) :
    self.cancelSuspendedOperation K heap = { self := self, ret := (), effects := [] } := by
  unfold HttpCoroutineAdapter.cancelSuspendedOperation
  rcases hno with hy | hr | hh
  · cases heap.lockRequest self.mWeakRequest <;> cases heap.lockHandler self.mWeakHandler <;>
      simp [hy]
  · simp [hr]
  · cases heap.lockRequest self.mWeakRequest <;> simp [hh]

/-- C1: when a PendingCall exists (the yielding handle is not the invalid
handle) and both weak references lock, `cancelSuspendedOperation` makes exactly
two calls on its collaborators, in this order: one `requestCancel` on the
recorded transport with the recorded handle and handler, then one post of a
Result to the reply pump of that handler, the post being the last effect. The
adapter it leaves behind has the PendingCall cleared: URL empty, both weak
references reset, handle invalid. -/
theorem cancelSuspendedOperation_cancels_clears_posts (K : HttpConsts) (heap : Heap)
    (self : HttpCoroutineAdapter) (req hp : Nat) (h : HttpCoroHandler)
    (hreq : heap.lockRequest self.mWeakRequest = some req)
    (hh : heap.lockHandler self.mWeakHandler = some (hp, h))
    (hy : self.mYieldingHandle ≠ LLCORE_HTTP_HANDLE_INVALID) :
    self.mWeakRequest = some req ∧ self.mWeakHandler = some hp ∧
    (self.cancelSuspendedOperation K heap).effects =
      [Effect.requestCancel req self.mYieldingHandle hp,
       Effect.post h.mReplyPump (cancelledResult K)] ∧
    ((self.cancelSuspendedOperation K heap).effects.filter Effect.isRequestCancel).length = 1 ∧
    ((self.cancelSuspendedOperation K heap).effects.filter Effect.isPost).length = 1 ∧
    (self.cancelSuspendedOperation K heap).effects.getLast? =
      some (Effect.post h.mReplyPump (cancelledResult K)) ∧
    (self.cancelSuspendedOperation K heap).self = self.cleanState ∧
    (self.cancelSuspendedOperation K heap).self.mURL = "" ∧
    (self.cancelSuspendedOperation K heap).self.mWeakRequest = none ∧
    (self.cancelSuspendedOperation K heap).self.mWeakHandler = none ∧
    (self.cancelSuspendedOperation K heap).self.mYieldingHandle = LLCORE_HTTP_HANDLE_INVALID := by
  rw [cancel_pending_outcome K heap self req hp h hreq hh hy]
  refine ⟨lockRequest_recorded hreq, lockHandler_recorded hh, rfl, ?_, ?_, rfl, rfl, rfl, rfl,
    rfl, rfl⟩
  · simp [Effect.isRequestCancel]
  · simp [Effect.isPost]

theorem cancelSuspendedOperation_cancels_clears_posts_witness :
    pending0.mWeakRequest = some 1 ∧ pending0.mWeakHandler = some 7 ∧
    (pending0.cancelSuspendedOperation K0 heap0).effects =
      [Effect.requestCancel 1 pending0.mYieldingHandle 7,
       Effect.post (HttpCoroRawHandler "reply").mReplyPump (cancelledResult K0)] ∧
    ((pending0.cancelSuspendedOperation K0 heap0).effects.filter Effect.isRequestCancel).length
      = 1 ∧
    ((pending0.cancelSuspendedOperation K0 heap0).effects.filter Effect.isPost).length = 1 ∧
    (pending0.cancelSuspendedOperation K0 heap0).effects.getLast? =
      some (Effect.post (HttpCoroRawHandler "reply").mReplyPump (cancelledResult K0)) ∧
    (pending0.cancelSuspendedOperation K0 heap0).self = pending0.cleanState ∧
    (pending0.cancelSuspendedOperation K0 heap0).self.mURL = "" ∧
    (pending0.cancelSuspendedOperation K0 heap0).self.mWeakRequest = none ∧
    (pending0.cancelSuspendedOperation K0 heap0).self.mWeakHandler = none ∧
    (pending0.cancelSuspendedOperation K0 heap0).self.mYieldingHandle =
      LLCORE_HTTP_HANDLE_INVALID :=
  cancelSuspendedOperation_cancels_clears_posts K0 heap0 pending0 1 7
    (HttpCoroRawHandler "reply") (by decide) (by rfl) (by decide)

/-- C2: when there is no PendingCall (the yielding handle is the invalid
handle, or the weak transport reference does not lock, or the weak handler
reference does not lock), `cancelSuspendedOperation` leaves the adapter as it
was (URL, weak references, yielding handle and every other member) and makes no
call at all: no `requestCancel` on the transport and no post to a reply pump. -/
theorem cancelSuspendedOperation_noop_without_pending (K : HttpConsts) (heap : Heap)
    (self : HttpCoroutineAdapter)
    (hno : self.mYieldingHandle = LLCORE_HTTP_HANDLE_INVALID ∨
      heap.lockRequest self.mWeakRequest = none ∨
      heap.lockHandler self.mWeakHandler = none) :
    (self.cancelSuspendedOperation K heap).self = self ∧
    (self.cancelSuspendedOperation K heap).effects = [] ∧
    (∀ e ∈ (self.cancelSuspendedOperation K heap).effects,
      e.isRequestCancel = false ∧ e.isPost = false) := by
  rw [cancel_idle_outcome K heap self hno]
  exact ⟨rfl, rfl, by simp⟩

theorem cancelSuspendedOperation_noop_without_pending_witness :
    (idle0.cancelSuspendedOperation K0 heap0).self = idle0 ∧
    (idle0.cancelSuspendedOperation K0 heap0).effects = [] ∧
    (∀ e ∈ (idle0.cancelSuspendedOperation K0 heap0).effects,
      e.isRequestCancel = false ∧ e.isPost = false) :=
  cancelSuspendedOperation_noop_without_pending K0 heap0 idle0 (Or.inl (by decide))

theorem onCompleted_genuine (K : HttpConsts) (h : HttpCoroHandler) (handle : HttpHandle)
    (resp : HttpResponse) (hg : isGenuine K (some resp) = true) :
    HttpCoroHandler.onCompleted K h handle (some resp) =
      [Effect.post h.mReplyPump (HttpCoroHandler.composeResult h resp)] := by
  simp only [isGenuine, Bool.not_eq_true'] at hg
  simp [HttpCoroHandler.onCompleted, hg]

theorem onCompleted_dropped (K : HttpConsts) (h : HttpCoroHandler) (handle : HttpHandle)
    (response : Option HttpResponse) (hg : isGenuine K response = false) :
    HttpCoroHandler.onCompleted K h handle response = [] := by
  cases response with
  | none => rfl
  | some resp =>
    simp only [isGenuine, Bool.not_eq_false'] at hg
    simp [HttpCoroHandler.onCompleted, hg]

theorem postCountOn_append (pump : String) (xs ys : List Effect) :
    postCountOn pump (xs ++ ys) = postCountOn pump xs + postCountOn pump ys := by
  induction xs with
  | nil => simp [postCountOn]
  | cons e rest ih =>
    cases e <;> simp [postCountOn, ih, Nat.add_assoc]

theorem postCount_append (xs ys : List Effect) :
    postCount (xs ++ ys) = postCount xs + postCount ys := by
  simp [postCount]

theorem completions_postCount (K : HttpConsts) (h : HttpCoroHandler)
    (events : List (HttpHandle × Option HttpResponse)) :
    postCount (completions K h events) =
      (events.filter (fun ev => isGenuine K ev.2)).length ∧
    postCountOn h.mReplyPump (completions K h events) =
      (events.filter (fun ev => isGenuine K ev.2)).length := by
  induction events with
  | nil => simp [completions, postCount, postCountOn]
  | cons ev rest ih =>
    obtain ⟨handle, response⟩ := ev
    by_cases hg : isGenuine K response = true
    · cases response with
      | none => simp [isGenuine] at hg
      | some resp =>
        simp only [completions, postCount_append, postCountOn_append,
          onCompleted_genuine K h handle resp hg, ih.1, ih.2]
        simp [postCount, postCountOn, Effect.isPost, hg, Nat.add_comm]
    · have hg2 : isGenuine K response = false := by simpa using hg
      simp only [completions, postCount_append, postCountOn_append,
        onCompleted_dropped K h handle response hg2, ih.1, ih.2]
      simp [postCount, postCountOn, hg2]

/-- C3, counterexample: the adapter `pending0` is cancelled, which posts the
Cancelled Result to the pump `reply` of its handler; the transport then invokes
`onCompleted` on that same handler with a genuine response (status 200). Two
Results have been posted to the reply pump, not one; and two genuine
completions on one handler post two Results. -/
theorem handler_delivers_twice :
    postCountOn "reply"
      ((pending0.cancelSuspendedOperation K0 heap0).effects ++
        HttpCoroHandler.onCompleted K0 (HttpCoroRawHandler "reply") 5 (some resp200)) = 2 ∧
    ¬ postCountOn "reply"
      ((pending0.cancelSuspendedOperation K0 heap0).effects ++
        HttpCoroHandler.onCompleted K0 (HttpCoroRawHandler "reply") 5 (some resp200)) = 1 ∧
    ¬ postCount (completions K0 (HttpCoroRawHandler "reply")
        [(5, some resp200), (5, some resp200)]) ≤ 1 := by
  refine ⟨?_, ?_, ?_⟩
  · rfl
  · intro h
    have h2 : postCountOn "reply"
      ((pending0.cancelSuspendedOperation K0 heap0).effects ++
        HttpCoroHandler.onCompleted K0 (HttpCoroRawHandler "reply") 5 (some resp200)) = 2 := rfl
    rw [h2] at h
    exact absurd h (by decide)
  · have h2 : postCount (completions K0 (HttpCoroRawHandler "reply")
        [(5, some resp200), (5, some resp200)]) = 2 := rfl
    rw [h2]
    decide

/-- C3, amended: a Completion Handler posts once per genuine completion and
keeps no record of having delivered. For every sequence of `onCompleted`
invocations on one handler the number of Results posted (to its reply pump)
equals the number of invocations whose response is not null and whose status is
not handle-not-found; and when `cancelSuspendedOperation` has posted the
Cancelled Result for a pending call and such a sequence follows on the same
handler, the total number of Results posted to the reply pump is one plus that
number. -/
theorem handler_posts_once_per_genuine_completion (K : HttpConsts) (heap : Heap)
    (self : HttpCoroutineAdapter) (req hp : Nat) (h : HttpCoroHandler)
    (events : List (HttpHandle × Option HttpResponse))
    (hreq : heap.lockRequest self.mWeakRequest = some req)
    (hh : heap.lockHandler self.mWeakHandler = some (hp, h))
    (hy : self.mYieldingHandle ≠ LLCORE_HTTP_HANDLE_INVALID) :
    postCount (completions K h events) =
      (events.filter (fun ev => isGenuine K ev.2)).length ∧
    postCountOn h.mReplyPump (completions K h events) =
      (events.filter (fun ev => isGenuine K ev.2)).length ∧
    postCountOn h.mReplyPump
      ((self.cancelSuspendedOperation K heap).effects ++ completions K h events) =
      1 + (events.filter (fun ev => isGenuine K ev.2)).length := by
  refine ⟨(completions_postCount K h events).1, (completions_postCount K h events).2, ?_⟩
  rw [cancel_pending_outcome K heap self req hp h hreq hh hy, postCountOn_append,
    (completions_postCount K h events).2]
  simp [postCountOn]

theorem handler_posts_once_per_genuine_completion_witness :
    postCount (completions K0 (HttpCoroRawHandler "reply") [(5, none), (5, some resp200)]) =
      ([((5 : HttpHandle), (none : Option HttpResponse)), (5, some resp200)].filter
        (fun ev => isGenuine K0 ev.2)).length ∧
    postCountOn (HttpCoroRawHandler "reply").mReplyPump
        (completions K0 (HttpCoroRawHandler "reply") [(5, none), (5, some resp200)]) =
      ([((5 : HttpHandle), (none : Option HttpResponse)), (5, some resp200)].filter
        (fun ev => isGenuine K0 ev.2)).length ∧
    postCountOn (HttpCoroRawHandler "reply").mReplyPump
      ((pending0.cancelSuspendedOperation K0 heap0).effects ++
        completions K0 (HttpCoroRawHandler "reply") [(5, none), (5, some resp200)]) =
      1 + ([((5 : HttpHandle), (none : Option HttpResponse)), (5, some resp200)].filter
        (fun ev => isGenuine K0 ev.2)).length :=
  handler_posts_once_per_genuine_completion K0 heap0 pending0 1 7 (HttpCoroRawHandler "reply")
    [(5, none), (5, some resp200)] (by decide) (by rfl) (by decide)

/-- C4: the destructor erases the adapter from the registry, so that after
destruction the adapter is not a member (for every adapter) while every other
member stays; and when a call is pending (PendingCall recorded, transport and
handler alive) it invokes the transport's `requestCancel` exactly once, with the
recorded handle and handler. -/
theorem destructor_unregisters_and_cancels_once (K : HttpConsts) (heap : Heap)
    (sInstances : instances_list_t) (this : Nat) (self : HttpCoroutineAdapter) :
    this ∉ (HttpCoroutineAdapter.destructor K heap sInstances this self).1 ∧
    (∀ q, q ≠ this →
      (q ∈ (HttpCoroutineAdapter.destructor K heap sInstances this self).1 ↔ q ∈ sInstances)) ∧
    (∀ (req hp : Nat) (h : HttpCoroHandler),
      heap.lockRequest self.mWeakRequest = some req →
      heap.lockHandler self.mWeakHandler = some (hp, h) →
      self.mYieldingHandle ≠ LLCORE_HTTP_HANDLE_INVALID →
      (HttpCoroutineAdapter.destructor K heap sInstances this self).2.effects.filter
          Effect.isRequestCancel = [Effect.requestCancel req self.mYieldingHandle hp] ∧
      self.mWeakRequest = some req ∧ self.mWeakHandler = some hp) := by
  unfold HttpCoroutineAdapter.destructor
  refine ⟨?_, ?_, ?_⟩
  · simp [instances_list_t.erase]
  · intro q hq
    simp [instances_list_t.erase, hq]
  · intro req hp h hreq hh hy
    simp only [cancel_pending_outcome K heap self req hp h hreq hh hy]
    refine ⟨?_, lockRequest_recorded hreq, lockHandler_recorded hh⟩
    simp [Effect.isRequestCancel]

theorem destructor_unregisters_and_cancels_once_witness :
    3 ∉ (HttpCoroutineAdapter.destructor K0 heap0 [2, 3, 4] 3 pending0).1 ∧
    (HttpCoroutineAdapter.destructor K0 heap0 [2, 3, 4] 3 pending0).1 = [2, 4] ∧
    (HttpCoroutineAdapter.destructor K0 heap0 [2, 3, 4] 3 pending0).2.effects.filter
        Effect.isRequestCancel = [Effect.requestCancel 1 pending0.mYieldingHandle 7] ∧
    pending0.mWeakRequest = some 1 ∧ pending0.mWeakHandler = some 7 :=
  ⟨(destructor_unregisters_and_cancels_once K0 heap0 [2, 3, 4] 3 pending0).1, by decide,
   (destructor_unregisters_and_cancels_once K0 heap0 [2, 3, 4] 3 pending0).2.2 1 7
    (HttpCoroRawHandler "reply") (by decide) (by rfl) (by decide)⟩

end Cancellation

section Registry

open World

theorem cancel_registry_subset (K : HttpConsts) (L : Listeners)
    (hmono : ∀ pump event w1, ∀ q ∈ (L pump event w1).sInstances, q ∈ w1.sInstances)
    (adapter : Nat) (w : World) :
    ∀ q ∈ (w.cancelSuspendedOperation K L adapter).sInstances, q ∈ w.sInstances := by
  intro q hq
  unfold World.cancelSuspendedOperation at hq
  dsimp only at hq
  split at hq
  · have := hmono _ _ _ q hq
    exact this
  · exact hq

theorem cleanupLoop_registry_subset (K : HttpConsts) (L : Listeners)
    (hmono : ∀ pump event w1, ∀ q ∈ (L pump event w1).sInstances, q ∈ w1.sInstances)
    (l : List Nat) : ∀ w : World,
    ∀ q ∈ (cleanupLoop K L l w).1.sInstances, q ∈ w.sInstances := by
  induction l with
  | nil => intro w q hq; exact hq
  | cons a rest ih =>
    intro w q hq
    unfold World.cleanupLoop at hq
    split at hq
    · exact cancel_registry_subset K L hmono a w q (ih _ q hq)
    · exact ih _ q hq

theorem cleanupLoop_append (K : HttpConsts) (L : Listeners) (l1 l2 : List Nat) :
    ∀ w : World, cleanupLoop K L (l1 ++ l2) w =
      ((cleanupLoop K L l2 (cleanupLoop K L l1 w).1).1,
       (cleanupLoop K L l1 w).2 ++ (cleanupLoop K L l2 (cleanupLoop K L l1 w).1).2) := by
  induction l1 with
  | nil => intro w; simp [World.cleanupLoop]
  | cons a rest ih =>
    intro w
    simp only [List.cons_append, World.cleanupLoop]
    split
    · simp [ih]
    · exact ih w

theorem cleanupLoop_called_sublist (K : HttpConsts) (L : Listeners) (l : List Nat) :
    ∀ w : World, (cleanupLoop K L l w).2.Sublist l := by
  induction l with
  | nil => intro w; simp [World.cleanupLoop]
  | cons a rest ih =>
    intro w
    unfold World.cleanupLoop
    split
    · exact (ih _).cons₂ a
    · exact (ih _).cons a

theorem cleanup_eq_loop (K : HttpConsts) (L : Listeners) (w : World) :
    cleanup K L w = cleanupLoop K L w.sInstances w := by
  unfold World.cleanup
  split
  · rename_i he
    have : w.sInstances = [] := by simpa using he
    rw [this]
    rfl
  · rfl

theorem cleanupLoop_visit (K : HttpConsts) (L : Listeners) (pre post : List Nat) (a : Nat)
    (w : World) (hpre : a ∉ pre) (hpost : a ∉ post) :
    a ∈ (cleanupLoop K L (pre ++ a :: post) w).2 ↔ a ∈ (cleanupLoop K L pre w).1.sInstances := by
  rw [cleanupLoop_append]
  have h1 : a ∉ (cleanupLoop K L pre w).2 :=
    fun h => hpre ((cleanupLoop_called_sublist K L pre w).subset h)
  simp only [List.mem_append, h1, false_or]
  generalize (cleanupLoop K L pre w).1 = w1
  unfold World.cleanupLoop
  by_cases hlive : a ∈ w1.sInstances
  · simp [instances_list_t.count, hlive]
  · have h2 : a ∉ (cleanupLoop K L post w1).2 :=
      fun h => hpost ((cleanupLoop_called_sublist K L post w1).subset h)
    simp [instances_list_t.count, hlive, h2]

/-- C5: `cleanup` walks a snapshot of the registry and, whatever the listeners
of the reply pumps do in reaction to a cancellation as long as they only take
adapters out of the registry, calls `cancelSuspendedOperation` on exactly those
snapshot members that are in the live registry at the moment they are visited.
Each adapter is called at most once and in snapshot order; an adapter that was
out of the registry at some earlier point of the pass is not called; an adapter
that is in the registry when the pass ends was called. -/
theorem cleanup_cancels_members_live_at_visit (K : HttpConsts) (L : Listeners) (w : World)
    (hmono : ∀ pump event w1, ∀ q ∈ (L pump event w1).sInstances, q ∈ w1.sInstances)
    (hnodup : w.sInstances.Nodup) :
    (∀ pre a post, w.sInstances = pre ++ a :: post →
      (a ∈ (cleanup K L w).2 ↔ a ∈ (cleanupLoop K L pre w).1.sInstances)) ∧
    (cleanup K L w).2.Nodup ∧
    (cleanup K L w).2.Sublist w.sInstances ∧
    (∀ pre mid a post, w.sInstances = pre ++ (mid ++ a :: post) →
      a ∉ (cleanupLoop K L pre w).1.sInstances → a ∉ (cleanup K L w).2) ∧
    (∀ a ∈ (cleanup K L w).1.sInstances, a ∈ (cleanup K L w).2) := by
  rw [cleanup_eq_loop]
  have hsub := cleanupLoop_called_sublist K L w.sInstances w
  have hvisit : ∀ pre a post, w.sInstances = pre ++ a :: post →
      (a ∈ (cleanupLoop K L w.sInstances w).2 ↔ a ∈ (cleanupLoop K L pre w).1.sInstances) := by
    intro pre a post hsplit
    have hnd := hnodup
    rw [hsplit] at hnd
    have hnd2 := List.nodup_append.mp hnd
    have hpre : a ∉ pre := fun h => hnd2.2.2 h (List.mem_cons_self a post)
    have hpost : a ∉ post := (List.nodup_cons.mp hnd2.2.1).1
    have := cleanupLoop_visit K L pre post a w hpre hpost
    rw [← hsplit] at this
    exact this
  refine ⟨hvisit, hsub.nodup hnodup, hsub, ?_, ?_⟩
  · intro pre mid a post hsplit hgone hcalled
    have hsplit2 : w.sInstances = (pre ++ mid) ++ a :: post := by
      rw [hsplit, List.append_assoc]
    have hlive := (hvisit (pre ++ mid) a post hsplit2).mp hcalled
    rw [cleanupLoop_append] at hlive
    exact hgone (cleanupLoop_registry_subset K L hmono mid _ a hlive)
  · intro a ha
    have hmem : a ∈ w.sInstances := cleanupLoop_registry_subset K L hmono _ w a ha
    obtain ⟨pre, post, hsplit⟩ := List.append_of_mem hmem
    refine (hvisit pre a post hsplit).mpr ?_
    have hfin : cleanupLoop K L w.sInstances w =
        ((cleanupLoop K L (a :: post) (cleanupLoop K L pre w).1).1,
         (cleanupLoop K L pre w).2 ++ (cleanupLoop K L (a :: post) (cleanupLoop K L pre w).1).2) := by
      conv_lhs => rw [hsplit]
      exact cleanupLoop_append K L pre (a :: post) w
    rw [hfin] at ha
    exact cleanupLoop_registry_subset K L hmono (a :: post) _ a ha

theorem listeners0_only_remove :
    ∀ pump event w1, ∀ q ∈ (listeners0 pump event w1).sInstances, q ∈ w1.sInstances := by
  intro pump event w1 q hq
  unfold listeners0 at hq
  split at hq
  · simp only [instances_list_t.erase, List.mem_filter] at hq
    exact hq.1
  · exact hq

theorem cleanup_cancels_members_live_at_visit_witness :
    (cleanup K0 listeners0 world0).2 = [1, 3] ∧
    ((∀ pre a post, world0.sInstances = pre ++ a :: post →
      (a ∈ (cleanup K0 listeners0 world0).2 ↔
        a ∈ (cleanupLoop K0 listeners0 pre world0).1.sInstances)) ∧
    (cleanup K0 listeners0 world0).2.Nodup ∧
    (cleanup K0 listeners0 world0).2.Sublist world0.sInstances ∧
    (∀ pre mid a post, world0.sInstances = pre ++ (mid ++ a :: post) →
      a ∉ (cleanupLoop K0 listeners0 pre world0).1.sInstances →
      a ∉ (cleanup K0 listeners0 world0).2) ∧
    (∀ a ∈ (cleanup K0 listeners0 world0).1.sInstances, a ∈ (cleanup K0 listeners0 world0).2)) :=
  ⟨by rfl, cleanup_cancels_members_live_at_visit K0 listeners0 world0 listeners0_only_remove
    (by decide)⟩

end Registry

section Verbs

open HttpCoroutineAdapter

/-- Every verb operation returns the undefined value, leaves the adapter
untouched and calls no collaborator, whether or not `mRequest` is null. -/
theorem verbs_are_stubs (self : HttpCoroutineAdapter) (url dest assetid : String) (body : LLSD)
    (rawbody : BufferArrayPtr) (file : Option (List U8)) (assetType : Int)
    (options : HttpOptionsPtr) (headers : HttpHeadersPtr) :
    self.getAndSuspend url options headers = self.returns LLSD.undefined ∧
    self.getRawAndSuspend url options headers = self.returns LLSD.undefined ∧
    self.getJsonAndSuspend url options headers = self.returns LLSD.undefined ∧
    self.postAndSuspend url body options headers = self.returns LLSD.undefined ∧
    self.postAndSuspend_rawbody url rawbody options headers = self.returns LLSD.undefined ∧
    self.postRawAndSuspend url rawbody options headers = self.returns LLSD.undefined ∧
    self.postFileAndSuspend url file options headers = self.returns LLSD.undefined ∧
    self.postFileAndSuspend_asset url assetid assetType options headers =
      self.returns LLSD.undefined ∧
    self.postJsonAndSuspend url body options headers = self.returns LLSD.undefined ∧
    self.putAndSuspend url body options headers = self.returns LLSD.undefined ∧
    self.putJsonAndSuspend url body options headers = self.returns LLSD.undefined ∧
    self.patchAndSuspend url body options headers = self.returns LLSD.undefined ∧
    self.deleteAndSuspend url options headers = self.returns LLSD.undefined ∧
    self.deleteJsonAndSuspend url options headers = self.returns LLSD.undefined ∧
    self.copyAndSuspend url dest options headers = self.returns LLSD.undefined ∧
    self.moveAndSuspend url dest options headers = self.returns LLSD.undefined := by
  refine ⟨?_, ?_, ?_, ?_, ?_, ?_, ?_, ?_, ?_, ?_, ?_, ?_, ?_, ?_, ?_, ?_⟩ <;>
    simp only [getAndSuspend, getRawAndSuspend, getJsonAndSuspend, postAndSuspend,
      postAndSuspend_rawbody, postRawAndSuspend, postAndSuspend__rawbody, postFileAndSuspend,
      postFileAndSuspend_asset, postJsonAndSuspend, putAndSuspend, putJsonAndSuspend,
      patchAndSuspend, deleteAndSuspend, deleteJsonAndSuspend, copyAndSuspend, moveAndSuspend] <;>
    cases self.mRequest <;> rfl

/-- C6, counterexample: on an adapter without a transport `getAndSuspend`
returns the undefined value. It has no `http_result` entry, so its
`http_result.success` is not the boolean false: the field is not there. -/
theorem null_request_result_is_undefined :
    norequest0.mRequest = none ∧
    (norequest0.getAndSuspend "/x" none none).ret = LLSD.undefined ∧
    (norequest0.getAndSuspend "/x" none none).ret.has HTTP_RESULTS = false ∧
    ¬ ((norequest0.getAndSuspend "/x" none none).ret.get HTTP_RESULTS).get HTTP_RESULTS_SUCCESS =
      LLSD.boolean false := by
  refine ⟨rfl, rfl, rfl, ?_⟩
  intro h
  have h2 : ((norequest0.getAndSuspend "/x" none none).ret.get HTTP_RESULTS).get
      HTTP_RESULTS_SUCCESS = LLSD.undefined := rfl
  rw [h2] at h
  exact LLSD.noConfusion h

/-- C6, amended: on an adapter that holds no transport reference (`mRequest`
null) every verb operation returns at once, without a call on the transport or
on a reply pump and without a change of the adapter, the undefined value. That
value has no `http_result` entry; read through the accessors, its
`http_result.success` is the undefined value, not the boolean false. -/
theorem verbs_without_transport_return_undefined (self : HttpCoroutineAdapter)
    (hnull : self.mRequest = none)
    (url dest assetid : String) (body : LLSD)
    (rawbody : BufferArrayPtr) (file : Option (List U8)) (assetType : Int)
    (options : HttpOptionsPtr) (headers : HttpHeadersPtr) :
    (∀ o ∈ [self.getAndSuspend url options headers,
            self.getRawAndSuspend url options headers,
            self.getJsonAndSuspend url options headers,
            self.postAndSuspend url body options headers,
            self.postAndSuspend_rawbody url rawbody options headers,
            self.postRawAndSuspend url rawbody options headers,
            self.postFileAndSuspend url file options headers,
            self.postFileAndSuspend_asset url assetid assetType options headers,
            self.postJsonAndSuspend url body options headers,
            self.putAndSuspend url body options headers,
            self.putJsonAndSuspend url body options headers,
            self.patchAndSuspend url body options headers,
            self.deleteAndSuspend url options headers,
            self.deleteJsonAndSuspend url options headers,
            self.copyAndSuspend url dest options headers,
            self.moveAndSuspend url dest options headers],
      o.ret = LLSD.undefined ∧ o.effects = [] ∧ o.self = self ∧ o.self.mRequest = none) ∧
    LLSD.undefined.has HTTP_RESULTS = false ∧
    (LLSD.undefined.get HTTP_RESULTS).get HTTP_RESULTS_SUCCESS = LLSD.undefined := by
  refine ⟨?_, rfl, rfl⟩
  obtain ⟨h1, h2, h3, h4, h5, h6, h7, h8, h9, h10, h11, h12, h13, h14, h15, h16⟩ :=
    verbs_are_stubs self url dest assetid body rawbody file assetType options headers
  intro o ho
  simp only [h1, h2, h3, h4, h5, h6, h7, h8, h9, h10, h11, h12, h13, h14, h15, h16,
    List.mem_cons, List.mem_singleton, or_self, List.not_mem_nil, or_false] at ho
  rw [ho]
  exact ⟨rfl, rfl, rfl, hnull⟩

theorem verbs_without_transport_return_undefined_witness :
    (∀ o ∈ [norequest0.getAndSuspend "/x" none none,
            norequest0.getRawAndSuspend "/x" none none,
            norequest0.getJsonAndSuspend "/x" none none,
            norequest0.postAndSuspend "/x" docA1 none none,
            norequest0.postAndSuspend_rawbody "/x" (some bodyA1) none none,
            norequest0.postRawAndSuspend "/x" (some bodyA1) none none,
            norequest0.postFileAndSuspend "/x" (some bodyA1) none none,
            norequest0.postFileAndSuspend_asset "/x" "asset" 0 none none,
            norequest0.postJsonAndSuspend "/x" docA1 none none,
            norequest0.putAndSuspend "/x" docA1 none none,
            norequest0.putJsonAndSuspend "/x" docA1 none none,
            norequest0.patchAndSuspend "/x" docA1 none none,
            norequest0.deleteAndSuspend "/x" none none,
            norequest0.deleteJsonAndSuspend "/x" none none,
            norequest0.copyAndSuspend "/x" "/y" none none,
            norequest0.moveAndSuspend "/x" "/y" none none],
      o.ret = LLSD.undefined ∧ o.effects = [] ∧ o.self = norequest0 ∧ o.self.mRequest = none) ∧
    LLSD.undefined.has HTTP_RESULTS = false ∧
    (LLSD.undefined.get HTTP_RESULTS).get HTTP_RESULTS_SUCCESS = LLSD.undefined :=
  verbs_without_transport_return_undefined norequest0 (by rfl) "/x" "/y" "asset" docA1
    (some bodyA1) (some bodyA1) 0 none none

/-- C7, counterexample: `getAndSuspend` on an adapter that holds the transport
at address 1 submits nothing, records no PendingCall (the yielding handle stays
invalid, the adapter is as before) and returns the undefined value. -/
theorem verb_with_transport_submits_nothing :
    idle0.mRequest = some 1 ∧
    (idle0.getAndSuspend "/x" none none).effects = [] ∧
    ¬ (∃ e ∈ (idle0.getAndSuspend "/x" none none).effects, e.isSubmit = true) ∧
    (idle0.getAndSuspend "/x" none none).self = idle0 ∧
    (idle0.getAndSuspend "/x" none none).self.mYieldingHandle = LLCORE_HTTP_HANDLE_INVALID ∧
    (idle0.getAndSuspend "/x" none none).ret = LLSD.undefined := by
  refine ⟨rfl, rfl, ?_, rfl, rfl, rfl⟩
  have h : (idle0.getAndSuspend "/x" none none).effects = [] := rfl
  rw [h]
  simp

/-- C7, amended: on an adapter that holds a valid transport reference every
verb operation submits nothing to the transport, records no PendingCall (the
adapter is left unchanged) and returns the undefined value. `saveState`, when it
is called, records the PendingCall (URL, handle, weak references to the
adapter's transport and to the handler), and `cleanState` clears it. -/
theorem verbs_with_transport_are_stubs (self : HttpCoroutineAdapter) (request : Nat)
    (hreq : self.mRequest = some request)
    (url dest assetid : String) (body : LLSD)
    (rawbody : BufferArrayPtr) (file : Option (List U8)) (assetType : Int)
    (options : HttpOptionsPtr) (headers : HttpHeadersPtr)
    (handle : HttpHandle) (handler : Nat) :
    (∀ o ∈ [self.getAndSuspend url options headers,
            self.getRawAndSuspend url options headers,
            self.getJsonAndSuspend url options headers,
            self.postAndSuspend url body options headers,
            self.postAndSuspend_rawbody url rawbody options headers,
            self.postRawAndSuspend url rawbody options headers,
            self.postFileAndSuspend url file options headers,
            self.postFileAndSuspend_asset url assetid assetType options headers,
            self.postJsonAndSuspend url body options headers,
            self.putAndSuspend url body options headers,
            self.putJsonAndSuspend url body options headers,
            self.patchAndSuspend url body options headers,
            self.deleteAndSuspend url options headers,
            self.deleteJsonAndSuspend url options headers,
            self.copyAndSuspend url dest options headers,
            self.moveAndSuspend url dest options headers],
      o.ret = LLSD.undefined ∧ o.effects = [] ∧ o.self = self) ∧
    ((self.saveState url handle handler).mURL = url ∧
     (self.saveState url handle handler).mYieldingHandle = handle ∧
     (self.saveState url handle handler).mWeakRequest = some request ∧
     (self.saveState url handle handler).mWeakHandler = some handler) ∧
    ((self.saveState url handle handler).cleanState.mURL = "" ∧
     (self.saveState url handle handler).cleanState.mYieldingHandle =
       LLCORE_HTTP_HANDLE_INVALID ∧
     (self.saveState url handle handler).cleanState.mWeakRequest = none ∧
     (self.saveState url handle handler).cleanState.mWeakHandler = none) := by
  refine ⟨?_, ⟨rfl, rfl, ?_, rfl⟩, ⟨rfl, rfl, rfl, rfl⟩⟩
  · obtain ⟨h1, h2, h3, h4, h5, h6, h7, h8, h9, h10, h11, h12, h13, h14, h15, h16⟩ :=
      verbs_are_stubs self url dest assetid body rawbody file assetType options headers
    intro o ho
    simp only [h1, h2, h3, h4, h5, h6, h7, h8, h9, h10, h11, h12, h13, h14, h15, h16,
      List.mem_cons, List.mem_singleton, or_self, List.not_mem_nil, or_false] at ho
    rw [ho]
    exact ⟨rfl, rfl, rfl⟩
  · simp [saveState, hreq]

theorem verbs_with_transport_are_stubs_witness :
    (∀ o ∈ [idle0.getAndSuspend "/x" none none,
            idle0.getRawAndSuspend "/x" none none,
            idle0.getJsonAndSuspend "/x" none none,
            idle0.postAndSuspend "/x" docA1 none none,
            idle0.postAndSuspend_rawbody "/x" (some bodyA1) none none,
            idle0.postRawAndSuspend "/x" (some bodyA1) none none,
            idle0.postFileAndSuspend "/x" (some bodyA1) none none,
            idle0.postFileAndSuspend_asset "/x" "asset" 0 none none,
            idle0.postJsonAndSuspend "/x" docA1 none none,
            idle0.putAndSuspend "/x" docA1 none none,
            idle0.putJsonAndSuspend "/x" docA1 none none,
            idle0.patchAndSuspend "/x" docA1 none none,
            idle0.deleteAndSuspend "/x" none none,
            idle0.deleteJsonAndSuspend "/x" none none,
            idle0.copyAndSuspend "/x" "/y" none none,
            idle0.moveAndSuspend "/x" "/y" none none],
      o.ret = LLSD.undefined ∧ o.effects = [] ∧ o.self = idle0) ∧
    ((idle0.saveState "/x" 5 7).mURL = "/x" ∧
     (idle0.saveState "/x" 5 7).mYieldingHandle = 5 ∧
     (idle0.saveState "/x" 5 7).mWeakRequest = some 1 ∧
     (idle0.saveState "/x" 5 7).mWeakHandler = some 7) ∧
    ((idle0.saveState "/x" 5 7).cleanState.mURL = "" ∧
     (idle0.saveState "/x" 5 7).cleanState.mYieldingHandle = LLCORE_HTTP_HANDLE_INVALID ∧
     (idle0.saveState "/x" 5 7).cleanState.mWeakRequest = none ∧
     (idle0.saveState "/x" 5 7).cleanState.mWeakHandler = none) :=
  verbs_with_transport_are_stubs idle0 1 (by rfl) "/x" "/y" "asset" docA1
    (some bodyA1) (some bodyA1) 0 none none 5 7

end Verbs

section Documents

theorem lookupField_assignField_same (k : String) (v : LLSD) (fs : List (String × LLSD)) :
    LLSD.lookupField k (LLSD.assignField k v fs) = v := by
  induction fs with
  | nil => simp [LLSD.assignField, LLSD.lookupField]
  | cons kv rest ih =>
    obtain ⟨k1, v1⟩ := kv
    by_cases hk : k1 = k
    · simp [LLSD.assignField, LLSD.lookupField, hk]
    · simp [LLSD.assignField, LLSD.lookupField, hk, ih]

theorem lookupField_assignField_other (k k2 : String) (v : LLSD) (fs : List (String × LLSD))
    (hne : k2 ≠ k) :
    LLSD.lookupField k2 (LLSD.assignField k v fs) = LLSD.lookupField k2 fs := by
  induction fs with
  | nil =>
    have : ¬ k = k2 := fun h => hne h.symm
    simp [LLSD.assignField, LLSD.lookupField, this]
  | cons kv rest ih =>
    obtain ⟨k1, v1⟩ := kv
    simp only [LLSD.assignField]
    by_cases hk : k1 = k
    · rw [if_pos hk]
      have h1 : ¬ k1 = k2 := fun h => hne (h.symm.trans hk)
      simp only [LLSD.lookupField, if_neg h1]
    · rw [if_neg hk]
      simp only [LLSD.lookupField, ih]

theorem hasField_assignField_same (k : String) (v : LLSD) (fs : List (String × LLSD)) :
    LLSD.hasField k (LLSD.assignField k v fs) = true := by
  induction fs with
  | nil => simp [LLSD.assignField, LLSD.hasField]
  | cons kv rest ih =>
    obtain ⟨k1, v1⟩ := kv
    by_cases hk : k1 = k
    · simp [LLSD.assignField, LLSD.hasField, hk]
    · simp [LLSD.assignField, LLSD.hasField, hk, ih]

theorem hasField_assignField_other (k k2 : String) (v : LLSD) (fs : List (String × LLSD))
    (hne : k2 ≠ k) :
    LLSD.hasField k2 (LLSD.assignField k v fs) = LLSD.hasField k2 fs := by
  induction fs with
  | nil =>
    have : ¬ k = k2 := fun h => hne h.symm
    simp [LLSD.assignField, LLSD.hasField, this]
  | cons kv rest ih =>
    obtain ⟨k1, v1⟩ := kv
    simp only [LLSD.assignField]
    by_cases hk : k1 = k
    · rw [if_pos hk]
      have h1 : ¬ k1 = k2 := fun h => hne (h.symm.trans hk)
      simp only [LLSD.hasField, if_neg h1]
    · rw [if_neg hk]
      simp only [LLSD.hasField, ih]

theorem get_set_same (x : LLSD) (k : String) (v : LLSD) : (x.set k v).get k = v := by
  cases x <;> simp [LLSD.set, LLSD.get, LLSD.lookupField, lookupField_assignField_same]

theorem get_set_other (x : LLSD) (k k2 : String) (v : LLSD) (hne : k2 ≠ k) :
    (x.set k v).get k2 = x.get k2 := by
  have hne2 : ¬ k = k2 := fun h => hne h.symm
  cases x <;>
    simp [LLSD.set, LLSD.get, LLSD.lookupField, lookupField_assignField_other _ _ _ _ hne, hne2]

theorem has_set_same (x : LLSD) (k : String) (v : LLSD) : (x.set k v).has k = true := by
  cases x <;> simp [LLSD.set, LLSD.has, LLSD.hasField, hasField_assignField_same]

theorem has_set_other (x : LLSD) (k k2 : String) (v : LLSD) (hne : k2 ≠ k) :
    (x.set k v).has k2 = x.has k2 := by
  have hne2 : ¬ k = k2 := fun h => hne h.symm
  cases x <;>
    simp [LLSD.set, LLSD.has, LLSD.hasField, hasField_assignField_other _ _ _ _ hne, hne2]

theorem writeStatusCodes_success (status : HttpStatus) (url : String) (x : LLSD) :
    (HttpCoroHandler.writeStatusCodes status url x).get HTTP_RESULTS_SUCCESS =
      LLSD.boolean status.toBool := by
  unfold HttpCoroHandler.writeStatusCodes
  simp only []
  rw [get_set_other _ _ _ _ (by decide), get_set_other _ _ _ _ (by decide),
    get_set_other _ _ _ _ (by decide), get_set_other _ _ _ _ (by decide), get_set_same]

theorem buildStatusEntry_some (resp : HttpResponse) (status : HttpStatus) (result : LLSD) :
    HttpCoroHandler.buildStatusEntry (some resp) status result =
      result.set HTTP_RESULTS (statusEntry resp status) := by
  rfl

theorem attachErrorBody_failed (h : HttpCoroHandler) (resp : HttpResponse) (status : HttpStatus)
    (result : LLSD) (hfail : status.toBool = false) :
    HttpCoroHandler.attachErrorBody h resp status result =
      result.set HTTP_RESULTS ((result.get HTTP_RESULTS).set "error_body" (errorBody h resp)) := by
  unfold HttpCoroHandler.attachErrorBody errorBody
  simp only [hfail, Bool.not_false, if_true]
  by_cases hp : (h.parseBody (some resp) false).2 = true
  · simp [hp]
  · simp [hp]

theorem attachErrorBody_ok (h : HttpCoroHandler) (resp : HttpResponse) (status : HttpStatus)
    (result : LLSD) (hok : status.toBool = true) :
    HttpCoroHandler.attachErrorBody h resp status result = result := by
  unfold HttpCoroHandler.attachErrorBody
  simp [hok]

theorem statusEntry_success (resp : HttpResponse) (status : HttpStatus) :
    (statusEntry resp status).get HTTP_RESULTS_SUCCESS = LLSD.boolean status.toBool := by
  unfold statusEntry
  rw [get_set_other _ _ _ _ (by decide), writeStatusCodes_success]

/-- The Result composed for a failed status whose first half yields `body`. -/
theorem composeResult_failed (h : HttpCoroHandler) (resp : HttpResponse) (body : LLSD)
    (hfail : resp.mStatus.toBool = false)
    (hbody : HttpCoroHandler.composeBody h resp = (body, resp.mStatus)) :
    HttpCoroHandler.composeResult h resp =
      (body.set HTTP_RESULTS (statusEntry resp resp.mStatus)).set HTTP_RESULTS
        ((statusEntry resp resp.mStatus).set "error_body" (errorBody h resp)) := by
  unfold HttpCoroHandler.composeResult
  simp only [hbody, buildStatusEntry_some]
  rw [attachErrorBody_failed h resp resp.mStatus _ hfail, get_set_same]

theorem composeBody_client_error_map (h : HttpCoroHandler) (resp : HttpResponse)
    (m : List (String × LLSD))
    (hfail : resp.mStatus.toBool = false)
    (h4 : 400 ≤ resp.mStatus.mType ∧ resp.mStatus.mType < 500)
    (hbody : (h.parseBody (some resp) false).1 = LLSD.map m) :
    HttpCoroHandler.composeBody h resp = (LLSD.map m, resp.mStatus) := by
  unfold HttpCoroHandler.composeBody
  simp [hfail, h4, hbody, LLSD.isUndefined, LLSD.isMap]

theorem composeBody_client_error_scalar (h : HttpCoroHandler) (resp : HttpResponse)
    (hfail : resp.mStatus.toBool = false)
    (h4 : 400 ≤ resp.mStatus.mType ∧ resp.mStatus.mType < 500)
    (hdef : (h.parseBody (some resp) false).1.isUndefined = false)
    (hnomap : (h.parseBody (some resp) false).1.isMap = false) :
    HttpCoroHandler.composeBody h resp =
      (LLSD.emptyMap.set HTTP_RESULTS_CONTENT (h.parseBody (some resp) false).1, resp.mStatus) := by
  unfold HttpCoroHandler.composeBody
  simp [hfail, h4, hdef, hnomap]

/-- C8, counterexample: a POST of the document `{"a": 1}` returns the undefined
value and submits nothing; and when the transport completes with status 200 and
the echoed body through the structured-document (JSON) handler, the Result that
is posted has `http_result` as its only field: its field `a` is undefined and
the body `{"a": 1}` is nowhere in it. -/
theorem structured_post_loses_body :
    (idle0.postAndSuspend "/echo" docA1 none none).ret = LLSD.undefined ∧
    (idle0.postAndSuspend "/echo" docA1 none none).effects = [] ∧
    HttpCoroHandler.onCompleted K0 (HttpCoroJSONHandler "reply") 5 (some resp200) =
      [Effect.post "reply" (HttpCoroHandler.composeResult (HttpCoroJSONHandler "reply") resp200)] ∧
    (HttpCoroHandler.composeResult (HttpCoroJSONHandler "reply") resp200).keys = [HTTP_RESULTS] ∧
    (HttpCoroHandler.composeResult (HttpCoroJSONHandler "reply") resp200).get "a" = LLSD.undefined ∧
    ¬ (HttpCoroHandler.composeResult (HttpCoroJSONHandler "reply") resp200).get "a" =
      docA1.get "a" ∧
    (HttpCoroHandler.composeResult (HttpCoroJSONHandler "reply") resp200).has
      HTTP_RESULTS_CONTENT = false := by
  refine ⟨rfl, rfl, rfl, rfl, rfl, ?_, rfl⟩
  intro h
  have h2 : (HttpCoroHandler.composeResult (HttpCoroJSONHandler "reply") resp200).get "a" =
      LLSD.undefined := rfl
  have h3 : docA1.get "a" = LLSD.integer 1 := rfl
  rw [h2, h3] at h
  exact LLSD.noConfusion h

/-- C8, amended: for every successful response, whatever its body, the Result
that `onCompleted` posts under the structured-document (JSON) handler has
`http_result.success` true and carries no body: `http_result` is its only
top-level field and the Result is the same for every body. `postAndSuspend`
with a document body returns the undefined value and submits nothing. -/
theorem json_success_result_carries_no_body (K : HttpConsts) (reply : String)
    (handle : HttpHandle) (resp : HttpResponse)
    (hok : resp.mStatus.toBool = true) (hg : isGenuine K (some resp) = true) :
    HttpCoroHandler.onCompleted K (HttpCoroJSONHandler reply) handle (some resp) =
      [Effect.post reply (HttpCoroHandler.composeResult (HttpCoroJSONHandler reply) resp)] ∧
    HttpCoroHandler.composeResult (HttpCoroJSONHandler reply) resp =
      LLSD.map [(HTTP_RESULTS, statusEntry resp resp.mStatus)] ∧
    (HttpCoroHandler.composeResult (HttpCoroJSONHandler reply) resp).keys = [HTTP_RESULTS] ∧
    ((HttpCoroHandler.composeResult (HttpCoroJSONHandler reply) resp).get HTTP_RESULTS).get
      HTTP_RESULTS_SUCCESS = LLSD.boolean true ∧
    (∀ body2, HttpCoroHandler.composeResult (HttpCoroJSONHandler reply)
        { resp with mBody := body2 } =
      HttpCoroHandler.composeResult (HttpCoroJSONHandler reply) resp) ∧
    (∀ (self : HttpCoroutineAdapter) (url : String) (body : LLSD) (options : HttpOptionsPtr)
        (headers : HttpHeadersPtr),
      (self.postAndSuspend url body options headers).ret = LLSD.undefined ∧
      (self.postAndSuspend url body options headers).effects = []) := by
  have hcomp : ∀ r : HttpResponse, r.mStatus.toBool = true →
      HttpCoroHandler.composeResult (HttpCoroJSONHandler reply) r =
        LLSD.map [(HTTP_RESULTS, statusEntry r r.mStatus)] := by
    intro r hr
    unfold HttpCoroHandler.composeResult
    have hb : HttpCoroHandler.composeBody (HttpCoroJSONHandler reply) r =
        (LLSD.emptyMap, r.mStatus) := by
      unfold HttpCoroHandler.composeBody
      simp [hr, HttpCoroJSONHandler]
    simp only [hb, buildStatusEntry_some]
    rw [attachErrorBody_ok _ _ _ _ hr]
    rfl
  refine ⟨onCompleted_genuine K _ handle resp hg, hcomp resp hok, ?_, ?_, ?_, ?_⟩
  · rw [hcomp resp hok]; rfl
  · rw [hcomp resp hok]
    have : (LLSD.map [(HTTP_RESULTS, statusEntry resp resp.mStatus)]).get HTTP_RESULTS =
        statusEntry resp resp.mStatus := by
      simp [LLSD.get, LLSD.lookupField]
    rw [this, statusEntry_success, hok]
  · intro body2
    rw [hcomp resp hok, hcomp { resp with mBody := body2 } hok]
    rfl
  · intro self url body options headers
    unfold HttpCoroutineAdapter.postAndSuspend
    cases self.mRequest <;> exact ⟨rfl, rfl⟩

theorem json_success_result_carries_no_body_witness :
    HttpCoroHandler.onCompleted K0 (HttpCoroJSONHandler "reply") 5 (some resp200) =
      [Effect.post "reply" (HttpCoroHandler.composeResult (HttpCoroJSONHandler "reply") resp200)] ∧
    HttpCoroHandler.composeResult (HttpCoroJSONHandler "reply") resp200 =
      LLSD.map [(HTTP_RESULTS, statusEntry resp200 resp200.mStatus)] ∧
    (HttpCoroHandler.composeResult (HttpCoroJSONHandler "reply") resp200).keys = [HTTP_RESULTS] ∧
    ((HttpCoroHandler.composeResult (HttpCoroJSONHandler "reply") resp200).get HTTP_RESULTS).get
      HTTP_RESULTS_SUCCESS = LLSD.boolean true ∧
    (∀ body2, HttpCoroHandler.composeResult (HttpCoroJSONHandler "reply")
        { resp200 with mBody := body2 } =
      HttpCoroHandler.composeResult (HttpCoroJSONHandler "reply") resp200) ∧
    (∀ (self : HttpCoroutineAdapter) (url : String) (body : LLSD) (options : HttpOptionsPtr)
        (headers : HttpHeadersPtr),
      (self.postAndSuspend url body options headers).ret = LLSD.undefined ∧
      (self.postAndSuspend url body options headers).effects = []) :=
  json_success_result_carries_no_body K0 "reply" 5 resp200 (by decide) (by decide)

/-- C9, counterexample: a 404 whose body the handler parses to the map
`{"error": "not found", "http_result": "spoof"}`. The field `http_result` of
that map does not appear in the posted Result with the same value: the status
entry has taken its place. The field `error` does appear. -/
theorem client_error_map_field_replaced :
    (resp404 bodyA1).mStatus.toBool = false ∧
    ((parsingHandler "reply" spoofBody false).parseBody (some (resp404 bodyA1)) false).1 =
      spoofBody ∧
    spoofBody.isMap = true ∧
    spoofBody.has HTTP_RESULTS = true ∧
    HttpCoroHandler.onCompleted K0 (parsingHandler "reply" spoofBody false) 5
        (some (resp404 bodyA1)) =
      [Effect.post "reply"
        (HttpCoroHandler.composeResult (parsingHandler "reply" spoofBody false)
          (resp404 bodyA1))] ∧
    ¬ (HttpCoroHandler.composeResult (parsingHandler "reply" spoofBody false)
        (resp404 bodyA1)).get HTTP_RESULTS = spoofBody.get HTTP_RESULTS ∧
    (HttpCoroHandler.composeResult (parsingHandler "reply" spoofBody false)
        (resp404 bodyA1)).get "error" = LLSD.string "not found" := by
  refine ⟨rfl, rfl, rfl, rfl, rfl, ?_, rfl⟩
  intro h
  have h2 : spoofBody.get HTTP_RESULTS = LLSD.string "spoof" := rfl
  have h3 : ((HttpCoroHandler.composeResult (parsingHandler "reply" spoofBody false)
        (resp404 bodyA1)).get HTTP_RESULTS).isMap = true := rfl
  rw [h, h2] at h3
  exact Bool.noConfusion h3

/-- C9, amended: for every failed response whose status is a client error (400
to 499) and whose body the handler variant parses to a map m, every field of m
other than `http_result` appears as a top-level field of the Result posted by
`onCompleted` with the same value, and the Result has no other top-level field
besides `http_result`; `http_result` holds the status entry (with `success`
false), which replaces a field of that name in m. The body is not nested under
`content`: the Result's `content` is m's own `content` field. -/
theorem client_error_map_fields_surface (K : HttpConsts) (h : HttpCoroHandler)
    (handle : HttpHandle) (resp : HttpResponse) (m : List (String × LLSD))
    (hfail : resp.mStatus.toBool = false)
    (h4 : 400 ≤ resp.mStatus.mType ∧ resp.mStatus.mType < 500)
    (hg : isGenuine K (some resp) = true)
    (hbody : (h.parseBody (some resp) false).1 = LLSD.map m) :
    HttpCoroHandler.onCompleted K h handle (some resp) =
      [Effect.post h.mReplyPump (HttpCoroHandler.composeResult h resp)] ∧
    (∀ k, k ≠ HTTP_RESULTS →
      (HttpCoroHandler.composeResult h resp).get k = (LLSD.map m).get k ∧
      (HttpCoroHandler.composeResult h resp).has k = (LLSD.map m).has k) ∧
    (HttpCoroHandler.composeResult h resp).has HTTP_RESULTS = true ∧
    (HttpCoroHandler.composeResult h resp).get HTTP_RESULTS =
      (statusEntry resp resp.mStatus).set "error_body" (errorBody h resp) ∧
    ((HttpCoroHandler.composeResult h resp).get HTTP_RESULTS).get HTTP_RESULTS_SUCCESS =
      LLSD.boolean false ∧
    (HttpCoroHandler.composeResult h resp).get HTTP_RESULTS_CONTENT =
      (LLSD.map m).get HTTP_RESULTS_CONTENT := by
  have hres := composeResult_failed h resp (LLSD.map m) hfail
    (composeBody_client_error_map h resp m hfail h4 hbody)
  have hother : ∀ k, k ≠ HTTP_RESULTS →
      (HttpCoroHandler.composeResult h resp).get k = (LLSD.map m).get k ∧
      (HttpCoroHandler.composeResult h resp).has k = (LLSD.map m).has k := by
    intro k hk
    rw [hres]
    exact ⟨by rw [get_set_other _ _ _ _ hk, get_set_other _ _ _ _ hk],
      by rw [has_set_other _ _ _ _ hk, has_set_other _ _ _ _ hk]⟩
  refine ⟨onCompleted_genuine K h handle resp hg, hother, ?_, ?_, ?_,
    (hother HTTP_RESULTS_CONTENT (by decide)).1⟩
  · rw [hres, has_set_same]
  · rw [hres, get_set_same]
  · rw [hres, get_set_same, get_set_other _ _ _ _ (by decide), statusEntry_success, hfail]

theorem client_error_map_fields_surface_witness :
    HttpCoroHandler.onCompleted K0 (parsingHandler "reply" spoofBody false) 5
        (some (resp404 bodyA1)) =
      [Effect.post (parsingHandler "reply" spoofBody false).mReplyPump
        (HttpCoroHandler.composeResult (parsingHandler "reply" spoofBody false)
          (resp404 bodyA1))] ∧
    (∀ k, k ≠ HTTP_RESULTS →
      (HttpCoroHandler.composeResult (parsingHandler "reply" spoofBody false)
          (resp404 bodyA1)).get k =
        (LLSD.map [("error", LLSD.string "not found"),
          ("http_result", LLSD.string "spoof")]).get k ∧
      (HttpCoroHandler.composeResult (parsingHandler "reply" spoofBody false)
          (resp404 bodyA1)).has k =
        (LLSD.map [("error", LLSD.string "not found"),
          ("http_result", LLSD.string "spoof")]).has k) ∧
    (HttpCoroHandler.composeResult (parsingHandler "reply" spoofBody false)
      (resp404 bodyA1)).has HTTP_RESULTS = true ∧
    (HttpCoroHandler.composeResult (parsingHandler "reply" spoofBody false)
        (resp404 bodyA1)).get HTTP_RESULTS =
      (statusEntry (resp404 bodyA1) (resp404 bodyA1).mStatus).set "error_body"
        (errorBody (parsingHandler "reply" spoofBody false) (resp404 bodyA1)) ∧
    ((HttpCoroHandler.composeResult (parsingHandler "reply" spoofBody false)
        (resp404 bodyA1)).get HTTP_RESULTS).get HTTP_RESULTS_SUCCESS = LLSD.boolean false ∧
    (HttpCoroHandler.composeResult (parsingHandler "reply" spoofBody false)
        (resp404 bodyA1)).get HTTP_RESULTS_CONTENT =
      (LLSD.map [("error", LLSD.string "not found"),
        ("http_result", LLSD.string "spoof")]).get HTTP_RESULTS_CONTENT :=
  client_error_map_fields_surface K0 (parsingHandler "reply" spoofBody false) 5
    (resp404 bodyA1) [("error", LLSD.string "not found"), ("http_result", LLSD.string "spoof")]
    (by decide) (by decide) (by decide) (by rfl)

/-- C10: for every failed response whose status is a client error (400 to 499)
and whose body the handler variant parses to a defined value v that is not a
map, the Result posted by `onCompleted` has a top-level `content` field equal to
v and its top-level fields are exactly `content` and `http_result`. -/
theorem client_error_scalar_nested_under_content (K : HttpConsts) (h : HttpCoroHandler)
    (handle : HttpHandle) (resp : HttpResponse) (v : LLSD)
    (hfail : resp.mStatus.toBool = false)
    (h4 : 400 ≤ resp.mStatus.mType ∧ resp.mStatus.mType < 500)
    (hg : isGenuine K (some resp) = true)
    (hbody : (h.parseBody (some resp) false).1 = v)
    (hdef : v.isUndefined = false) (hnomap : v.isMap = false) :
    HttpCoroHandler.onCompleted K h handle (some resp) =
      [Effect.post h.mReplyPump (HttpCoroHandler.composeResult h resp)] ∧
    (HttpCoroHandler.composeResult h resp).get HTTP_RESULTS_CONTENT = v ∧
    (HttpCoroHandler.composeResult h resp).keys = [HTTP_RESULTS_CONTENT, HTTP_RESULTS] ∧
    (∀ k, (HttpCoroHandler.composeResult h resp).has k = true →
      k = HTTP_RESULTS_CONTENT ∨ k = HTTP_RESULTS) := by
  subst hbody
  have hres := composeResult_failed h resp _ hfail
    (composeBody_client_error_scalar h resp hfail h4 hdef hnomap)
  have hne : ¬ HTTP_RESULTS_CONTENT = HTTP_RESULTS := by decide
  have hshape : HttpCoroHandler.composeResult h resp =
      LLSD.map [(HTTP_RESULTS_CONTENT, (h.parseBody (some resp) false).1),
        (HTTP_RESULTS, (statusEntry resp resp.mStatus).set "error_body" (errorBody h resp))] := by
    rw [hres]
    simp [LLSD.emptyMap, LLSD.set, LLSD.assignField, hne]
  refine ⟨onCompleted_genuine K h handle resp hg, ?_, ?_, ?_⟩
  · rw [hshape]
    simp [LLSD.get, LLSD.lookupField]
  · rw [hshape]
    rfl
  · intro k hk
    rw [hshape] at hk
    simp only [LLSD.has, LLSD.hasField] at hk
    by_cases h1 : HTTP_RESULTS_CONTENT = k
    · exact Or.inl h1.symm
    · by_cases h2 : HTTP_RESULTS = k
      · exact Or.inr h2.symm
      · simp [h1, h2] at hk

theorem client_error_scalar_nested_under_content_witness :
    HttpCoroHandler.onCompleted K0 (parsingHandler "reply" (LLSD.string "not found") false) 5
        (some (resp404 bodyA1)) =
      [Effect.post (parsingHandler "reply" (LLSD.string "not found") false).mReplyPump
        (HttpCoroHandler.composeResult (parsingHandler "reply" (LLSD.string "not found") false)
          (resp404 bodyA1))] ∧
    (HttpCoroHandler.composeResult (parsingHandler "reply" (LLSD.string "not found") false)
        (resp404 bodyA1)).get HTTP_RESULTS_CONTENT = LLSD.string "not found" ∧
    (HttpCoroHandler.composeResult (parsingHandler "reply" (LLSD.string "not found") false)
        (resp404 bodyA1)).keys = [HTTP_RESULTS_CONTENT, HTTP_RESULTS] ∧
    (∀ k, (HttpCoroHandler.composeResult (parsingHandler "reply" (LLSD.string "not found") false)
        (resp404 bodyA1)).has k = true →
      k = HTTP_RESULTS_CONTENT ∨ k = HTTP_RESULTS) :=
  client_error_scalar_nested_under_content K0
    (parsingHandler "reply" (LLSD.string "not found") false) 5 (resp404 bodyA1)
    (LLSD.string "not found") (by decide) (by decide) (by decide) (by rfl) (by rfl) (by rfl)

end Documents

section Completion

theorem char_toNat_ofNat_byte (n : Nat) (hn : n < 256) : (Char.ofNat n).toNat = n := by
  have hv : n.isValidChar := Or.inl (by omega)
  unfold Char.ofNat
  rw [dif_pos hv]
  rfl

/-- The string made from a byte sequence holds exactly those bytes, in order. -/
theorem bytesToString_bytes (bytes : List U8) :
    (bytesToString bytes).data.map Char.toNat = bytes.map (fun b => b.val) := by
  unfold bytesToString
  induction bytes with
  | nil => rfl
  | cons b rest ih =>
    simp only [List.map_cons, List.cons.injEq]
    exact ⟨char_toNat_ofNat_byte b.val b.isLt, ih⟩

theorem composeBody_client_error_undefined (h : HttpCoroHandler) (resp : HttpResponse)
    (hfail : resp.mStatus.toBool = false)
    (hundef : (h.parseBody (some resp) false).1 = LLSD.undefined) :
    HttpCoroHandler.composeBody h resp = (LLSD.emptyMap, resp.mStatus) := by
  unfold HttpCoroHandler.composeBody
  simp [hfail, hundef, LLSD.isUndefined]

theorem composeBody_other_failure (h : HttpCoroHandler) (resp : HttpResponse)
    (hfail : resp.mStatus.toBool = false)
    (hnot4 : ¬ (400 ≤ resp.mStatus.mType ∧ resp.mStatus.mType < 500)) :
    HttpCoroHandler.composeBody h resp = (LLSD.emptyMap, resp.mStatus) := by
  unfold HttpCoroHandler.composeBody
  simp only [hfail, Bool.not_false, if_true]
  rw [if_neg (by simpa using hnot4)]

/-- The Result composed for a failed status whose first half is the empty map:
the status entry, with `error_body` added, is its only field. -/
theorem composeResult_failed_empty (h : HttpCoroHandler) (resp : HttpResponse)
    (hfail : resp.mStatus.toBool = false)
    (hbody : HttpCoroHandler.composeBody h resp = (LLSD.emptyMap, resp.mStatus)) :
    HttpCoroHandler.composeResult h resp =
      LLSD.map [(HTTP_RESULTS,
        (statusEntry resp resp.mStatus).set "error_body" (errorBody h resp))] := by
  rw [composeResult_failed h resp LLSD.emptyMap hfail hbody]
  simp [LLSD.emptyMap, LLSD.set, LLSD.assignField]

theorem has_singleton (k k2 : String) (v : LLSD) (hk : (LLSD.map [(k, v)]).has k2 = true) :
    k2 = k := by
  simp only [LLSD.has, LLSD.hasField] at hk
  by_cases h1 : k = k2
  · exact h1.symm
  · simp [h1] at hk

/-- C11: for every failed response whose status is a client error (400 to 499)
and whose body fails to parse (the handler variant's `parseBody` yields the
undefined value), the Result posted by `onCompleted` carries no body field: its
only top-level field is `http_result`. -/
theorem client_error_unparsed_has_no_body_field (K : HttpConsts) (h : HttpCoroHandler)
    (handle : HttpHandle) (resp : HttpResponse)
    (hfail : resp.mStatus.toBool = false)
    (h4 : 400 ≤ resp.mStatus.mType ∧ resp.mStatus.mType < 500)
    (hg : isGenuine K (some resp) = true)
    (hundef : (h.parseBody (some resp) false).1 = LLSD.undefined) :
    HttpCoroHandler.onCompleted K h handle (some resp) =
      [Effect.post h.mReplyPump (HttpCoroHandler.composeResult h resp)] ∧
    (HttpCoroHandler.composeResult h resp).keys = [HTTP_RESULTS] ∧
    (∀ k, (HttpCoroHandler.composeResult h resp).has k = true → k = HTTP_RESULTS) ∧
    (HttpCoroHandler.composeResult h resp).has HTTP_RESULTS_CONTENT = false := by
  have _ := h4
  have hshape := composeResult_failed_empty h resp hfail
    (composeBody_client_error_undefined h resp hfail hundef)
  refine ⟨onCompleted_genuine K h handle resp hg, ?_, ?_, ?_⟩
  · rw [hshape]; rfl
  · intro k hk
    rw [hshape] at hk
    exact has_singleton _ _ _ hk
  · rw [hshape]
    simp only [LLSD.has, LLSD.hasField]
    rw [if_neg (by decide)]

theorem client_error_unparsed_has_no_body_field_witness :
    HttpCoroHandler.onCompleted K0 (HttpCoroRawHandler "reply") 5 (some (resp404 bodyA1)) =
      [Effect.post (HttpCoroRawHandler "reply").mReplyPump
        (HttpCoroHandler.composeResult (HttpCoroRawHandler "reply") (resp404 bodyA1))] ∧
    (HttpCoroHandler.composeResult (HttpCoroRawHandler "reply") (resp404 bodyA1)).keys =
      [HTTP_RESULTS] ∧
    (∀ k, (HttpCoroHandler.composeResult (HttpCoroRawHandler "reply") (resp404 bodyA1)).has k
      = true → k = HTTP_RESULTS) ∧
    (HttpCoroHandler.composeResult (HttpCoroRawHandler "reply") (resp404 bodyA1)).has
      HTTP_RESULTS_CONTENT = false :=
  client_error_unparsed_has_no_body_field K0 (HttpCoroRawHandler "reply") 5 (resp404 bodyA1)
    (by decide) (by decide) (by decide) (by rfl)

/-- C12, counterexample: a response with status 500 and the body `oops`, handled
by the raw variant. The Result has `success` false, but its
`http_result.error_body` is the undefined value, not a string with the bytes of
the body. -/
theorem raw_server_error_body_is_undefined :
    (resp500 (some bodyOops)).mStatus.toBool = false ∧
    HttpCoroHandler.onCompleted K0 (HttpCoroRawHandler "reply") 5
        (some (resp500 (some bodyOops))) =
      [Effect.post "reply"
        (HttpCoroHandler.composeResult (HttpCoroRawHandler "reply") (resp500 (some bodyOops)))] ∧
    ((HttpCoroHandler.composeResult (HttpCoroRawHandler "reply")
        (resp500 (some bodyOops))).get HTTP_RESULTS).get "error_body" = LLSD.undefined ∧
    ¬ ((HttpCoroHandler.composeResult (HttpCoroRawHandler "reply")
        (resp500 (some bodyOops))).get HTTP_RESULTS).get "error_body" =
      LLSD.string (bytesToString bodyOops) := by
  refine ⟨rfl, rfl, rfl, ?_⟩
  intro h
  have h2 : ((HttpCoroHandler.composeResult (HttpCoroRawHandler "reply")
        (resp500 (some bodyOops))).get HTTP_RESULTS).get "error_body" = LLSD.undefined := rfl
  rw [h2] at h
  exact LLSD.noConfusion h

/-- C12, amended: for every response whose status is a server error (5xx) or a
transport failure (a failed status outside 400 to 499), under every handler
variant, the Result posted by `onCompleted` has `success` false and
`http_result` as its only top-level field (no parsed body is surfaced). Its
`http_result.error_body` is the value of the variant's `parseBody` when that
reports success, and otherwise a string containing exactly the bytes of the raw
body in order (empty when there is none). Under the structured-document (JSON)
variant it is that string; under the raw variant it is the undefined value,
whatever the body. -/
theorem server_error_result_and_error_body (K : HttpConsts) (h : HttpCoroHandler)
    (handle : HttpHandle) (resp : HttpResponse)
    (hfail : resp.mStatus.toBool = false)
    (hnot4 : ¬ (400 ≤ resp.mStatus.mType ∧ resp.mStatus.mType < 500))
    (hg : isGenuine K (some resp) = true) :
    HttpCoroHandler.onCompleted K h handle (some resp) =
      [Effect.post h.mReplyPump (HttpCoroHandler.composeResult h resp)] ∧
    (HttpCoroHandler.composeResult h resp).keys = [HTTP_RESULTS] ∧
    ((HttpCoroHandler.composeResult h resp).get HTTP_RESULTS).get HTTP_RESULTS_SUCCESS =
      LLSD.boolean false ∧
    ((HttpCoroHandler.composeResult h resp).get HTTP_RESULTS).get "error_body" =
      errorBody h resp ∧
    ((h.parseBody (some resp) false).2 = true →
      errorBody h resp = (h.parseBody (some resp) false).1) ∧
    ((h.parseBody (some resp) false).2 = false →
      errorBody h resp = LLSD.string (bytesToString (resp.mBody.getD []))) ∧
    (∀ reply, errorBody (HttpCoroJSONHandler reply) resp =
      LLSD.string (bytesToString (resp.mBody.getD []))) ∧
    (∀ reply, errorBody (HttpCoroRawHandler reply) resp = LLSD.undefined) ∧
    (bytesToString (resp.mBody.getD [])).data.map Char.toNat =
      (resp.mBody.getD []).map (fun b => b.val) := by
  have hshape := composeResult_failed_empty h resp hfail
    (composeBody_other_failure h resp hfail hnot4)
  have hget : (HttpCoroHandler.composeResult h resp).get HTTP_RESULTS =
      (statusEntry resp resp.mStatus).set "error_body" (errorBody h resp) := by
    rw [hshape]
    simp [LLSD.get, LLSD.lookupField]
  refine ⟨onCompleted_genuine K h handle resp hg, ?_, ?_, ?_, ?_, ?_, ?_, ?_,
    bytesToString_bytes _⟩
  · rw [hshape]; rfl
  · rw [hget, get_set_other _ _ _ _ (by decide), statusEntry_success, hfail]
  · rw [hget, get_set_same]
  · intro hp
    simp [errorBody, hp]
  · intro hp
    simp [errorBody, hp]
  · intro reply
    simp [errorBody, HttpCoroJSONHandler]
  · intro reply
    simp [errorBody, HttpCoroRawHandler]

theorem server_error_result_and_error_body_witness :
    HttpCoroHandler.onCompleted K0 (HttpCoroJSONHandler "reply") 5
        (some (resp500 (some bodyOops))) =
      [Effect.post (HttpCoroJSONHandler "reply").mReplyPump
        (HttpCoroHandler.composeResult (HttpCoroJSONHandler "reply")
          (resp500 (some bodyOops)))] ∧
    (HttpCoroHandler.composeResult (HttpCoroJSONHandler "reply")
      (resp500 (some bodyOops))).keys = [HTTP_RESULTS] ∧
    ((HttpCoroHandler.composeResult (HttpCoroJSONHandler "reply")
      (resp500 (some bodyOops))).get HTTP_RESULTS).get HTTP_RESULTS_SUCCESS =
      LLSD.boolean false ∧
    ((HttpCoroHandler.composeResult (HttpCoroJSONHandler "reply")
      (resp500 (some bodyOops))).get HTTP_RESULTS).get "error_body" =
      errorBody (HttpCoroJSONHandler "reply") (resp500 (some bodyOops)) ∧
    (((HttpCoroJSONHandler "reply").parseBody (some (resp500 (some bodyOops))) false).2 = true →
      errorBody (HttpCoroJSONHandler "reply") (resp500 (some bodyOops)) =
        ((HttpCoroJSONHandler "reply").parseBody (some (resp500 (some bodyOops))) false).1) ∧
    (((HttpCoroJSONHandler "reply").parseBody (some (resp500 (some bodyOops))) false).2 = false →
      errorBody (HttpCoroJSONHandler "reply") (resp500 (some bodyOops)) =
        LLSD.string (bytesToString ((resp500 (some bodyOops)).mBody.getD []))) ∧
    (∀ reply, errorBody (HttpCoroJSONHandler reply) (resp500 (some bodyOops)) =
      LLSD.string (bytesToString ((resp500 (some bodyOops)).mBody.getD []))) ∧
    (∀ reply, errorBody (HttpCoroRawHandler reply) (resp500 (some bodyOops)) =
      LLSD.undefined) ∧
    (bytesToString ((resp500 (some bodyOops)).mBody.getD [])).data.map Char.toNat =
      ((resp500 (some bodyOops)).mBody.getD []).map (fun b => b.val) :=
  server_error_result_and_error_body K0 (HttpCoroJSONHandler "reply") 5
    (resp500 (some bodyOops)) (by decide) (by decide) (by decide)

/-- The status entry, key by key. -/
theorem statusEntry_shape (resp : HttpResponse) (status : HttpStatus) :
    statusEntry resp status =
      LLSD.map [(HTTP_RESULTS_SUCCESS, LLSD.boolean status.toBool),
        (HTTP_RESULTS_TYPE, LLSD.integer status.mType),
        (HTTP_RESULTS_STATUS, LLSD.integer status.mStatus),
        (HTTP_RESULTS_MESSAGE, LLSD.string status.mMessage),
        (HTTP_RESULTS_URL, LLSD.string resp.mRequestURL),
        (HTTP_RESULTS_HEADERS,
          match resp.mHeaders with
          | some hdrs => HttpCoroHandler.copyHeaders hdrs LLSD.emptyMap
          | none => LLSD.emptyMap)] := by
  simp [statusEntry, HttpCoroHandler.writeStatusCodes, LLSD.emptyMap, LLSD.set,
    LLSD.assignField, HTTP_RESULTS_SUCCESS, HTTP_RESULTS_TYPE, HTTP_RESULTS_STATUS,
    HTTP_RESULTS_MESSAGE, HTTP_RESULTS_URL, HTTP_RESULTS_HEADERS]

theorem composeBody_failed_status (h : HttpCoroHandler) (resp : HttpResponse)
    (hfail : resp.mStatus.toBool = false) :
    (HttpCoroHandler.composeBody h resp).2 = resp.mStatus := by
  unfold HttpCoroHandler.composeBody
  simp only [hfail, Bool.not_false, if_true]
  split
  · split
    · split <;> rfl
    · rfl
  · rfl

/-- The `http_result` entry of every composed Result: the status entry of the
status that the first half of `onCompleted` hands on, with `error_body` added
when that status is a failure. -/
theorem composeResult_entry (h : HttpCoroHandler) (resp : HttpResponse) :
    (HttpCoroHandler.composeResult h resp).has HTTP_RESULTS = true ∧
    (HttpCoroHandler.composeResult h resp).get HTTP_RESULTS =
      if (HttpCoroHandler.composeBody h resp).2.toBool then
        statusEntry resp (HttpCoroHandler.composeBody h resp).2
      else
        (statusEntry resp (HttpCoroHandler.composeBody h resp).2).set "error_body"
          (errorBody h resp) := by
  unfold HttpCoroHandler.composeResult
  simp only [buildStatusEntry_some]
  by_cases hs : (HttpCoroHandler.composeBody h resp).2.toBool = true
  · rw [attachErrorBody_ok _ _ _ _ hs, if_pos hs]
    exact ⟨has_set_same _ _ _, get_set_same _ _ _⟩
  · have hf : (HttpCoroHandler.composeBody h resp).2.toBool = false := by simpa using hs
    rw [attachErrorBody_failed _ _ _ _ hf, if_neg hs, get_set_same]
    exact ⟨has_set_same _ _ _, get_set_same _ _ _⟩

/-- A field of the status entry other than `error_body`, read from a composed
Result. -/
theorem composeResult_entry_field (h : HttpCoroHandler) (resp : HttpResponse) (k : String)
    (hk : k ≠ "error_body") :
    ((HttpCoroHandler.composeResult h resp).get HTTP_RESULTS).get k =
      (statusEntry resp (HttpCoroHandler.composeBody h resp).2).get k := by
  rw [(composeResult_entry h resp).2]
  split
  · rfl
  · rw [get_set_other _ _ _ _ hk]

/-- C13, counterexample: a 404 response, whose status has the type 404 and the
code 1 (a reply error). The Result has `http_result.success` false and
`http_result.type` 404, but `http_result.status` is 1, not 404. -/
theorem client_error_status_field_is_not_the_http_code :
    (resp404 bodyA1).mStatus.mType = 404 ∧
    (resp404 bodyA1).mStatus.toBool = false ∧
    HttpCoroHandler.onCompleted K0 (HttpCoroRawHandler "reply") 5 (some (resp404 bodyA1)) =
      [Effect.post "reply"
        (HttpCoroHandler.composeResult (HttpCoroRawHandler "reply") (resp404 bodyA1))] ∧
    ((HttpCoroHandler.composeResult (HttpCoroRawHandler "reply") (resp404 bodyA1)).get
      HTTP_RESULTS).get HTTP_RESULTS_TYPE = LLSD.integer 404 ∧
    ((HttpCoroHandler.composeResult (HttpCoroRawHandler "reply") (resp404 bodyA1)).get
      HTTP_RESULTS).get HTTP_RESULTS_STATUS = LLSD.integer 1 ∧
    ¬ ((HttpCoroHandler.composeResult (HttpCoroRawHandler "reply") (resp404 bodyA1)).get
      HTTP_RESULTS).get HTTP_RESULTS_STATUS = LLSD.integer 404 := by
  refine ⟨rfl, rfl, rfl, rfl, rfl, ?_⟩
  intro h
  have h2 : ((HttpCoroHandler.composeResult (HttpCoroRawHandler "reply") (resp404 bodyA1)).get
      HTTP_RESULTS).get HTTP_RESULTS_STATUS = LLSD.integer 1 := rfl
  rw [h2] at h
  injection h with h3
  exact absurd h3 (by decide)

/-- C13, amended: for every failed response whose status has as its type the
HTTP client-error code c (400 to 499), the Result posted by `onCompleted` has
`http_result.success` false and `http_result.type` equal to c;
`http_result.status` is the code of the status (`getStatus()`), which is c only
when the code of the status is c itself. -/
theorem client_error_status_entry (K : HttpConsts) (h : HttpCoroHandler)
    (handle : HttpHandle) (resp : HttpResponse) (c : Int)
    (hc : 400 ≤ c ∧ c < 500) (htype : resp.mStatus.mType = c)
    (hfail : resp.mStatus.toBool = false)
    (hg : isGenuine K (some resp) = true) :
    HttpCoroHandler.onCompleted K h handle (some resp) =
      [Effect.post h.mReplyPump (HttpCoroHandler.composeResult h resp)] ∧
    ((HttpCoroHandler.composeResult h resp).get HTTP_RESULTS).get HTTP_RESULTS_SUCCESS =
      LLSD.boolean false ∧
    ((HttpCoroHandler.composeResult h resp).get HTTP_RESULTS).get HTTP_RESULTS_TYPE =
      LLSD.integer c ∧
    ((HttpCoroHandler.composeResult h resp).get HTTP_RESULTS).get HTTP_RESULTS_STATUS =
      LLSD.integer resp.mStatus.mStatus ∧
    (((HttpCoroHandler.composeResult h resp).get HTTP_RESULTS).get HTTP_RESULTS_STATUS =
      LLSD.integer c ↔ resp.mStatus.mStatus = c) := by
  have _ := hc
  have hs := composeBody_failed_status h resp hfail
  have hsucc : ((HttpCoroHandler.composeResult h resp).get HTTP_RESULTS).get
      HTTP_RESULTS_SUCCESS = LLSD.boolean false := by
    rw [composeResult_entry_field h resp _ (by decide), hs, statusEntry_success, hfail]
  have htyp : ((HttpCoroHandler.composeResult h resp).get HTTP_RESULTS).get
      HTTP_RESULTS_TYPE = LLSD.integer c := by
    rw [composeResult_entry_field h resp _ (by decide), hs, statusEntry_shape, ← htype]
    rfl
  have hst : ((HttpCoroHandler.composeResult h resp).get HTTP_RESULTS).get
      HTTP_RESULTS_STATUS = LLSD.integer resp.mStatus.mStatus := by
    rw [composeResult_entry_field h resp _ (by decide), hs, statusEntry_shape]
    rfl
  refine ⟨onCompleted_genuine K h handle resp hg, hsucc, htyp, hst, ?_⟩
  rw [hst]
  constructor
  · intro heq
    injection heq
  · intro heq
    rw [heq]

theorem client_error_status_entry_witness :
    HttpCoroHandler.onCompleted K0 (HttpCoroRawHandler "reply") 5 (some (resp404 bodyA1)) =
      [Effect.post (HttpCoroRawHandler "reply").mReplyPump
        (HttpCoroHandler.composeResult (HttpCoroRawHandler "reply") (resp404 bodyA1))] ∧
    ((HttpCoroHandler.composeResult (HttpCoroRawHandler "reply") (resp404 bodyA1)).get
      HTTP_RESULTS).get HTTP_RESULTS_SUCCESS = LLSD.boolean false ∧
    ((HttpCoroHandler.composeResult (HttpCoroRawHandler "reply") (resp404 bodyA1)).get
      HTTP_RESULTS).get HTTP_RESULTS_TYPE = LLSD.integer 404 ∧
    ((HttpCoroHandler.composeResult (HttpCoroRawHandler "reply") (resp404 bodyA1)).get
      HTTP_RESULTS).get HTTP_RESULTS_STATUS = LLSD.integer (resp404 bodyA1).mStatus.mStatus ∧
    (((HttpCoroHandler.composeResult (HttpCoroRawHandler "reply") (resp404 bodyA1)).get
      HTTP_RESULTS).get HTTP_RESULTS_STATUS = LLSD.integer 404 ↔
      (resp404 bodyA1).mStatus.mStatus = 404) :=
  client_error_status_entry K0 (HttpCoroRawHandler "reply") 5 (resp404 bodyA1) 404
    (by decide) (by rfl) (by decide) (by decide)

theorem writeStatusCodes_shape (status : HttpStatus) (url : String) :
    HttpCoroHandler.writeStatusCodes status url LLSD.emptyMap =
      LLSD.map [(HTTP_RESULTS_SUCCESS, LLSD.boolean status.toBool),
        (HTTP_RESULTS_TYPE, LLSD.integer status.mType),
        (HTTP_RESULTS_STATUS, LLSD.integer status.mStatus),
        (HTTP_RESULTS_MESSAGE, LLSD.string status.mMessage),
        (HTTP_RESULTS_URL, LLSD.string url)] := by
  simp [HttpCoroHandler.writeStatusCodes, LLSD.emptyMap, LLSD.set,
    LLSD.assignField, HTTP_RESULTS_SUCCESS, HTTP_RESULTS_TYPE, HTTP_RESULTS_STATUS,
    HTTP_RESULTS_MESSAGE, HTTP_RESULTS_URL]

theorem toShort_of_short (i : Int) (hlo : -32768 ≤ i) (hhi : i ≤ 32767) : toShort i = i := by
  unfold toShort
  omega

/-- The status that `getStatusFromLLSD` extracts from a Result whose
`http_result` entry was written by `writeStatusCodes`. -/
theorem getStatusFromLLSD_wrapped (C : LLSDConversions) (status : HttpStatus) (url : String) :
    HttpCoroutineAdapter.getStatusFromLLSD C
        (LLSD.emptyMap.set "http_result"
          (HttpCoroHandler.writeStatusCodes status url LLSD.emptyMap)) =
      { mType := status.mType, mStatus := toShort status.mStatus, mMessage := "" } := by
  rw [writeStatusCodes_shape]
  rfl

/-- C14: the Result that `cancelSuspendedOperation` posts for a pending call is
synthesized locally from the cancellation sentinel `gStatusCancelled`: its
`http_result.type` and `http_result.status` are the type and the code of the
sentinel and its `http_result.success` is the boolean value of the sentinel.
With the sentinel as the spec describes it (a failed status whose type is not
an HTTP code), `success` is false, and `getStatusFromLLSD` of the Result equals
the sentinel and differs from the status of every HTTP response. -/
theorem cancelled_result_carries_sentinel (K : HttpConsts) (C : LLSDConversions) (heap : Heap)
    (self : HttpCoroutineAdapter) (req hp : Nat) (h : HttpCoroHandler)
    (hreq : heap.lockRequest self.mWeakRequest = some req)
    (hh : heap.lockHandler self.mWeakHandler = some (hp, h))
    (hy : self.mYieldingHandle ≠ LLCORE_HTTP_HANDLE_INVALID)
    (hsentinel : K.cancelledIsSentinel) :
    (self.cancelSuspendedOperation K heap).effects.filter Effect.isPost =
      [Effect.post h.mReplyPump (cancelledResult K)] ∧
    ((cancelledResult K).get HTTP_RESULTS).get HTTP_RESULTS_SUCCESS =
      LLSD.boolean K.gStatusCancelled.toBool ∧
    ((cancelledResult K).get HTTP_RESULTS).get HTTP_RESULTS_SUCCESS = LLSD.boolean false ∧
    ((cancelledResult K).get HTTP_RESULTS).get HTTP_RESULTS_TYPE =
      LLSD.integer K.gStatusCancelled.mType ∧
    ((cancelledResult K).get HTTP_RESULTS).get HTTP_RESULTS_STATUS =
      LLSD.integer K.gStatusCancelled.mStatus ∧
    (HttpCoroutineAdapter.getStatusFromLLSD C (cancelledResult K)).mType =
      K.gStatusCancelled.mType ∧
    (HttpCoroutineAdapter.getStatusFromLLSD C (cancelledResult K)).mStatus =
      K.gStatusCancelled.mStatus ∧
    (HttpCoroutineAdapter.getStatusFromLLSD C (cancelledResult K)).eq K.gStatusCancelled = true ∧
    (HttpCoroutineAdapter.getStatusFromLLSD C (cancelledResult K)).toBool = false ∧
    (∀ s : HttpStatus, s.isHttp →
      (HttpCoroutineAdapter.getStatusFromLLSD C (cancelledResult K)).eq s = false) := by
  obtain ⟨hfailed, hnohttp, _, _, hlo, hhi⟩ := hsentinel
  have hentry : (cancelledResult K).get HTTP_RESULTS =
      HttpCoroHandler.writeStatusCodes K.gStatusCancelled "" LLSD.emptyMap := by
    unfold cancelledResult
    exact get_set_same _ _ _
  have hstatus : HttpCoroutineAdapter.getStatusFromLLSD C (cancelledResult K) =
      { mType := K.gStatusCancelled.mType, mStatus := K.gStatusCancelled.mStatus,
        mMessage := "" } := by
    unfold cancelledResult
    rw [getStatusFromLLSD_wrapped, toShort_of_short _ hlo hhi]
  have hsucc : ((cancelledResult K).get HTTP_RESULTS).get HTTP_RESULTS_SUCCESS =
      LLSD.boolean K.gStatusCancelled.toBool := by
    rw [hentry, writeStatusCodes_success]
  refine ⟨?_, hsucc, ?_, ?_, ?_, ?_, ?_, ?_, ?_, ?_⟩
  · rw [cancel_pending_outcome K heap self req hp h hreq hh hy]
    simp [Effect.isPost]
  · rw [hsucc, hfailed]
  · rw [hentry, writeStatusCodes_shape]; rfl
  · rw [hentry, writeStatusCodes_shape]; rfl
  · rw [hstatus]
  · rw [hstatus]
  · rw [hstatus]
    simp [HttpStatus.eq]
  · rw [hstatus]
    simpa [HttpStatus.toBool] using hfailed
  · intro s hs
    rw [hstatus]
    unfold HttpStatus.isHttp at hs
    have hne : K.gStatusCancelled.mType ≠ s.mType := by
      intro heq
      rw [heq] at hnohttp
      exact hnohttp hs
    simp [HttpStatus.eq, hne]

theorem cancelled_result_carries_sentinel_witness :
    (pending0.cancelSuspendedOperation K0 heap0).effects.filter Effect.isPost =
      [Effect.post (HttpCoroRawHandler "reply").mReplyPump (cancelledResult K0)] ∧
    ((cancelledResult K0).get HTTP_RESULTS).get HTTP_RESULTS_SUCCESS =
      LLSD.boolean K0.gStatusCancelled.toBool ∧
    ((cancelledResult K0).get HTTP_RESULTS).get HTTP_RESULTS_SUCCESS = LLSD.boolean false ∧
    ((cancelledResult K0).get HTTP_RESULTS).get HTTP_RESULTS_TYPE =
      LLSD.integer K0.gStatusCancelled.mType ∧
    ((cancelledResult K0).get HTTP_RESULTS).get HTTP_RESULTS_STATUS =
      LLSD.integer K0.gStatusCancelled.mStatus ∧
    (HttpCoroutineAdapter.getStatusFromLLSD C0 (cancelledResult K0)).mType =
      K0.gStatusCancelled.mType ∧
    (HttpCoroutineAdapter.getStatusFromLLSD C0 (cancelledResult K0)).mStatus =
      K0.gStatusCancelled.mStatus ∧
    (HttpCoroutineAdapter.getStatusFromLLSD C0 (cancelledResult K0)).eq K0.gStatusCancelled
      = true ∧
    (HttpCoroutineAdapter.getStatusFromLLSD C0 (cancelledResult K0)).toBool = false ∧
    (∀ s : HttpStatus, s.isHttp →
      (HttpCoroutineAdapter.getStatusFromLLSD C0 (cancelledResult K0)).eq s = false) :=
  cancelled_result_carries_sentinel K0 C0 heap0 pending0 1 7 (HttpCoroRawHandler "reply")
    (by decide) (by rfl) (by decide)
    (by unfold HttpConsts.cancelledIsSentinel HttpStatus.wellTyped; decide)

theorem set_isMap (x : LLSD) (k : String) (v : LLSD) : (x.set k v).isMap = true := by
  cases x <;> rfl

theorem copyHeaders_isMap (hdrs : List (String × String)) :
    ∀ acc : LLSD, acc.isMap = true → (HttpCoroHandler.copyHeaders hdrs acc).isMap = true := by
  induction hdrs with
  | nil => intro acc hacc; exact hacc
  | cons hd rest ih =>
    intro acc _
    unfold HttpCoroHandler.copyHeaders
    rw [List.foldl_cons]
    apply ih
    split <;> exact set_isMap _ _ _

/-- The posts of `cancelSuspendedOperation` carry the Result `cancelledResult`. -/
theorem cancel_posts_cancelledResult (K : HttpConsts) (heap : Heap)
    (self : HttpCoroutineAdapter) (pump : String) (r : LLSD)
    (hmem : Effect.post pump r ∈ (self.cancelSuspendedOperation K heap).effects) :
    r = cancelledResult K := by
  by_cases hy : self.mYieldingHandle = LLCORE_HTTP_HANDLE_INVALID
  · rw [cancel_idle_outcome K heap self (Or.inl hy)] at hmem
    simp at hmem
  · cases hr : heap.lockRequest self.mWeakRequest with
    | none =>
      rw [cancel_idle_outcome K heap self (Or.inr (Or.inl hr))] at hmem
      simp at hmem
    | some req =>
      cases hh : heap.lockHandler self.mWeakHandler with
      | none =>
        rw [cancel_idle_outcome K heap self (Or.inr (Or.inr hh))] at hmem
        simp at hmem
      | some ph =>
        obtain ⟨hp, h⟩ := ph
        rw [cancel_pending_outcome K heap self req hp h hr hh hy] at hmem
        simp only [List.mem_cons, List.mem_singleton, List.not_mem_nil, or_false] at hmem
        rcases hmem with hmem | hmem
        · exact Effect.noConfusion hmem
        · injection hmem

/-- C15: in every Result this layer builds, the `success` field is the boolean
value of the status the Result was built from, so it is true exactly when that
status is a success. For `onCompleted` this is the status handed to
`buildStatusEntry`: the status of the response, unless `handleSuccess` replaced
it (it cannot for a failed response, and the raw and JSON variants never do).
For `cancelSuspendedOperation` it is `gStatusCancelled`, and for
`buildImmediateErrorResult`, which builds a Result when `mRequest` is not null,
it is the status the transport reports. -/
theorem success_field_reflects_status (K : HttpConsts) (heap : Heap) (h : HttpCoroHandler)
    (resp : HttpResponse) (self : HttpCoroutineAdapter) (getStatus : Nat → HttpStatus)
    (url : String) :
    (∀ status result,
      ((HttpCoroHandler.buildStatusEntry (some resp) status result).get HTTP_RESULTS).get
        HTTP_RESULTS_SUCCESS = LLSD.boolean status.toBool) ∧
    ((HttpCoroHandler.composeResult h resp).get HTTP_RESULTS).get HTTP_RESULTS_SUCCESS =
      LLSD.boolean (HttpCoroHandler.composeBody h resp).2.toBool ∧
    (resp.mStatus.toBool = false → (HttpCoroHandler.composeBody h resp).2 = resp.mStatus) ∧
    (∀ reply, (HttpCoroHandler.composeBody (HttpCoroRawHandler reply) resp).2 = resp.mStatus ∧
      (HttpCoroHandler.composeBody (HttpCoroJSONHandler reply) resp).2 = resp.mStatus) ∧
    (∀ pump r, Effect.post pump r ∈ (self.cancelSuspendedOperation K heap).effects →
      (r.get HTTP_RESULTS).get HTTP_RESULTS_SUCCESS = LLSD.boolean K.gStatusCancelled.toBool) ∧
    (∀ request, self.mRequest = some request →
      ((self.buildImmediateErrorResult getStatus url).get HTTP_RESULTS).get
        HTTP_RESULTS_SUCCESS = LLSD.boolean (getStatus request).toBool) := by
  refine ⟨?_, ?_, composeBody_failed_status h resp, ?_, ?_, ?_⟩
  · intro status result
    rw [buildStatusEntry_some, get_set_same, statusEntry_success]
  · rw [composeResult_entry_field h resp _ (by decide), statusEntry_success]
  · intro reply
    by_cases hs : resp.mStatus.toBool = true
    · constructor
      · unfold HttpCoroHandler.composeBody
        simp only [hs, Bool.not_true, Bool.false_eq_true, if_false, HttpCoroRawHandler]
        split
        · rfl
        · split <;> rfl
      · unfold HttpCoroHandler.composeBody
        simp [hs, HttpCoroJSONHandler]
    · have hf : resp.mStatus.toBool = false := by simpa using hs
      exact ⟨composeBody_failed_status _ resp hf, composeBody_failed_status _ resp hf⟩
  · intro pump r hmem
    rw [cancel_posts_cancelledResult K heap self pump r hmem]
    unfold cancelledResult
    rw [show ("http_result" : String) = HTTP_RESULTS from rfl, get_set_same,
      writeStatusCodes_success]
  · intro request hreq
    unfold HttpCoroutineAdapter.buildImmediateErrorResult
    simp only [hreq]
    rw [show ("http_result" : String) = HTTP_RESULTS from rfl, get_set_same,
      writeStatusCodes_success]

theorem success_field_reflects_status_witness :
    ((HttpCoroHandler.composeResult (HttpCoroRawHandler "reply") (resp404 bodyA1)).get
      HTTP_RESULTS).get HTTP_RESULTS_SUCCESS =
      LLSD.boolean
        (HttpCoroHandler.composeBody (HttpCoroRawHandler "reply") (resp404 bodyA1)).2.toBool ∧
    (HttpCoroHandler.composeBody (HttpCoroRawHandler "reply") (resp404 bodyA1)).2 =
      (resp404 bodyA1).mStatus ∧
    ((cancelledResult K0).get HTTP_RESULTS).get HTTP_RESULTS_SUCCESS =
      LLSD.boolean K0.gStatusCancelled.toBool ∧
    ((idle0.buildImmediateErrorResult (fun _ => (resp404 bodyA1).mStatus) "/x").get
      HTTP_RESULTS).get HTTP_RESULTS_SUCCESS = LLSD.boolean ((resp404 bodyA1).mStatus).toBool :=
  ⟨(success_field_reflects_status K0 heap0 (HttpCoroRawHandler "reply") (resp404 bodyA1)
      pending0 (fun _ => (resp404 bodyA1).mStatus) "/x").2.1,
   (success_field_reflects_status K0 heap0 (HttpCoroRawHandler "reply") (resp404 bodyA1)
      pending0 (fun _ => (resp404 bodyA1).mStatus) "/x").2.2.1 (by decide),
   (success_field_reflects_status K0 heap0 (HttpCoroRawHandler "reply") (resp404 bodyA1)
      pending0 (fun _ => (resp404 bodyA1).mStatus) "/x").2.2.2.2.1 "reply" (cancelledResult K0)
      (by simp [cancel_pending_outcome K0 heap0 pending0 1 7 (HttpCoroRawHandler "reply")
        (by decide) (by rfl) (by decide), HttpCoroRawHandler]),
   (success_field_reflects_status K0 heap0 (HttpCoroRawHandler "reply") (resp404 bodyA1)
      idle0 (fun _ => (resp404 bodyA1).mStatus) "/x").2.2.2.2.2 1 (by rfl)⟩

/-- C16: for every non-null response, status and prior result, after
`buildStatusEntry` the result has a field `http_result` that is a map with
exactly the keys `success`, `type`, `status`, `message`, `url` and `headers`:
`type` and `status` are the integer type and code of the status, `message` is
its message, `url` is the request URL of the response and `headers` is a map.
`writeStatusCodes` alone writes exactly the five keys `success`, `type`,
`status`, `message`, `url`: on an empty map these are the keys afterwards, and
on any prior value every other key keeps its binding. -/
theorem buildStatusEntry_writes_the_six_fields (resp : HttpResponse) (status : HttpStatus)
    (result : LLSD) (url : String) :
    (HttpCoroHandler.buildStatusEntry (some resp) status result).has HTTP_RESULTS = true ∧
    ((HttpCoroHandler.buildStatusEntry (some resp) status result).get HTTP_RESULTS).isMap
      = true ∧
    ((HttpCoroHandler.buildStatusEntry (some resp) status result).get HTTP_RESULTS).keys =
      [HTTP_RESULTS_SUCCESS, HTTP_RESULTS_TYPE, HTTP_RESULTS_STATUS, HTTP_RESULTS_MESSAGE,
        HTTP_RESULTS_URL, HTTP_RESULTS_HEADERS] ∧
    ((HttpCoroHandler.buildStatusEntry (some resp) status result).get HTTP_RESULTS).get
      HTTP_RESULTS_SUCCESS = LLSD.boolean status.toBool ∧
    ((HttpCoroHandler.buildStatusEntry (some resp) status result).get HTTP_RESULTS).get
      HTTP_RESULTS_TYPE = LLSD.integer status.mType ∧
    ((HttpCoroHandler.buildStatusEntry (some resp) status result).get HTTP_RESULTS).get
      HTTP_RESULTS_STATUS = LLSD.integer status.mStatus ∧
    ((HttpCoroHandler.buildStatusEntry (some resp) status result).get HTTP_RESULTS).get
      HTTP_RESULTS_MESSAGE = LLSD.string status.mMessage ∧
    ((HttpCoroHandler.buildStatusEntry (some resp) status result).get HTTP_RESULTS).get
      HTTP_RESULTS_URL = LLSD.string resp.mRequestURL ∧
    (((HttpCoroHandler.buildStatusEntry (some resp) status result).get HTTP_RESULTS).get
      HTTP_RESULTS_HEADERS).isMap = true ∧
    (∀ k, k ≠ HTTP_RESULTS →
      (HttpCoroHandler.buildStatusEntry (some resp) status result).get k = result.get k) ∧
    (HttpCoroHandler.writeStatusCodes status url LLSD.emptyMap).keys =
      [HTTP_RESULTS_SUCCESS, HTTP_RESULTS_TYPE, HTTP_RESULTS_STATUS, HTTP_RESULTS_MESSAGE,
        HTTP_RESULTS_URL] ∧
    (∀ (x : LLSD) (k : String),
      k ∉ [HTTP_RESULTS_SUCCESS, HTTP_RESULTS_TYPE, HTTP_RESULTS_STATUS, HTTP_RESULTS_MESSAGE,
        HTTP_RESULTS_URL] →
      (HttpCoroHandler.writeStatusCodes status url x).get k = x.get k ∧
      (HttpCoroHandler.writeStatusCodes status url x).has k = x.has k) := by
  have hentry : (HttpCoroHandler.buildStatusEntry (some resp) status result).get HTTP_RESULTS =
      statusEntry resp status := by
    rw [buildStatusEntry_some, get_set_same]
  rw [hentry]
  have hshape := statusEntry_shape resp status
  refine ⟨?_, ?_, ?_, statusEntry_success resp status, ?_, ?_, ?_, ?_, ?_, ?_, ?_, ?_⟩
  · rw [buildStatusEntry_some, has_set_same]
  · rw [hshape]; rfl
  · rw [hshape]; rfl
  · rw [hshape]; rfl
  · rw [hshape]; rfl
  · rw [hshape]; rfl
  · rw [hshape]; rfl
  · rw [hshape]
    have hget : (LLSD.map [(HTTP_RESULTS_SUCCESS, LLSD.boolean status.toBool),
        (HTTP_RESULTS_TYPE, LLSD.integer status.mType),
        (HTTP_RESULTS_STATUS, LLSD.integer status.mStatus),
        (HTTP_RESULTS_MESSAGE, LLSD.string status.mMessage),
        (HTTP_RESULTS_URL, LLSD.string resp.mRequestURL),
        (HTTP_RESULTS_HEADERS,
          match resp.mHeaders with
          | some hdrs => HttpCoroHandler.copyHeaders hdrs LLSD.emptyMap
          | none => LLSD.emptyMap)]).get HTTP_RESULTS_HEADERS =
        (match resp.mHeaders with
          | some hdrs => HttpCoroHandler.copyHeaders hdrs LLSD.emptyMap
          | none => LLSD.emptyMap) := rfl
    rw [hget]
    cases resp.mHeaders with
    | none => rfl
    | some hdrs => exact copyHeaders_isMap hdrs _ rfl
  · intro k hk
    rw [buildStatusEntry_some, get_set_other _ _ _ _ hk]
  · rw [writeStatusCodes_shape]; rfl
  · intro x k hk
    simp only [List.mem_cons, List.mem_singleton, List.not_mem_nil, or_false, not_or] at hk
    obtain ⟨h1, h2, h3, h4, h5⟩ := hk
    unfold HttpCoroHandler.writeStatusCodes
    simp only []
    exact ⟨by rw [get_set_other _ _ _ _ h5, get_set_other _ _ _ _ h4, get_set_other _ _ _ _ h3,
        get_set_other _ _ _ _ h2, get_set_other _ _ _ _ h1],
      by rw [has_set_other _ _ _ _ h5, has_set_other _ _ _ _ h4, has_set_other _ _ _ _ h3,
        has_set_other _ _ _ _ h2, has_set_other _ _ _ _ h1]⟩

theorem copyHeaders_cons (n v : String) (rest : List (String × String)) (acc : LLSD) :
    HttpCoroHandler.copyHeaders ((n, v) :: rest) acc =
      HttpCoroHandler.copyHeaders rest (acc.set n (headerEntry v)) := by
  unfold HttpCoroHandler.copyHeaders headerEntry
  rw [List.foldl_cons]
  by_cases hv : v = ""
  · simp [hv]
  · simp [hv]

/-- What the header loop leaves under a name: the entry of the last header
carrying the name, and the prior binding when no header carries it. -/
theorem copyHeaders_lookup (name : String) (hdrs : List (String × String)) :
    ∀ acc : LLSD,
      (HttpCoroHandler.copyHeaders hdrs acc).get name =
        (match headerValue name hdrs with
         | some v => headerEntry v
         | none => acc.get name) ∧
      (HttpCoroHandler.copyHeaders hdrs acc).has name =
        (match headerValue name hdrs with
         | some _ => true
         | none => acc.has name) := by
  induction hdrs with
  | nil => intro acc; exact ⟨rfl, rfl⟩
  | cons hd rest ih =>
    intro acc
    obtain ⟨n, v⟩ := hd
    rw [copyHeaders_cons]
    have ih2 := ih (acc.set n (headerEntry v))
    cases hrest : headerValue name rest with
    | some w =>
      simp only [headerValue, hrest]
      rw [hrest] at ih2
      exact ih2
    | none =>
      rw [hrest] at ih2
      by_cases hn : n = name
      · subst hn
        simp only [headerValue, hrest, if_true]
        rw [ih2.1, ih2.2]
        exact ⟨get_set_same _ _ _, has_set_same _ _ _⟩
      · simp only [headerValue, hrest, hn, if_false]
        rw [ih2.1, ih2.2]
        have hne : name ≠ n := fun h => hn h.symm
        exact ⟨get_set_other _ _ _ _ hne, has_set_other _ _ _ _ hne⟩

theorem headerValue_mem (name : String) (hdrs : List (String × String)) :
    (∀ v, headerValue name hdrs = some v → (name, v) ∈ hdrs) ∧
    (headerValue name hdrs = none ↔ name ∉ hdrs.map Prod.fst) := by
  induction hdrs with
  | nil => simp [headerValue]
  | cons hd rest ih =>
    obtain ⟨n, w⟩ := hd
    cases hrest : headerValue name rest with
    | some u =>
      have hin := ih.1 u hrest
      have hname : name ∈ rest.map Prod.fst := List.mem_map.mpr ⟨(name, u), hin, rfl⟩
      simp only [headerValue, hrest]
      constructor
      · intro v hv
        injection hv with hv
        rw [← hv]
        exact List.mem_cons_of_mem _ hin
      · simp [hname]
    | none =>
      have hnot := ih.2.mp hrest
      by_cases hn : n = name
      · simp only [headerValue, hrest, hn, if_true]
        constructor
        · intro v hv
          injection hv with hv
          rw [← hv]
          exact List.mem_cons_self _ _
        · simp
      · simp only [headerValue, hrest, hn, if_false]
        constructor
        · intro v hv
          exact absurd hv (by simp)
        · have hne : ¬ name = n := fun h => hn h.symm
          simp only [List.map_cons, List.mem_cons, hne, false_or, true_iff]
          exact hnot

theorem headerValue_of_distinct (hdrs : List (String × String))
    (hdistinct : (hdrs.map Prod.fst).Nodup) :
    ∀ n v, (n, v) ∈ hdrs → headerValue n hdrs = some v := by
  induction hdrs with
  | nil => intro n v hmem; simp at hmem
  | cons hd rest ih =>
    intro n v hmem
    obtain ⟨n1, v1⟩ := hd
    rw [List.map_cons, List.nodup_cons] at hdistinct
    rcases List.mem_cons.mp hmem with heq | hin
    · injection heq with h1 h2
      subst h1
      subst h2
      have hnone : headerValue n rest = none := by
        rw [(headerValue_mem n rest).2]
        exact hdistinct.1
      simp [headerValue, hnone]
    · simp [headerValue, ih hdistinct.2 n v hin]

/-- C17: the `headers` map that `buildStatusEntry` builds. For every header
name present in the response the map binds the name to the header's value as a
string when that value is not empty and to the boolean true when it is empty
(the header meant is the last one of that name when several carry it, so with
distinct names every header of the response is recorded this way); a name that
no header of the response carries is absent from the map; and when the response
has no header object the map is empty. -/
theorem headers_map_records_each_header (resp : HttpResponse) (status : HttpStatus)
    (result : LLSD) :
    (∀ hdrs, resp.mHeaders = some hdrs → ∀ name,
      (name ∈ hdrs.map Prod.fst →
        ∃ v, (name, v) ∈ hdrs ∧ headerValue name hdrs = some v ∧
          (headersOf (HttpCoroHandler.buildStatusEntry (some resp) status result)).has name
            = true ∧
          (headersOf (HttpCoroHandler.buildStatusEntry (some resp) status result)).get name =
            (if v ≠ "" then LLSD.string v else LLSD.boolean true)) ∧
      (name ∉ hdrs.map Prod.fst →
        (headersOf (HttpCoroHandler.buildStatusEntry (some resp) status result)).has name
          = false)) ∧
    (∀ hdrs, resp.mHeaders = some hdrs → (hdrs.map Prod.fst).Nodup →
      ∀ n v, (n, v) ∈ hdrs →
        (headersOf (HttpCoroHandler.buildStatusEntry (some resp) status result)).get n =
          (if v ≠ "" then LLSD.string v else LLSD.boolean true)) ∧
    (resp.mHeaders = none →
      headersOf (HttpCoroHandler.buildStatusEntry (some resp) status result) = LLSD.emptyMap) := by
  have hheaders : headersOf (HttpCoroHandler.buildStatusEntry (some resp) status result) =
      (match resp.mHeaders with
       | some hdrs => HttpCoroHandler.copyHeaders hdrs LLSD.emptyMap
       | none => LLSD.emptyMap) := by
    unfold headersOf
    rw [buildStatusEntry_some, get_set_same, statusEntry_shape]
    rfl
  rw [hheaders]
  refine ⟨?_, ?_, ?_⟩
  · intro hdrs hsome name
    rw [hsome]
    have hlook := copyHeaders_lookup name hdrs LLSD.emptyMap
    constructor
    · intro hpresent
      cases hv : headerValue name hdrs with
      | none => exact absurd hpresent ((headerValue_mem name hdrs).2.mp hv)
      | some v =>
        rw [hv] at hlook
        exact ⟨v, (headerValue_mem name hdrs).1 v hv, rfl, hlook.2, hlook.1⟩
    · intro habsent
      have hv := (headerValue_mem name hdrs).2.mpr habsent
      rw [hv] at hlook
      rw [hlook.2]
      rfl
  · intro hdrs hsome hdistinct n v hmem
    rw [hsome]
    have hlook := copyHeaders_lookup n hdrs LLSD.emptyMap
    rw [headerValue_of_distinct hdrs hdistinct n v hmem] at hlook
    exact hlook.1
  · intro hnone
    rw [hnone]

theorem headers_map_records_each_header_witness :
    (headersOf (HttpCoroHandler.buildStatusEntry (some (respOk none (some headers0)))
      (respOk none (some headers0)).mStatus LLSD.emptyMap)).get "X-Flag" = LLSD.boolean true ∧
    (headersOf (HttpCoroHandler.buildStatusEntry (some (respOk none (some headers0)))
      (respOk none (some headers0)).mStatus LLSD.emptyMap)).get "Set-Cookie" =
        LLSD.string "b=2" ∧
    (headersOf (HttpCoroHandler.buildStatusEntry (some (respOk none (some headers0)))
      (respOk none (some headers0)).mStatus LLSD.emptyMap)).has "Accept" = false ∧
    headersOf (HttpCoroHandler.buildStatusEntry (some (respOk none none))
      (respOk none none).mStatus LLSD.emptyMap) = LLSD.emptyMap ∧
    (headersOf (HttpCoroHandler.buildStatusEntry
      (some (respOk none (some [("Content-Type", "text/plain"), ("X-Flag", "")])))
      (respOk none none).mStatus LLSD.emptyMap)).get "Content-Type" =
        (if "text/plain" ≠ "" then LLSD.string "text/plain" else LLSD.boolean true) :=
  ⟨by rfl, by rfl,
   ((headers_map_records_each_header (respOk none (some headers0))
      (respOk none (some headers0)).mStatus LLSD.emptyMap).1 headers0 (by rfl) "Accept").2
      (by decide),
   (headers_map_records_each_header (respOk none none) (respOk none none).mStatus
      LLSD.emptyMap).2.2 (by rfl),
   (headers_map_records_each_header
      (respOk none (some [("Content-Type", "text/plain"), ("X-Flag", "")]))
      (respOk none none).mStatus LLSD.emptyMap).2.1
      [("Content-Type", "text/plain"), ("X-Flag", "")] (by rfl) (by decide)
      "Content-Type" "text/plain" (by simp)⟩

/-- The Result composed by the raw variant for a successful response. -/
theorem composeResult_raw_success (reply : String) (resp : HttpResponse)
    (hok : resp.mStatus.toBool = true) :
    HttpCoroHandler.composeResult (HttpCoroRawHandler reply) resp =
      (match resp.mBody with
       | none => LLSD.emptyMap
       | some data =>
         if data.length = 0 then LLSD.emptyMap
         else LLSD.emptyMap.set HTTP_RESULTS_RAW (LLSD.binary data)).set HTTP_RESULTS
        (statusEntry resp resp.mStatus) := by
  have hb : HttpCoroHandler.composeBody (HttpCoroRawHandler reply) resp =
      ((match resp.mBody with
        | none => LLSD.emptyMap
        | some data =>
          if data.length = 0 then LLSD.emptyMap
          else LLSD.emptyMap.set HTTP_RESULTS_RAW (LLSD.binary data)), resp.mStatus) := by
    unfold HttpCoroHandler.composeBody
    simp only [hok, Bool.not_true, Bool.false_eq_true, if_false, HttpCoroRawHandler]
    cases resp.mBody with
    | none => rfl
    | some data =>
      by_cases hlen : data.length = 0
      · simp [hlen]
      · simp [hlen]
  unfold HttpCoroHandler.composeResult
  simp only [hb, buildStatusEntry_some]
  rw [attachErrorBody_ok _ _ _ _ hok]

/-- C18: for every successful response handled by the raw variant the body is
delivered as an exact copy without parsing: when the body has n > 0 bytes the
`raw` field of the posted Result is the binary value holding those n bytes in
order, and the `raw` field is absent exactly when the transport produced zero
bytes (a null or an empty body). -/
theorem raw_success_delivers_exact_bytes (K : HttpConsts) (reply : String)
    (handle : HttpHandle) (resp : HttpResponse)
    (hok : resp.mStatus.toBool = true) (hg : isGenuine K (some resp) = true) :
    HttpCoroHandler.onCompleted K (HttpCoroRawHandler reply) handle (some resp) =
      [Effect.post reply (HttpCoroHandler.composeResult (HttpCoroRawHandler reply) resp)] ∧
    (∀ data, resp.mBody = some data → 0 < data.length →
      (HttpCoroHandler.composeResult (HttpCoroRawHandler reply) resp).has HTTP_RESULTS_RAW
        = true ∧
      (HttpCoroHandler.composeResult (HttpCoroRawHandler reply) resp).get HTTP_RESULTS_RAW =
        LLSD.binary data) ∧
    ((HttpCoroHandler.composeResult (HttpCoroRawHandler reply) resp).has HTTP_RESULTS_RAW
        = false ↔
      (resp.mBody = none ∨ resp.mBody = some [])) ∧
    (∀ k, (HttpCoroHandler.composeResult (HttpCoroRawHandler reply) resp).has k = true →
      k = HTTP_RESULTS_RAW ∨ k = HTTP_RESULTS) := by
  have hres := composeResult_raw_success reply resp hok
  have hne : HTTP_RESULTS_RAW ≠ HTTP_RESULTS := by decide
  refine ⟨onCompleted_genuine K _ handle resp hg, ?_, ?_, ?_⟩
  · intro data hbody hlen
    rw [hres, hbody]
    have hl : ¬ data.length = 0 := by omega
    simp only [hl, if_false]
    rw [has_set_other _ _ _ _ hne, get_set_other _ _ _ _ hne]
    exact ⟨has_set_same _ _ _, get_set_same _ _ _⟩
  · rw [hres, has_set_other _ _ _ _ hne]
    cases hbody : resp.mBody with
    | none => simp [LLSD.emptyMap, LLSD.has, LLSD.hasField]
    | some data =>
      by_cases hlen : data.length = 0
      · have hnil : data = [] := List.length_eq_zero.mp hlen
        simp [hlen, hnil, LLSD.emptyMap, LLSD.has, LLSD.hasField]
      · have hnil : ¬ data = [] := fun h => hlen (by rw [h]; rfl)
        simp only [hlen, if_false]
        rw [has_set_same]
        simp [hnil]
  · intro k hk
    rw [hres] at hk
    by_cases h2 : k = HTTP_RESULTS
    · exact Or.inr h2
    · rw [has_set_other _ _ _ _ h2] at hk
      by_cases h1 : k = HTTP_RESULTS_RAW
      · exact Or.inl h1
      · cases hbody : resp.mBody with
        | none =>
          rw [hbody] at hk
          simp [LLSD.emptyMap, LLSD.has, LLSD.hasField] at hk
        | some data =>
          rw [hbody] at hk
          by_cases hlen : data.length = 0
          · simp [hlen, LLSD.emptyMap, LLSD.has, LLSD.hasField] at hk
          · simp only [hlen, if_false] at hk
            rw [has_set_other _ _ _ _ h1] at hk
            simp [LLSD.emptyMap, LLSD.has, LLSD.hasField] at hk

theorem raw_success_delivers_exact_bytes_witness :
    HttpCoroHandler.onCompleted K0 (HttpCoroRawHandler "reply") 5
        (some (respOk (some bodyOops) none)) =
      [Effect.post "reply"
        (HttpCoroHandler.composeResult (HttpCoroRawHandler "reply")
          (respOk (some bodyOops) none))] ∧
    ((HttpCoroHandler.composeResult (HttpCoroRawHandler "reply")
        (respOk (some bodyOops) none)).has HTTP_RESULTS_RAW = true ∧
      (HttpCoroHandler.composeResult (HttpCoroRawHandler "reply")
        (respOk (some bodyOops) none)).get HTTP_RESULTS_RAW = LLSD.binary bodyOops) ∧
    ((HttpCoroHandler.composeResult (HttpCoroRawHandler "reply")
        (respOk (some []) none)).has HTTP_RESULTS_RAW = false ↔
      ((respOk (some []) none).mBody = none ∨ (respOk (some []) none).mBody = some [])) :=
  ⟨(raw_success_delivers_exact_bytes K0 "reply" 5 (respOk (some bodyOops) none)
      (by decide) (by decide)).1,
   (raw_success_delivers_exact_bytes K0 "reply" 5 (respOk (some bodyOops) none)
      (by decide) (by decide)).2.1 bodyOops (by rfl) (by decide),
   (raw_success_delivers_exact_bytes K0 "reply" 5 (respOk (some []) none)
      (by decide) (by decide)).2.2.1⟩

/-- C19: a completion whose response status equals the transport's
handle-not-found status (type LLCORE, code HE_HANDLE_NOT_FOUND, whatever the
message) is a silent no-op of `onCompleted`: nothing is posted to the reply pump
and no other effect takes place. The same holds for a null response. -/
theorem handle_not_found_and_null_are_dropped (K : HttpConsts) (h : HttpCoroHandler)
    (handle : HttpHandle) :
    HttpCoroHandler.onCompleted K h handle none = [] ∧
    (∀ resp : HttpResponse,
      resp.mStatus.mType = K.LLCORE → resp.mStatus.mStatus = K.HE_HANDLE_NOT_FOUND →
      resp.mStatus.eq (HttpCoroHandler.bad_handle K) = true ∧
      HttpCoroHandler.onCompleted K h handle (some resp) = [] ∧
      postCount (HttpCoroHandler.onCompleted K h handle (some resp)) = 0) := by
  refine ⟨rfl, ?_⟩
  intro resp ht hs
  have heq : resp.mStatus.eq (HttpCoroHandler.bad_handle K) = true := by
    simp [HttpStatus.eq, HttpCoroHandler.bad_handle, ht, hs]
  have hdrop : HttpCoroHandler.onCompleted K h handle (some resp) = [] := by
    simp [HttpCoroHandler.onCompleted, heq]
  refine ⟨heq, hdrop, ?_⟩
  rw [hdrop]
  rfl

theorem handle_not_found_and_null_are_dropped_witness :
    HttpCoroHandler.onCompleted K0 (HttpCoroRawHandler "reply") 5 none = [] ∧
    (respBadHandle.mStatus.eq (HttpCoroHandler.bad_handle K0) = true ∧
      HttpCoroHandler.onCompleted K0 (HttpCoroRawHandler "reply") 5 (some respBadHandle) = [] ∧
      postCount (HttpCoroHandler.onCompleted K0 (HttpCoroRawHandler "reply") 5
        (some respBadHandle)) = 0) :=
  ⟨(handle_not_found_and_null_are_dropped K0 (HttpCoroRawHandler "reply") 5).1,
   (handle_not_found_and_null_are_dropped K0 (HttpCoroRawHandler "reply") 5).2 respBadHandle
     (by rfl) (by rfl)⟩

/-- C20: every invocation of `onCompleted` with a response that is not null and
whose status is not handle-not-found, whatever the status, the body and the
handler variant, posts exactly one Result to the reply pump of the handler and
does nothing else, and that Result contains an `http_result` entry, which is a
map. -/
theorem onCompleted_posts_exactly_one_result (K : HttpConsts) (h : HttpCoroHandler)
    (handle : HttpHandle) (resp : HttpResponse)
    (hnot : resp.mStatus.eq (HttpCoroHandler.bad_handle K) = false) :
    HttpCoroHandler.onCompleted K h handle (some resp) =
      [Effect.post h.mReplyPump (HttpCoroHandler.composeResult h resp)] ∧
    postCount (HttpCoroHandler.onCompleted K h handle (some resp)) = 1 ∧
    postCountOn h.mReplyPump (HttpCoroHandler.onCompleted K h handle (some resp)) = 1 ∧
    (HttpCoroHandler.composeResult h resp).has HTTP_RESULTS = true ∧
    ((HttpCoroHandler.composeResult h resp).get HTTP_RESULTS).isMap = true := by
  have hg : isGenuine K (some resp) = true := by simp [isGenuine, hnot]
  have hpost := onCompleted_genuine K h handle resp hg
  refine ⟨hpost, ?_, ?_, (composeResult_entry h resp).1, ?_⟩
  · rw [hpost]; rfl
  · rw [hpost]; simp [postCountOn]
  · rw [(composeResult_entry h resp).2]
    split
    · rw [statusEntry_shape]; rfl
    · exact set_isMap _ _ _

theorem onCompleted_posts_exactly_one_result_witness :
    HttpCoroHandler.onCompleted K0 (HttpCoroJSONHandler "reply") 5
        (some (resp500 (some bodyOops))) =
      [Effect.post (HttpCoroJSONHandler "reply").mReplyPump
        (HttpCoroHandler.composeResult (HttpCoroJSONHandler "reply")
          (resp500 (some bodyOops)))] ∧
    postCount (HttpCoroHandler.onCompleted K0 (HttpCoroJSONHandler "reply") 5
      (some (resp500 (some bodyOops)))) = 1 ∧
    postCountOn (HttpCoroJSONHandler "reply").mReplyPump
      (HttpCoroHandler.onCompleted K0 (HttpCoroJSONHandler "reply") 5
        (some (resp500 (some bodyOops)))) = 1 ∧
    (HttpCoroHandler.composeResult (HttpCoroJSONHandler "reply")
      (resp500 (some bodyOops))).has HTTP_RESULTS = true ∧
    ((HttpCoroHandler.composeResult (HttpCoroJSONHandler "reply")
      (resp500 (some bodyOops))).get HTTP_RESULTS).isMap = true :=
  onCompleted_posts_exactly_one_result K0 (HttpCoroJSONHandler "reply") 5
    (resp500 (some bodyOops)) (by decide)

theorem buildStatusEntry_writes_the_six_fields_witness :
    ((HttpCoroHandler.buildStatusEntry (some (resp404 bodyA1)) (resp404 bodyA1).mStatus
      spoofBody).get HTTP_RESULTS).keys =
      [HTTP_RESULTS_SUCCESS, HTTP_RESULTS_TYPE, HTTP_RESULTS_STATUS, HTTP_RESULTS_MESSAGE,
        HTTP_RESULTS_URL, HTTP_RESULTS_HEADERS] ∧
    (HttpCoroHandler.buildStatusEntry (some (resp404 bodyA1)) (resp404 bodyA1).mStatus
      spoofBody).get "error" = spoofBody.get "error" ∧
    ((HttpCoroHandler.writeStatusCodes (resp404 bodyA1).mStatus "/missing" spoofBody).get "error"
        = spoofBody.get "error" ∧
      (HttpCoroHandler.writeStatusCodes (resp404 bodyA1).mStatus "/missing" spoofBody).has "error"
        = spoofBody.has "error") :=
  ⟨(buildStatusEntry_writes_the_six_fields (resp404 bodyA1) (resp404 bodyA1).mStatus spoofBody
      "/missing").2.2.1,
   (buildStatusEntry_writes_the_six_fields (resp404 bodyA1) (resp404 bodyA1).mStatus spoofBody
      "/missing").2.2.2.2.2.2.2.2.2.1 "error" (by decide),
   (buildStatusEntry_writes_the_six_fields (resp404 bodyA1) (resp404 bodyA1).mStatus spoofBody
      "/missing").2.2.2.2.2.2.2.2.2.2.2 spoofBody "error" (by decide)⟩

end Completion

section Headers

theorem headerValue_append_one (name n v : String) (hdrs : List (String × String)) :
    headerValue name (hdrs ++ [(n, v)]) =
      if n = name then some v else headerValue name hdrs := by
  induction hdrs with
  | nil => simp [headerValue]
  | cons hd rest ih =>
    obtain ⟨n1, v1⟩ := hd
    show headerValue name ((n1, v1) :: (rest ++ [(n, v)])) = _
    simp only [headerValue]
    rw [ih]
    by_cases hn : n = name
    · simp [hn]
    · simp [hn]

/-- The header set that `checkDefaultHeaders` leaves behind, spelled out. -/
theorem checkDefaultHeaders_eq (K : HttpConsts) (headers : HttpHeadersPtr) :
    HttpCoroutineAdapter.checkDefaultHeaders K headers =
      some ((headers.getD [] ++
        (if (headerValue K.HTTP_OUT_HEADER_ACCEPT (headers.getD [])).isNone then
          [(K.HTTP_OUT_HEADER_ACCEPT, K.HTTP_CONTENT_LLSD_XML)] else [])) ++
        (if (headerValue K.HTTP_OUT_HEADER_CONTENT_TYPE (headers.getD [] ++
            (if (headerValue K.HTTP_OUT_HEADER_ACCEPT (headers.getD [])).isNone then
              [(K.HTTP_OUT_HEADER_ACCEPT, K.HTTP_CONTENT_LLSD_XML)] else []))).isNone then
          [(K.HTTP_OUT_HEADER_CONTENT_TYPE, K.HTTP_CONTENT_LLSD_XML)] else [])) := by
  unfold HttpCoroutineAdapter.checkDefaultHeaders
  have hd : (match headers with
      | none => []
      | some h => h) = headers.getD [] := by
    cases headers <;> rfl
  simp only [hd]
  by_cases h1 : (headerValue K.HTTP_OUT_HEADER_ACCEPT (headers.getD [])).isNone = true
  · simp only [h1, if_true]
    split <;> simp
  · simp only [h1]
    simp only [Bool.false_eq_true, if_false, List.append_nil]
    split <;> simp

/-- C21: for every header set passed to `checkDefaultHeaders`, a null one
counting as the empty set: afterwards the set is not null and contains both an
`Accept` and a `Content-Type` header; the headers of the caller all stay, in
their order, and every name the caller had set keeps its value; whatever is
added comes after them and is one of the two default headers, each carrying the
LLSD XML content type; a default is added exactly when the caller had not set
that name, so a header the caller had set is not duplicated. -/
theorem checkDefaultHeaders_adds_missing_defaults (K : HttpConsts) (headers : HttpHeadersPtr)
    (hnames : K.HTTP_OUT_HEADER_ACCEPT ≠ K.HTTP_OUT_HEADER_CONTENT_TYPE) :
    ∃ out, HttpCoroutineAdapter.checkDefaultHeaders K headers = some out ∧
      out = (headers.getD [] ++
        (if (headerValue K.HTTP_OUT_HEADER_ACCEPT (headers.getD [])).isNone then
          [(K.HTTP_OUT_HEADER_ACCEPT, K.HTTP_CONTENT_LLSD_XML)] else [])) ++
        (if (headerValue K.HTTP_OUT_HEADER_CONTENT_TYPE (headers.getD [])).isNone then
          [(K.HTTP_OUT_HEADER_CONTENT_TYPE, K.HTTP_CONTENT_LLSD_XML)] else []) ∧
      (headerValue K.HTTP_OUT_HEADER_ACCEPT out).isSome = true ∧
      (headerValue K.HTTP_OUT_HEADER_CONTENT_TYPE out).isSome = true ∧
      (∀ name v, headerValue name (headers.getD []) = some v → headerValue name out = some v) ∧
      (headerValue K.HTTP_OUT_HEADER_ACCEPT (headers.getD []) = none →
        headerValue K.HTTP_OUT_HEADER_ACCEPT out = some K.HTTP_CONTENT_LLSD_XML) ∧
      (headerValue K.HTTP_OUT_HEADER_CONTENT_TYPE (headers.getD []) = none →
        headerValue K.HTTP_OUT_HEADER_CONTENT_TYPE out = some K.HTTP_CONTENT_LLSD_XML) ∧
      (∀ name, name ≠ K.HTTP_OUT_HEADER_ACCEPT → name ≠ K.HTTP_OUT_HEADER_CONTENT_TYPE →
        headerValue name out = headerValue name (headers.getD []) ∧
        out.filter (fun hd => hd.1 = name) = (headers.getD []).filter (fun hd => hd.1 = name)) ∧
      (∀ name v, headerValue name (headers.getD []) = some v →
        out.filter (fun hd => hd.1 = name) =
          (headers.getD []).filter (fun hd => hd.1 = name)) := by
  have hne2 : ¬ K.HTTP_OUT_HEADER_CONTENT_TYPE = K.HTTP_OUT_HEADER_ACCEPT :=
    fun h => hnames h.symm
  have hct : headerValue K.HTTP_OUT_HEADER_CONTENT_TYPE (headers.getD [] ++
      (if (headerValue K.HTTP_OUT_HEADER_ACCEPT (headers.getD [])).isNone then
        [(K.HTTP_OUT_HEADER_ACCEPT, K.HTTP_CONTENT_LLSD_XML)] else [])) =
      headerValue K.HTTP_OUT_HEADER_CONTENT_TYPE (headers.getD []) := by
    split
    · rw [headerValue_append_one, if_neg hnames]
    · rw [List.append_nil]
  refine ⟨_, checkDefaultHeaders_eq K headers, ?_, ?_⟩
  · rw [hct]
  rw [hct]
  generalize headers.getD [] = hdrs
  cases ha : headerValue K.HTTP_OUT_HEADER_ACCEPT hdrs with
  | none =>
    cases hc : headerValue K.HTTP_OUT_HEADER_CONTENT_TYPE hdrs with
    | none =>
      simp only [Option.isNone_none, if_true]
      refine ⟨?_, ?_, ?_, ?_, ?_, ?_, ?_⟩
      · rw [headerValue_append_one, if_neg hne2, headerValue_append_one, if_pos rfl]; rfl
      · rw [headerValue_append_one, if_pos rfl]; rfl
      · intro name v hv
        rw [headerValue_append_one, headerValue_append_one]
        have h1 : ¬ K.HTTP_OUT_HEADER_CONTENT_TYPE = name := by
          intro h; rw [← h, hc] at hv; exact Option.noConfusion hv
        have h2 : ¬ K.HTTP_OUT_HEADER_ACCEPT = name := by
          intro h; rw [← h, ha] at hv; exact Option.noConfusion hv
        rw [if_neg h1, if_neg h2, hv]
      · intro _
        rw [headerValue_append_one, if_neg hne2, headerValue_append_one, if_pos rfl]
      · intro _
        rw [headerValue_append_one, if_pos rfl]
      · intro name h1 h2
        have h1b : ¬ K.HTTP_OUT_HEADER_ACCEPT = name := fun h => h1 h.symm
        have h2b : ¬ K.HTTP_OUT_HEADER_CONTENT_TYPE = name := fun h => h2 h.symm
        constructor
        · rw [headerValue_append_one, headerValue_append_one, if_neg h2b, if_neg h1b]
        · simp [List.filter_append, h1b, h2b]
      · intro name v hv
        have h1 : ¬ K.HTTP_OUT_HEADER_CONTENT_TYPE = name := by
          intro h; rw [← h, hc] at hv; exact Option.noConfusion hv
        have h2 : ¬ K.HTTP_OUT_HEADER_ACCEPT = name := by
          intro h; rw [← h, ha] at hv; exact Option.noConfusion hv
        simp [List.filter_append, h1, h2]
    | some c =>
      simp only [Option.isNone_none, Option.isNone_some, if_true, Bool.false_eq_true, if_false,
        List.append_nil]
      refine ⟨?_, ?_, ?_, ?_, ?_, ?_, ?_⟩
      · rw [headerValue_append_one, if_pos rfl]; rfl
      · rw [headerValue_append_one, if_neg hnames, hc]; rfl
      · intro name v hv
        rw [headerValue_append_one]
        have h2 : ¬ K.HTTP_OUT_HEADER_ACCEPT = name := by
          intro h; rw [← h, ha] at hv; exact Option.noConfusion hv
        rw [if_neg h2, hv]
      · intro _
        rw [headerValue_append_one, if_pos rfl]
      · intro h
        exact Option.noConfusion h
      · intro name h1 _
        have h1b : ¬ K.HTTP_OUT_HEADER_ACCEPT = name := fun h => h1 h.symm
        constructor
        · rw [headerValue_append_one, if_neg h1b]
        · simp [List.filter_append, h1b]
      · intro name v hv
        have h2 : ¬ K.HTTP_OUT_HEADER_ACCEPT = name := by
          intro h; rw [← h, ha] at hv; exact Option.noConfusion hv
        simp [List.filter_append, h2]
  | some a =>
    cases hc : headerValue K.HTTP_OUT_HEADER_CONTENT_TYPE hdrs with
    | none =>
      simp only [Option.isNone_none, Option.isNone_some, if_true, Bool.false_eq_true, if_false,
        List.append_nil]
      refine ⟨?_, ?_, ?_, ?_, ?_, ?_, ?_⟩
      · rw [headerValue_append_one, if_neg hne2, ha]; rfl
      · rw [headerValue_append_one, if_pos rfl]; rfl
      · intro name v hv
        rw [headerValue_append_one]
        have h1 : ¬ K.HTTP_OUT_HEADER_CONTENT_TYPE = name := by
          intro h; rw [← h, hc] at hv; exact Option.noConfusion hv
        rw [if_neg h1, hv]
      · intro h
        exact Option.noConfusion h
      · intro _
        rw [headerValue_append_one, if_pos rfl]
      · intro name _ h2
        have h2b : ¬ K.HTTP_OUT_HEADER_CONTENT_TYPE = name := fun h => h2 h.symm
        constructor
        · rw [headerValue_append_one, if_neg h2b]
        · simp [List.filter_append, h2b]
      · intro name v hv
        have h1 : ¬ K.HTTP_OUT_HEADER_CONTENT_TYPE = name := by
          intro h; rw [← h, hc] at hv; exact Option.noConfusion hv
        simp [List.filter_append, h1]
    | some c =>
      simp [ha, hc]

theorem checkDefaultHeaders_adds_missing_defaults_witness :
    HttpCoroutineAdapter.checkDefaultHeaders K0 (some [("Accept", "text/plain"), ("X-A", "1")]) =
      some [("Accept", "text/plain"), ("X-A", "1"), ("Content-Type", "application/llsd+xml")] ∧
    HttpCoroutineAdapter.checkDefaultHeaders K0 none =
      some [("Accept", "application/llsd+xml"), ("Content-Type", "application/llsd+xml")] ∧
    (∃ out, HttpCoroutineAdapter.checkDefaultHeaders K0
        (some [("Accept", "text/plain"), ("X-A", "1")]) = some out ∧
      headerValue "Accept" out = some "text/plain") :=
  ⟨by rfl, by rfl,
   match checkDefaultHeaders_adds_missing_defaults K0
      (some [("Accept", "text/plain"), ("X-A", "1")]) (by decide) with
   | ⟨out, hout, _, _, _, hkeep, _⟩ => ⟨out, hout, hkeep "Accept" "text/plain" (by rfl)⟩⟩

/-- C22: `getStatusFromLLSD` inverts `writeStatusCodes` on type and code. For
every status s (with a type and a code that fit the machine types of
`HttpStatus`) and every URL u, with m the map written by `writeStatusCodes`
from s and u, both the wrapped Result with m under `http_result` and m itself
(the raw nested form) yield a status whose type is the type of s and whose code
is the code of s. -/
theorem getStatusFromLLSD_inverts_writeStatusCodes (C : LLSDConversions) (s : HttpStatus)
    (u : String) (htyped : s.wellTyped) :
    (HttpCoroutineAdapter.getStatusFromLLSD C
      (LLSD.emptyMap.set HTTP_RESULTS
        (HttpCoroHandler.writeStatusCodes s u LLSD.emptyMap))).mType = s.mType ∧
    (HttpCoroutineAdapter.getStatusFromLLSD C
      (LLSD.emptyMap.set HTTP_RESULTS
        (HttpCoroHandler.writeStatusCodes s u LLSD.emptyMap))).mStatus = s.mStatus ∧
    (HttpCoroutineAdapter.getStatusFromLLSD C
      (HttpCoroHandler.writeStatusCodes s u LLSD.emptyMap)).mType = s.mType ∧
    (HttpCoroutineAdapter.getStatusFromLLSD C
      (HttpCoroHandler.writeStatusCodes s u LLSD.emptyMap)).mStatus = s.mStatus ∧
    (HttpCoroutineAdapter.getStatusFromLLSD C
      (LLSD.emptyMap.set HTTP_RESULTS
        (HttpCoroHandler.writeStatusCodes s u LLSD.emptyMap))).eq s = true ∧
    (HttpCoroutineAdapter.getStatusFromLLSD C
      (HttpCoroHandler.writeStatusCodes s u LLSD.emptyMap)).eq s = true := by
  obtain ⟨_, _, hlo, hhi⟩ := htyped
  have hwrapped : HttpCoroutineAdapter.getStatusFromLLSD C
      (LLSD.emptyMap.set HTTP_RESULTS (HttpCoroHandler.writeStatusCodes s u LLSD.emptyMap)) =
      { mType := s.mType, mStatus := s.mStatus, mMessage := "" } := by
    rw [show HTTP_RESULTS = ("http_result" : String) from rfl, getStatusFromLLSD_wrapped,
      toShort_of_short _ hlo hhi]
  have hraw : HttpCoroutineAdapter.getStatusFromLLSD C
      (HttpCoroHandler.writeStatusCodes s u LLSD.emptyMap) =
      { mType := s.mType, mStatus := s.mStatus, mMessage := "" } := by
    rw [writeStatusCodes_shape]
    have : HttpCoroutineAdapter.getStatusFromLLSD C
        (LLSD.map [(HTTP_RESULTS_SUCCESS, LLSD.boolean s.toBool),
          (HTTP_RESULTS_TYPE, LLSD.integer s.mType),
          (HTTP_RESULTS_STATUS, LLSD.integer s.mStatus),
          (HTTP_RESULTS_MESSAGE, LLSD.string s.mMessage),
          (HTTP_RESULTS_URL, LLSD.string u)]) =
        { mType := s.mType, mStatus := toShort s.mStatus, mMessage := "" } := rfl
    rw [this, toShort_of_short _ hlo hhi]
  rw [hwrapped, hraw]
  refine ⟨rfl, rfl, rfl, rfl, ?_, ?_⟩ <;> simp [HttpStatus.eq]

theorem getStatusFromLLSD_inverts_writeStatusCodes_witness :
    (HttpCoroutineAdapter.getStatusFromLLSD C0
      (LLSD.emptyMap.set HTTP_RESULTS
        (HttpCoroHandler.writeStatusCodes (resp404 bodyA1).mStatus "/missing"
          LLSD.emptyMap))).mType = (resp404 bodyA1).mStatus.mType ∧
    (HttpCoroutineAdapter.getStatusFromLLSD C0
      (LLSD.emptyMap.set HTTP_RESULTS
        (HttpCoroHandler.writeStatusCodes (resp404 bodyA1).mStatus "/missing"
          LLSD.emptyMap))).mStatus = (resp404 bodyA1).mStatus.mStatus ∧
    (HttpCoroutineAdapter.getStatusFromLLSD C0
      (HttpCoroHandler.writeStatusCodes (resp404 bodyA1).mStatus "/missing"
        LLSD.emptyMap)).mType = (resp404 bodyA1).mStatus.mType ∧
    (HttpCoroutineAdapter.getStatusFromLLSD C0
      (HttpCoroHandler.writeStatusCodes (resp404 bodyA1).mStatus "/missing"
        LLSD.emptyMap)).mStatus = (resp404 bodyA1).mStatus.mStatus ∧
    (HttpCoroutineAdapter.getStatusFromLLSD C0
      (LLSD.emptyMap.set HTTP_RESULTS
        (HttpCoroHandler.writeStatusCodes (resp404 bodyA1).mStatus "/missing"
          LLSD.emptyMap))).eq (resp404 bodyA1).mStatus = true ∧
    (HttpCoroutineAdapter.getStatusFromLLSD C0
      (HttpCoroHandler.writeStatusCodes (resp404 bodyA1).mStatus "/missing"
        LLSD.emptyMap)).eq (resp404 bodyA1).mStatus = true :=
  getStatusFromLLSD_inverts_writeStatusCodes C0 (resp404 bodyA1).mStatus "/missing"
    (by unfold HttpStatus.wellTyped; decide)

end Headers

section Callbacks

/-- C23: the dispatch that `trivialGetCoro` and `trivialPostCoro` perform on the
Result r of their suspending call, for every r and every pair of callbacks. If
the status extracted from r is a success and a success callback was supplied,
the success callback is invoked exactly once, with r, and the failure callback
is not invoked; if the status is a failure and a failure callback was supplied,
the failure callback is invoked exactly once, with the `http_result` entry of
r, and the success callback is not invoked; a null callback is never invoked,
and at most one invocation takes place. -/
theorem trivial_coro_invokes_one_callback (C : LLSDConversions) (defaultRequest : Option Nat)
    (defaultHeaders : HttpHeadersPtr) (url : String) (policy_id : Nat) (postdata : LLSD)
    (success failure : Bool) (r : LLSD) :
    HttpCoroutineAdapter.trivialGetCoro C defaultRequest defaultHeaders url policy_id
        success failure =
      dispatchCompletion C
        ((HttpCoroutineAdapter.construct "genericGetCoro" defaultRequest policy_id
          0).getAndSuspend url (some { mWantHeaders := true }) defaultHeaders).ret
        success failure ∧
    HttpCoroutineAdapter.trivialPostCoro C defaultRequest defaultHeaders url policy_id postdata
        success failure =
      dispatchCompletion C
        ((HttpCoroutineAdapter.construct "genericPostCoro" defaultRequest policy_id
          0).postAndSuspend url postdata (some { mWantHeaders := true }) defaultHeaders).ret
        success failure ∧
    ((HttpCoroutineAdapter.getStatusFromLLSD C r).toBool = true → success = true →
      dispatchCompletion C r success failure = [CallbackCall.success r]) ∧
    ((HttpCoroutineAdapter.getStatusFromLLSD C r).toBool = false → failure = true →
      dispatchCompletion C r success failure = [CallbackCall.failure (r.get HTTP_RESULTS)]) ∧
    (success = false →
      ∀ c ∈ dispatchCompletion C r success failure, c.isSuccess = false) ∧
    (failure = false →
      ∀ c ∈ dispatchCompletion C r success failure, c.isFailure = false) ∧
    (dispatchCompletion C r success failure).length ≤ 1 ∧
    ((HttpCoroutineAdapter.getStatusFromLLSD C r).toBool = true →
      ∀ c ∈ dispatchCompletion C r success failure, c.isFailure = false) ∧
    ((HttpCoroutineAdapter.getStatusFromLLSD C r).toBool = false →
      ∀ c ∈ dispatchCompletion C r success failure, c.isSuccess = false) := by
  refine ⟨rfl, rfl, ?_, ?_, ?_, ?_, ?_, ?_, ?_⟩
  · intro hs hcb
    simp [dispatchCompletion, hs, hcb]
  · intro hs hcb
    simp [dispatchCompletion, hs, hcb]
  · intro hcb c hc
    cases hs : (HttpCoroutineAdapter.getStatusFromLLSD C r).toBool <;>
      cases failure <;> simp [dispatchCompletion, hs, hcb] at hc
    rw [hc]; rfl
  · intro hcb c hc
    cases hs : (HttpCoroutineAdapter.getStatusFromLLSD C r).toBool <;>
      cases success <;> simp [dispatchCompletion, hs, hcb] at hc
    rw [hc]; rfl
  · cases hs : (HttpCoroutineAdapter.getStatusFromLLSD C r).toBool <;>
      cases success <;> cases failure <;> simp [dispatchCompletion, hs]
  · intro hs c hc
    cases success <;> simp [dispatchCompletion, hs] at hc
    rw [hc]; rfl
  · intro hs c hc
    cases failure <;> simp [dispatchCompletion, hs] at hc
    rw [hc]; rfl

theorem trivial_coro_invokes_one_callback_witness :
    dispatchCompletion C0 docA1 true true = [CallbackCall.success docA1] ∧
    dispatchCompletion C0 (cancelledResult K0) true true =
      [CallbackCall.failure ((cancelledResult K0).get HTTP_RESULTS)] ∧
    (∀ c ∈ dispatchCompletion C0 docA1 false true, c.isSuccess = false) ∧
    (∀ c ∈ dispatchCompletion C0 (cancelledResult K0) true false, c.isFailure = false) ∧
    HttpCoroutineAdapter.trivialGetCoro C0 (some 1) none "/x" 0 true true =
      [CallbackCall.success LLSD.undefined] :=
  ⟨(trivial_coro_invokes_one_callback C0 (some 1) none "/x" 0 docA1 true true docA1).2.2.1
      (by rfl) (by rfl),
   (trivial_coro_invokes_one_callback C0 (some 1) none "/x" 0 docA1 true true
      (cancelledResult K0)).2.2.2.1 (by rfl) (by rfl),
   (trivial_coro_invokes_one_callback C0 (some 1) none "/x" 0 docA1 false true
      docA1).2.2.2.2.1 (by rfl),
   (trivial_coro_invokes_one_callback C0 (some 1) none "/x" 0 docA1 true false
      (cancelledResult K0)).2.2.2.2.2.1 (by rfl),
   by rfl⟩

end Callbacks

section Lifecycle

open World

theorem mem_registry_insert (s : instances_list_t) (p q : Nat) :
    q ∈ s.insert p ↔ q = p ∨ q ∈ s := by
  unfold instances_list_t.insert
  by_cases hp : p ∈ s
  · simp only [hp, if_true]
    constructor
    · intro h; exact Or.inr h
    · intro h
      rcases h with h | h
      · rw [h]; exact hp
      · exact h
  · simp only [hp, if_false, List.mem_append, List.mem_singleton]
    constructor
    · intro h; exact h.symm
    · intro h; exact h.symm

theorem mem_registry_erase (s : instances_list_t) (p q : Nat) :
    q ∈ s.erase p ↔ q ≠ p ∧ q ∈ s := by
  unfold instances_list_t.erase
  simp only [List.mem_filter, decide_eq_true_eq]
  exact And.comm

theorem cancel_keeps_registry (K : HttpConsts) (L : Listeners)
    (hkeep : ∀ pump event w1, (L pump event w1).sInstances = w1.sInstances)
    (adapter : Nat) (w : World) :
    (w.cancelSuspendedOperation K L adapter).sInstances = w.sInstances := by
  unfold World.cancelSuspendedOperation
  dsimp only
  split
  · rw [hkeep]
  · rfl

theorem cleanupLoop_keeps_registry (K : HttpConsts) (L : Listeners)
    (hkeep : ∀ pump event w1, (L pump event w1).sInstances = w1.sInstances)
    (l : List Nat) : ∀ w : World, (cleanupLoop K L l w).1.sInstances = w.sInstances := by
  induction l with
  | nil => intro w; rfl
  | cons a rest ih =>
    intro w
    unfold World.cleanupLoop
    split
    · show (cleanupLoop K L rest (w.cancelSuspendedOperation K L a)).1.sInstances = _
      rw [ih, cancel_keeps_registry K L hkeep]
    · exact ih w

theorem verb_keeps_registry (p : Nat) (call : VerbCall) (w : World) :
    (w.verb p call).sInstances = w.sInstances := rfl

theorem cleanup_keeps_registry (K : HttpConsts) (L : Listeners)
    (hkeep : ∀ pump event w1, (L pump event w1).sInstances = w1.sInstances) (w : World) :
    (w.cleanup K L).1.sInstances = w.sInstances := by
  rw [cleanup_eq_loop]
  exact cleanupLoop_keeps_registry K L hkeep _ w

/-- Membership in the registry follows construction and destruction, one
operation at a time. -/
theorem step_registry (K : HttpConsts) (L : Listeners)
    (hkeep : ∀ pump event w1, (L pump event w1).sInstances = w1.sInstances)
    (ev : AdapterEvent) (w : World) (q : Nat) (b : Bool)
    (hinv : q ∈ w.sInstances ↔ b = true) :
    q ∈ (w.step K L ev).sInstances ↔ liveAfter q [ev] b = true := by
  cases ev with
  | construct p name request polid pri =>
    simp only [World.step, World.construct, liveAfter, mem_registry_insert]
    by_cases hp : p = q
    · simp [hp]
    · have hq : ¬ q = p := fun h => hp h.symm
      simp [hp, hq, hinv]
  | destroy p =>
    simp only [World.step, World.destroy, liveAfter]
    rw [cancel_keeps_registry K L hkeep]
    simp only [mem_registry_erase]
    by_cases hp : p = q
    · simp [hp]
    · have hq : q ≠ p := fun h => hp h.symm
      simp [hp, hq, hinv]
  | verb p call =>
    simp only [World.step, liveAfter, verb_keeps_registry]
    exact hinv
  | cancel p =>
    simp only [World.step, liveAfter]
    rw [cancel_keeps_registry K L hkeep]
    exact hinv
  | cleanup =>
    simp only [World.step, liveAfter]
    rw [cleanup_keeps_registry K L hkeep]
    exact hinv

theorem liveAfter_cons (q : Nat) (ev : AdapterEvent) (rest : List AdapterEvent) (b : Bool) :
    liveAfter q (ev :: rest) b = liveAfter q rest (liveAfter q [ev] b) := by
  cases ev <;> rfl

theorem run_registry (K : HttpConsts) (L : Listeners)
    (hkeep : ∀ pump event w1, (L pump event w1).sInstances = w1.sInstances)
    (events : List AdapterEvent) :
    ∀ (w : World) (q : Nat) (b : Bool), (q ∈ w.sInstances ↔ b = true) →
      (q ∈ (World.run K L events w).sInstances ↔ liveAfter q events b = true) := by
  induction events with
  | nil => intro w q b hinv; exact hinv
  | cons ev rest ih =>
    intro w q b hinv
    rw [liveAfter_cons]
    exact ih (w.step K L ev) q _ (step_registry K L hkeep ev w q b hinv)

/-- C24: the adapter registry is exactly the set of live adapters. Starting from
the empty registry, after every finite sequence of constructions, destructions,
verb operations, calls of `cancelSuspendedOperation` and calls of `cleanup`, an
adapter is a member of `sInstances` if and only if it has been constructed and
not yet destroyed; a construction inserts its adapter, a destruction removes
it, and verb operations, `cancelSuspendedOperation` and `cleanup` leave the
registry as it is. The listeners of the reply pumps are taken not to touch the
registry themselves: what a resumed task constructs or destroys is an operation
of the sequence. -/
theorem registry_is_the_set_of_live_adapters (K : HttpConsts) (L : Listeners)
    (hkeep : ∀ pump event w1, (L pump event w1).sInstances = w1.sInstances)
    (w0 : World) (hempty : w0.sInstances = []) (events : List AdapterEvent) :
    (∀ q, q ∈ (World.run K L events w0).sInstances ↔ liveAfter q events false = true) ∧
    (World.run K L events w0).sInstances.Nodup ∧
    (∀ (w : World) p name request polid pri q,
      q ∈ (w.step K L (AdapterEvent.construct p name request polid pri)).sInstances ↔
        q = p ∨ q ∈ w.sInstances) ∧
    (∀ (w : World) p q,
      q ∈ (w.step K L (AdapterEvent.destroy p)).sInstances ↔ q ≠ p ∧ q ∈ w.sInstances) ∧
    (∀ (w : World) p call,
      (w.step K L (AdapterEvent.verb p call)).sInstances = w.sInstances) ∧
    (∀ (w : World) p, (w.step K L (AdapterEvent.cancel p)).sInstances = w.sInstances) ∧
    (∀ (w : World), (w.step K L AdapterEvent.cleanup).sInstances = w.sInstances) := by
  refine ⟨?_, ?_, ?_, ?_, ?_, ?_, ?_⟩
  · intro q
    exact run_registry K L hkeep events w0 q false (by simp [hempty])
  · have hnd : ∀ (evs : List AdapterEvent) (w : World), w.sInstances.Nodup →
        (World.run K L evs w).sInstances.Nodup := by
      intro evs
      induction evs with
      | nil => intro w hw; exact hw
      | cons ev rest ih =>
        intro w hw
        apply ih
        cases ev with
        | construct p name request polid pri =>
          simp only [World.step, World.construct, instances_list_t.insert]
          by_cases hp : p ∈ w.sInstances
          · simp only [hp, if_true]; exact hw
          · simp only [hp, if_false]
            exact List.nodup_append.mpr ⟨hw, List.nodup_singleton p,
              fun a ha hb => hp (by rw [List.mem_singleton] at hb; rw [← hb]; exact ha)⟩
        | destroy p =>
          simp only [World.step, World.destroy]
          rw [cancel_keeps_registry K L hkeep]
          exact List.Nodup.filter _ hw
        | verb p call => exact hw
        | cancel p =>
          simp only [World.step]
          rw [cancel_keeps_registry K L hkeep]
          exact hw
        | cleanup =>
          simp only [World.step]
          rw [cleanup_keeps_registry K L hkeep]
          exact hw
    exact hnd events w0 (by rw [hempty]; exact List.nodup_nil)
  · intro w p name request polid pri q
    simp only [World.step, World.construct, mem_registry_insert]
  · intro w p q
    simp only [World.step, World.destroy]
    rw [cancel_keeps_registry K L hkeep]
    exact mem_registry_erase _ _ _
  · intro w p call
    rfl
  · intro w p
    exact cancel_keeps_registry K L hkeep p w
  · intro w
    exact cleanup_keeps_registry K L hkeep w

theorem registry_is_the_set_of_live_adapters_witness :
    (World.run K0 quietListeners events0 emptyWorld).sInstances = [2] ∧
    (∀ q, q ∈ (World.run K0 quietListeners events0 emptyWorld).sInstances ↔
      liveAfter q events0 false = true) ∧
    liveAfter 1 events0 false = false ∧ liveAfter 2 events0 false = true :=
  ⟨by rfl,
   (registry_is_the_set_of_live_adapters K0 quietListeners (fun _ _ _ => rfl) emptyWorld
      (by rfl) events0).1,
   by rfl, by rfl⟩

end Lifecycle

section Independence

open HttpCoroutineAdapter

/-- C25, the code at the failing input: the adapter `pending0` has recorded,
through `saveState`, a call to the URL `/slow`. The Cancelled Result that
`cancelSuspendedOperation` posts for it carries the empty string in
`http_result.url`, not `/slow`: `cleanState` has emptied `mURL` before the
result is written from it. -/
theorem cancelled_result_reports_empty_url :
    pending0 = (HttpCoroutineAdapter.construct "adapter" (some 1) 0 0).saveState "/slow" 5 7 ∧
    pending0.mURL = "/slow" ∧
    (pending0.cancelSuspendedOperation K0 heap0).effects.filter Effect.isPost =
      [Effect.post "reply" (cancelledResult K0)] ∧
    ((cancelledResult K0).get HTTP_RESULTS).get HTTP_RESULTS_URL = LLSD.string "" ∧
    ¬ ((cancelledResult K0).get HTTP_RESULTS).get HTTP_RESULTS_URL = LLSD.string "/slow" := by
  refine ⟨rfl, rfl, rfl, rfl, ?_⟩
  intro h
  have h2 : ((cancelledResult K0).get HTTP_RESULTS).get HTTP_RESULTS_URL = LLSD.string "" := rfl
  rw [h2] at h
  injection h with h3
  exact absurd h3 (by decide)

theorem statusEntry_congr (resp1 resp2 : HttpResponse) (status : HttpStatus)
    (hurl : resp1.mRequestURL = resp2.mRequestURL) (hhdr : resp1.mHeaders = resp2.mHeaders) :
    statusEntry resp1 status = statusEntry resp2 status := by
  unfold statusEntry
  rw [hurl, hhdr]

theorem composeBody_status_kept (h : HttpCoroHandler) (resp : HttpResponse)
    (hkeep : (h.handleSuccess (some resp) resp.mStatus).2 = resp.mStatus) :
    (HttpCoroHandler.composeBody h resp).2 = resp.mStatus := by
  by_cases hs : resp.mStatus.toBool = true
  · unfold HttpCoroHandler.composeBody
    simp only [hs, Bool.not_true, Bool.false_eq_true, if_false]
    exact hkeep
  · exact composeBody_failed_status h resp (by simpa using hs)

theorem statusEntryKeys_ne_error_body (k : String) (hk : k ∈ statusEntryKeys) :
    k ≠ "error_body" := by
  intro h
  rw [h] at hk
  revert hk
  decide

theorem source_variants_keep_status (reply : String) (response : Option HttpResponse)
    (status : HttpStatus) :
    ((HttpCoroRawHandler reply).handleSuccess response status).2 = status ∧
    ((HttpCoroJSONHandler reply).handleSuccess response status).2 = status := by
  constructor
  · simp only [HttpCoroRawHandler]
    split
    · rfl
    · split <;> rfl
  · rfl

/-- C26, counterexample: two responses with the status 200 that agree on the
status, the request URL and the headers and differ only in the body, completed
under a handler variant whose `handleSuccess` replaces the status it was handed
by reference when the body is `oops`. Both completions are processed and
posted. The status entry of the first has `success` true, `type` 200, `status`
0 and the message `OK`; that of the second has `success` false, `type` 499,
`status` 1 and another message: the fields of `http_result` followed the body. -/
theorem success_status_entry_follows_body :
    (respOk (some bodyA1) none).mStatus = (respOk (some bodyOops) none).mStatus ∧
    (respOk (some bodyA1) none).mRequestURL = (respOk (some bodyOops) none).mRequestURL ∧
    (respOk (some bodyA1) none).mHeaders = (respOk (some bodyOops) none).mHeaders ∧
    HttpCoroHandler.onCompleted K0 (deserializingHandler "reply") 5
        (some (respOk (some bodyA1) none)) =
      [Effect.post "reply"
        (HttpCoroHandler.composeResult (deserializingHandler "reply")
          (respOk (some bodyA1) none))] ∧
    HttpCoroHandler.onCompleted K0 (deserializingHandler "reply") 5
        (some (respOk (some bodyOops) none)) =
      [Effect.post "reply"
        (HttpCoroHandler.composeResult (deserializingHandler "reply")
          (respOk (some bodyOops) none))] ∧
    ((HttpCoroHandler.composeResult (deserializingHandler "reply")
        (respOk (some bodyA1) none)).get HTTP_RESULTS).get HTTP_RESULTS_SUCCESS =
      LLSD.boolean true ∧
    ((HttpCoroHandler.composeResult (deserializingHandler "reply")
        (respOk (some bodyOops) none)).get HTTP_RESULTS).get HTTP_RESULTS_SUCCESS =
      LLSD.boolean false ∧
    ((HttpCoroHandler.composeResult (deserializingHandler "reply")
        (respOk (some bodyA1) none)).get HTTP_RESULTS).get HTTP_RESULTS_TYPE =
      LLSD.integer 200 ∧
    ((HttpCoroHandler.composeResult (deserializingHandler "reply")
        (respOk (some bodyOops) none)).get HTTP_RESULTS).get HTTP_RESULTS_TYPE =
      LLSD.integer 499 ∧
    ((HttpCoroHandler.composeResult (deserializingHandler "reply")
        (respOk (some bodyA1) none)).get HTTP_RESULTS).get HTTP_RESULTS_STATUS =
      LLSD.integer 0 ∧
    ((HttpCoroHandler.composeResult (deserializingHandler "reply")
        (respOk (some bodyOops) none)).get HTTP_RESULTS).get HTTP_RESULTS_STATUS =
      LLSD.integer 1 ∧
    ((HttpCoroHandler.composeResult (deserializingHandler "reply")
        (respOk (some bodyA1) none)).get HTTP_RESULTS).get HTTP_RESULTS_MESSAGE =
      LLSD.string "OK" ∧
    ((HttpCoroHandler.composeResult (deserializingHandler "reply")
        (respOk (some bodyOops) none)).get HTTP_RESULTS).get HTTP_RESULTS_MESSAGE =
      LLSD.string "Failed to deserialize LLSD." ∧
    ¬ ((HttpCoroHandler.composeResult (deserializingHandler "reply")
        (respOk (some bodyA1) none)).get HTTP_RESULTS).get HTTP_RESULTS_SUCCESS =
      ((HttpCoroHandler.composeResult (deserializingHandler "reply")
        (respOk (some bodyOops) none)).get HTTP_RESULTS).get HTTP_RESULTS_SUCCESS := by
  have h1 : ((HttpCoroHandler.composeResult (deserializingHandler "reply")
      (respOk (some bodyA1) none)).get HTTP_RESULTS).get HTTP_RESULTS_SUCCESS =
      LLSD.boolean true := rfl
  have h2 : ((HttpCoroHandler.composeResult (deserializingHandler "reply")
      (respOk (some bodyOops) none)).get HTTP_RESULTS).get HTTP_RESULTS_SUCCESS =
      LLSD.boolean false := rfl
  refine ⟨rfl, rfl, rfl, rfl, rfl, h1, h2, rfl, rfl, rfl, rfl, rfl, rfl, ?_⟩
  rw [h1, h2]
  intro h
  injection h with h3
  exact absurd h3 (by decide)

/-- C26: where a response body cannot spoof the status entry. For every
completion that `onCompleted` processes and every handler variant, the fields
`success`, `type`, `status`, `message`, `url` and `headers` of the
`http_result` of the posted Result are those of the status entry written from
the request URL, the response headers and the status in force after the first
half of `onCompleted`: the transport status when that is a failure, and the
status that the variant's `handleSuccess` handed back when it is a success.
So they are written from the transport status, the URL and the headers alone
for every handler variant when the status is a failure (whatever its
`parseBody` makes of the body, a map with an `http_result` key of its own
included), and for every status under a variant whose `handleSuccess` hands
the status back as it got it, as the raw and the JSON variant do. For two such
responses that agree on status, URL and headers and differ in the body, the
six fields are identical. -/
theorem body_cannot_spoof_status_entry (K : HttpConsts) (h : HttpCoroHandler)
    (handle : HttpHandle) (resp resp2 : HttpResponse)
    (hst : resp.mStatus = resp2.mStatus) (hurl : resp.mRequestURL = resp2.mRequestURL)
    (hhdr : resp.mHeaders = resp2.mHeaders) :
    (isGenuine K (some resp) = true →
      HttpCoroHandler.onCompleted K h handle (some resp) =
        [Effect.post h.mReplyPump (HttpCoroHandler.composeResult h resp)]) ∧
    (resp.mStatus.toBool = false → ∀ k ∈ statusEntryKeys,
      ((HttpCoroHandler.composeResult h resp).get HTTP_RESULTS).get k =
        (statusEntry resp resp.mStatus).get k) ∧
    ((h.handleSuccess (some resp) resp.mStatus).2 = resp.mStatus → ∀ k ∈ statusEntryKeys,
      ((HttpCoroHandler.composeResult h resp).get HTTP_RESULTS).get k =
        (statusEntry resp resp.mStatus).get k) ∧
    (∀ reply, ∀ k ∈ statusEntryKeys,
      ((HttpCoroHandler.composeResult (HttpCoroRawHandler reply) resp).get HTTP_RESULTS).get k =
        (statusEntry resp resp.mStatus).get k ∧
      ((HttpCoroHandler.composeResult (HttpCoroJSONHandler reply) resp).get HTTP_RESULTS).get k =
        (statusEntry resp resp.mStatus).get k) ∧
    statusEntry resp resp.mStatus = statusEntry resp2 resp2.mStatus ∧
    (resp.mStatus.toBool = false → ∀ k ∈ statusEntryKeys,
      ((HttpCoroHandler.composeResult h resp).get HTTP_RESULTS).get k =
        ((HttpCoroHandler.composeResult h resp2).get HTTP_RESULTS).get k) ∧
    ((h.handleSuccess (some resp) resp.mStatus).2 = resp.mStatus →
      (h.handleSuccess (some resp2) resp2.mStatus).2 = resp2.mStatus → ∀ k ∈ statusEntryKeys,
      ((HttpCoroHandler.composeResult h resp).get HTTP_RESULTS).get k =
        ((HttpCoroHandler.composeResult h resp2).get HTTP_RESULTS).get k) ∧
    (∀ k ∈ statusEntryKeys,
      ((HttpCoroHandler.composeResult h resp).get HTTP_RESULTS).get k =
        (statusEntry resp (HttpCoroHandler.composeBody h resp).2).get k) ∧
    (resp.mStatus.toBool = false → (HttpCoroHandler.composeBody h resp).2 = resp.mStatus) ∧
    (resp.mStatus.toBool = true →
      (HttpCoroHandler.composeBody h resp).2 =
        (h.handleSuccess (some resp) resp.mStatus).2) := by
  have hfield : ∀ (h1 : HttpCoroHandler) (r : HttpResponse),
      (h1.handleSuccess (some r) r.mStatus).2 = r.mStatus → ∀ k ∈ statusEntryKeys,
      ((HttpCoroHandler.composeResult h1 r).get HTTP_RESULTS).get k =
        (statusEntry r r.mStatus).get k := by
    intro h1 r hk1 k hk
    rw [composeResult_entry_field h1 r k (statusEntryKeys_ne_error_body k hk),
      composeBody_status_kept h1 r hk1]
  have hfailed : ∀ (r : HttpResponse), r.mStatus.toBool = false → ∀ k ∈ statusEntryKeys,
      ((HttpCoroHandler.composeResult h r).get HTTP_RESULTS).get k =
        (statusEntry r r.mStatus).get k := by
    intro r hf k hk
    rw [composeResult_entry_field h r k (statusEntryKeys_ne_error_body k hk),
      composeBody_failed_status h r hf]
  have hentry : statusEntry resp resp.mStatus = statusEntry resp2 resp2.mStatus := by
    rw [← hst]
    exact statusEntry_congr resp resp2 _ hurl hhdr
  refine ⟨onCompleted_genuine K h handle resp, hfailed resp, hfield h resp, ?_, hentry, ?_, ?_,
    ?_, composeBody_failed_status h resp, ?_⟩
  · intro reply k hk
    exact ⟨hfield _ resp (source_variants_keep_status reply _ _).1 k hk,
      hfield _ resp (source_variants_keep_status reply _ _).2 k hk⟩
  · intro hf k hk
    rw [hfailed resp hf k hk, hfailed resp2 (by rw [← hst]; exact hf) k hk, hentry]
  · intro hk1 hk2 k hk
    rw [hfield h resp hk1 k hk, hfield h resp2 hk2 k hk, hentry]
  · intro k hk
    exact composeResult_entry_field h resp k (statusEntryKeys_ne_error_body k hk)
  · intro hs
    unfold HttpCoroHandler.composeBody
    simp only [hs, Bool.not_true, Bool.false_eq_true, if_false]

theorem body_cannot_spoof_status_entry_witness :
    ((HttpCoroHandler.composeResult (parsingHandler "reply" spoofBody false)
        (resp404 bodyA1)).get HTTP_RESULTS).get HTTP_RESULTS_SUCCESS =
      ((HttpCoroHandler.composeResult (parsingHandler "reply" spoofBody false)
        (resp404 bodyOops)).get HTTP_RESULTS).get HTTP_RESULTS_SUCCESS ∧
    ((HttpCoroHandler.composeResult (parsingHandler "reply" spoofBody false)
        (resp404 bodyA1)).get HTTP_RESULTS).get HTTP_RESULTS_STATUS =
      (statusEntry (resp404 bodyA1) (resp404 bodyA1).mStatus).get HTTP_RESULTS_STATUS ∧
    ((HttpCoroHandler.composeResult (HttpCoroJSONHandler "reply") resp200).get
        HTTP_RESULTS).get HTTP_RESULTS_URL =
      (statusEntry resp200 resp200.mStatus).get HTTP_RESULTS_URL :=
  ⟨(body_cannot_spoof_status_entry K0 (parsingHandler "reply" spoofBody false) 5
      (resp404 bodyA1) (resp404 bodyOops) (by rfl) (by rfl) (by rfl)).2.2.2.2.2.1 (by rfl)
      HTTP_RESULTS_SUCCESS (by decide),
   (body_cannot_spoof_status_entry K0 (parsingHandler "reply" spoofBody false) 5
      (resp404 bodyA1) (resp404 bodyOops) (by rfl) (by rfl) (by rfl)).2.1 (by rfl)
      HTTP_RESULTS_STATUS (by decide),
   (body_cannot_spoof_status_entry K0 (HttpCoroJSONHandler "reply") 5
      resp200 resp200 (by rfl) (by rfl) (by rfl)).2.2.1 (by rfl)
      HTTP_RESULTS_URL (by decide)⟩

/-- C27: under the raw handler variant, for every failed status (4xx, 5xx or
transport failure) the Result posted by `onCompleted` does not depend on the
body of the response. For two responses with the same status, URL and headers
the calls have the same effect and compose the same Result; its only top-level
field is `http_result`, and `http_result.error_body` is the undefined value. -/
theorem raw_failure_result_ignores_body (K : HttpConsts) (reply : String) (handle : HttpHandle)
    (resp resp2 : HttpResponse)
    (hfail : resp.mStatus.toBool = false)
    (hst : resp.mStatus = resp2.mStatus) (hurl : resp.mRequestURL = resp2.mRequestURL)
    (hhdr : resp.mHeaders = resp2.mHeaders) :
    HttpCoroHandler.onCompleted K (HttpCoroRawHandler reply) handle (some resp) =
      HttpCoroHandler.onCompleted K (HttpCoroRawHandler reply) handle (some resp2) ∧
    HttpCoroHandler.composeResult (HttpCoroRawHandler reply) resp =
      HttpCoroHandler.composeResult (HttpCoroRawHandler reply) resp2 ∧
    (isGenuine K (some resp) = true →
      HttpCoroHandler.onCompleted K (HttpCoroRawHandler reply) handle (some resp) =
        [Effect.post reply (HttpCoroHandler.composeResult (HttpCoroRawHandler reply) resp)]) ∧
    (HttpCoroHandler.composeResult (HttpCoroRawHandler reply) resp).keys = [HTTP_RESULTS] ∧
    ((HttpCoroHandler.composeResult (HttpCoroRawHandler reply) resp).get HTTP_RESULTS).get
      "error_body" = LLSD.undefined := by
  have hshape : ∀ r : HttpResponse, r.mStatus.toBool = false →
      HttpCoroHandler.composeResult (HttpCoroRawHandler reply) r =
        LLSD.map [(HTTP_RESULTS,
          (statusEntry r r.mStatus).set "error_body" LLSD.undefined)] := by
    intro r hf
    rw [composeResult_failed_empty _ r hf
      (composeBody_client_error_undefined _ r hf (by rfl))]
    rfl
  have hfail2 : resp2.mStatus.toBool = false := by rw [← hst]; exact hfail
  have heq : HttpCoroHandler.composeResult (HttpCoroRawHandler reply) resp =
      HttpCoroHandler.composeResult (HttpCoroRawHandler reply) resp2 := by
    rw [hshape resp hfail, hshape resp2 hfail2, ← hst, statusEntry_congr resp resp2 _ hurl hhdr]
  refine ⟨?_, heq, onCompleted_genuine K _ handle resp, ?_, ?_⟩
  · unfold HttpCoroHandler.onCompleted
    simp only [← hst, heq]
  · rw [hshape resp hfail]; rfl
  · rw [hshape resp hfail]
    have : (LLSD.map [(HTTP_RESULTS,
        (statusEntry resp resp.mStatus).set "error_body" LLSD.undefined)]).get HTTP_RESULTS =
        (statusEntry resp resp.mStatus).set "error_body" LLSD.undefined := by
      simp [LLSD.get, LLSD.lookupField]
    rw [this, get_set_same]

theorem raw_failure_result_ignores_body_witness :
    HttpCoroHandler.onCompleted K0 (HttpCoroRawHandler "reply") 5 (some (resp500 (some bodyOops)))
      = HttpCoroHandler.onCompleted K0 (HttpCoroRawHandler "reply") 5 (some (resp500 none)) ∧
    HttpCoroHandler.composeResult (HttpCoroRawHandler "reply") (resp500 (some bodyOops)) =
      HttpCoroHandler.composeResult (HttpCoroRawHandler "reply") (resp500 none) ∧
    (HttpCoroHandler.composeResult (HttpCoroRawHandler "reply")
      (resp500 (some bodyOops))).keys = [HTTP_RESULTS] ∧
    ((HttpCoroHandler.composeResult (HttpCoroRawHandler "reply")
      (resp500 (some bodyOops))).get HTTP_RESULTS).get "error_body" = LLSD.undefined :=
  ⟨(raw_failure_result_ignores_body K0 "reply" 5 (resp500 (some bodyOops)) (resp500 none)
      (by decide) (by rfl) (by rfl) (by rfl)).1,
   (raw_failure_result_ignores_body K0 "reply" 5 (resp500 (some bodyOops)) (resp500 none)
      (by decide) (by rfl) (by rfl) (by rfl)).2.1,
   (raw_failure_result_ignores_body K0 "reply" 5 (resp500 (some bodyOops)) (resp500 none)
      (by decide) (by rfl) (by rfl) (by rfl)).2.2.2.1,
   (raw_failure_result_ignores_body K0 "reply" 5 (resp500 (some bodyOops)) (resp500 none)
      (by decide) (by rfl) (by rfl) (by rfl)).2.2.2.2⟩

/-- The two outcomes of `cancelSuspendedOperation`: nothing happens, or the
pending call is cancelled and the adapter is cleaned. -/
theorem cancel_outcome_cases (K : HttpConsts) (heap : Heap) (self : HttpCoroutineAdapter) :
    self.cancelSuspendedOperation K heap = { self := self, ret := (), effects := [] } ∨
    (∃ (req hp : Nat) (h : HttpCoroHandler),
      self.cancelSuspendedOperation K heap =
        { self := self.cleanState, ret := (),
          effects := [Effect.requestCancel req self.mYieldingHandle hp,
                      Effect.post h.mReplyPump (cancelledResult K)] }) := by
  by_cases hy : self.mYieldingHandle = LLCORE_HTTP_HANDLE_INVALID
  · exact Or.inl (cancel_idle_outcome K heap self (Or.inl hy))
  · cases hr : heap.lockRequest self.mWeakRequest with
    | none => exact Or.inl (cancel_idle_outcome K heap self (Or.inr (Or.inl hr)))
    | some req =>
      cases hh : heap.lockHandler self.mWeakHandler with
      | none => exact Or.inl (cancel_idle_outcome K heap self (Or.inr (Or.inr hh)))
      | some ph =>
        obtain ⟨hp, h⟩ := ph
        exact Or.inr ⟨req, hp, h, cancel_pending_outcome K heap self req hp h hr hh hy⟩

/-- C28: `cancelSuspendedOperation` is idempotent on an adapter. For every
adapter state, a second call right after the first (no `saveState` in between)
makes no call on the transport and posts nothing, and leaves the adapter as the
first call left it; so the two calls together have the effects and the final
state of one call. When the first call did cancel a pending call, this holds
whatever has become of the heap in the meantime. -/
theorem cancelSuspendedOperation_idempotent (K : HttpConsts) (heap heap2 : Heap)
    (self : HttpCoroutineAdapter) :
    (((self.cancelSuspendedOperation K heap).self).cancelSuspendedOperation K heap).effects
      = [] ∧
    (((self.cancelSuspendedOperation K heap).self).cancelSuspendedOperation K heap).self =
      (self.cancelSuspendedOperation K heap).self ∧
    (self.cancelSuspendedOperation K heap).effects ++
      (((self.cancelSuspendedOperation K heap).self).cancelSuspendedOperation K heap).effects =
      (self.cancelSuspendedOperation K heap).effects ∧
    ((self.cancelSuspendedOperation K heap).effects ≠ [] →
      (((self.cancelSuspendedOperation K heap).self).cancelSuspendedOperation K heap2).effects
        = [] ∧
      (((self.cancelSuspendedOperation K heap).self).cancelSuspendedOperation K heap2).self =
        (self.cancelSuspendedOperation K heap).self) ∧
    ((self.cancelSuspendedOperation K heap).effects.filter Effect.isRequestCancel).length ≤ 1 ∧
    ((self.cancelSuspendedOperation K heap).effects.filter Effect.isPost).length ≤ 1 := by
  rcases cancel_outcome_cases K heap self with hidle | ⟨req, hp, h, hpend⟩
  · rw [hidle]
    simp only [hidle, List.append_nil, ne_eq, not_true_eq_false, false_implies, List.filter_nil,
      List.length_nil, Nat.zero_le, and_self, and_true]
  · rw [hpend]
    have hclean : ∀ hp2 : Heap, self.cleanState.cancelSuspendedOperation K hp2 =
        { self := self.cleanState, ret := (), effects := [] } :=
      fun hp2 => cancel_idle_outcome K hp2 self.cleanState (Or.inl rfl)
    simp only [hclean, List.append_nil, and_self, true_and, implies_true]
    simp [Effect.isRequestCancel, Effect.isPost]

theorem cancelSuspendedOperation_idempotent_witness :
    (pending0.cancelSuspendedOperation K0 heap0).effects ≠ [] ∧
    (((pending0.cancelSuspendedOperation K0 heap0).self).cancelSuspendedOperation K0
      heap0).effects = [] ∧
    (((pending0.cancelSuspendedOperation K0 heap0).self).cancelSuspendedOperation K0
      heap0).self = (pending0.cancelSuspendedOperation K0 heap0).self :=
  ⟨by
    intro h
    have h2 : (pending0.cancelSuspendedOperation K0 heap0).effects =
        [Effect.requestCancel 1 5 7, Effect.post "reply" (cancelledResult K0)] := rfl
    rw [h2] at h
    exact List.noConfusion h,
   (cancelSuspendedOperation_idempotent K0 heap0 heap0 pending0).2.2.2.1 (by
    intro h
    have h2 : (pending0.cancelSuspendedOperation K0 heap0).effects =
        [Effect.requestCancel 1 5 7, Effect.post "reply" (cancelledResult K0)] := rfl
    rw [h2] at h
    exact List.noConfusion h)⟩

theorem hasField_false_lookup (k : String) (fs : List (String × LLSD))
    (hno : LLSD.hasField k fs = false) : LLSD.lookupField k fs = LLSD.undefined := by
  induction fs with
  | nil => rfl
  | cons kv rest ih =>
    obtain ⟨k1, v⟩ := kv
    simp only [LLSD.hasField] at hno
    by_cases hk : k1 = k
    · simp [hk] at hno
    · simp only [hk, if_false] at hno
      simp only [LLSD.lookupField, hk, if_false]
      exact ih hno

theorem has_false_get (x : LLSD) (k : String) (hno : x.has k = false) :
    x.get k = LLSD.undefined := by
  cases x with
  | map fs => exact hasField_false_lookup k fs hno
  | _ => rfl

/-- Every verb operation, named by a `VerbCall`, is a stub. -/
theorem verbCall_run_stub (call : VerbCall) (self : HttpCoroutineAdapter) :
    call.run self = self.returns LLSD.undefined := by
  cases call with
  | getAndSuspend u o h => exact (verbs_are_stubs self u "" "" LLSD.undefined none none 0 o h).1
  | getRawAndSuspend u o h =>
    exact (verbs_are_stubs self u "" "" LLSD.undefined none none 0 o h).2.1
  | getJsonAndSuspend u o h =>
    exact (verbs_are_stubs self u "" "" LLSD.undefined none none 0 o h).2.2.1
  | postAndSuspend u b o h => exact (verbs_are_stubs self u "" "" b none none 0 o h).2.2.2.1
  | postAndSuspend_rawbody u b o h =>
    exact (verbs_are_stubs self u "" "" LLSD.undefined b none 0 o h).2.2.2.2.1
  | postRawAndSuspend u b o h =>
    exact (verbs_are_stubs self u "" "" LLSD.undefined b none 0 o h).2.2.2.2.2.1
  | postFileAndSuspend u f o h =>
    exact (verbs_are_stubs self u "" "" LLSD.undefined none f 0 o h).2.2.2.2.2.2.1
  | postFileAndSuspend_asset u a ty o h =>
    exact (verbs_are_stubs self u "" a LLSD.undefined none none ty o h).2.2.2.2.2.2.2.1
  | postJsonAndSuspend u b o h =>
    exact (verbs_are_stubs self u "" "" b none none 0 o h).2.2.2.2.2.2.2.2.1
  | putAndSuspend u b o h =>
    exact (verbs_are_stubs self u "" "" b none none 0 o h).2.2.2.2.2.2.2.2.2.1
  | putJsonAndSuspend u b o h =>
    exact (verbs_are_stubs self u "" "" b none none 0 o h).2.2.2.2.2.2.2.2.2.2.1
  | patchAndSuspend u b o h =>
    exact (verbs_are_stubs self u "" "" b none none 0 o h).2.2.2.2.2.2.2.2.2.2.2.1
  | deleteAndSuspend u o h =>
    exact (verbs_are_stubs self u "" "" LLSD.undefined none none 0 o h).2.2.2.2.2.2.2.2.2.2.2.2.1
  | deleteJsonAndSuspend u o h =>
    exact (verbs_are_stubs self u "" "" LLSD.undefined none none 0 o
      h).2.2.2.2.2.2.2.2.2.2.2.2.2.1
  | copyAndSuspend u d o h =>
    exact (verbs_are_stubs self u d "" LLSD.undefined none none 0 o
      h).2.2.2.2.2.2.2.2.2.2.2.2.2.2.1
  | moveAndSuspend u d o h =>
    exact (verbs_are_stubs self u d "" LLSD.undefined none none 0 o
      h).2.2.2.2.2.2.2.2.2.2.2.2.2.2.2

/-- C29: for every Result value that has neither a `type` nor a `status` field
at the level `getStatusFromLLSD` reads (the `http_result` entry when that key is
present, the value itself otherwise), `getStatusFromLLSD` returns the status
with type 0 and code 0. This is so for the undefined value, which every verb
operation returns when the transport reference is absent. When `http_result` is
present, the top-level `type` and `status` fields are ignored. -/
theorem getStatusFromLLSD_defaults_to_zero (C : LLSDConversions) (r : LLSD)
    (self : HttpCoroutineAdapter) :
    (r.has HTTP_RESULTS = true → (r.get HTTP_RESULTS).has HTTP_RESULTS_TYPE = false →
      (r.get HTTP_RESULTS).has HTTP_RESULTS_STATUS = false →
      HttpCoroutineAdapter.getStatusFromLLSD C r =
        { mType := 0, mStatus := 0, mMessage := "" }) ∧
    (r.has HTTP_RESULTS = false → r.has HTTP_RESULTS_TYPE = false →
      r.has HTTP_RESULTS_STATUS = false →
      HttpCoroutineAdapter.getStatusFromLLSD C r =
        { mType := 0, mStatus := 0, mMessage := "" }) ∧
    HttpCoroutineAdapter.getStatusFromLLSD C LLSD.undefined =
      { mType := 0, mStatus := 0, mMessage := "" } ∧
    (self.mRequest = none → ∀ call : VerbCall,
      HttpCoroutineAdapter.getStatusFromLLSD C (call.run self).ret =
        { mType := 0, mStatus := 0, mMessage := "" }) ∧
    (r.has HTTP_RESULTS = true → ∀ v,
      HttpCoroutineAdapter.getStatusFromLLSD C (r.set HTTP_RESULTS_TYPE v) =
        HttpCoroutineAdapter.getStatusFromLLSD C r ∧
      HttpCoroutineAdapter.getStatusFromLLSD C (r.set HTTP_RESULTS_STATUS v) =
        HttpCoroutineAdapter.getStatusFromLLSD C r) := by
  have hzero : ∀ x : LLSD, x.has HTTP_RESULTS_TYPE = false → x.has HTTP_RESULTS_STATUS = false →
      ({ mType := (x.get HTTP_RESULTS_TYPE).asInteger C,
         mStatus := toShort ((x.get HTTP_RESULTS_STATUS).asInteger C),
         mMessage := "" } : HttpStatus) = { mType := 0, mStatus := 0, mMessage := "" } := by
    intro x h1 h2
    rw [has_false_get x _ h1, has_false_get x _ h2]
    rfl
  refine ⟨?_, ?_, rfl, ?_, ?_⟩
  · intro hhas h1 h2
    unfold HttpCoroutineAdapter.getStatusFromLLSD
    simp only [hhas, if_true]
    exact hzero _ h1 h2
  · intro hhas h1 h2
    unfold HttpCoroutineAdapter.getStatusFromLLSD
    simp only [hhas, Bool.false_eq_true, if_false]
    exact hzero _ h1 h2
  · intro _ call
    rw [verbCall_run_stub]
    rfl
  · intro hhas v
    have h1 : (r.set HTTP_RESULTS_TYPE v).has HTTP_RESULTS = true := by
      rw [has_set_other _ _ _ _ (by decide)]; exact hhas
    have h2 : (r.set HTTP_RESULTS_STATUS v).has HTTP_RESULTS = true := by
      rw [has_set_other _ _ _ _ (by decide)]; exact hhas
    unfold HttpCoroutineAdapter.getStatusFromLLSD
    simp only [hhas, h1, h2, if_true]
    rw [get_set_other _ _ _ _ (by decide), get_set_other _ _ _ _ (by decide)]
    exact ⟨rfl, rfl⟩

theorem getStatusFromLLSD_defaults_to_zero_witness :
    HttpCoroutineAdapter.getStatusFromLLSD C0
        (LLSD.map [("http_result", LLSD.emptyMap), ("type", LLSD.integer 404),
          ("status", LLSD.integer 1)]) =
      { mType := 0, mStatus := 0, mMessage := "" } ∧
    HttpCoroutineAdapter.getStatusFromLLSD C0 docA1 =
      { mType := 0, mStatus := 0, mMessage := "" } ∧
    (∀ call : VerbCall, HttpCoroutineAdapter.getStatusFromLLSD C0 (call.run norequest0).ret =
      { mType := 0, mStatus := 0, mMessage := "" }) ∧
    HttpCoroutineAdapter.getStatusFromLLSD C0
        ((cancelledResult K0).set HTTP_RESULTS_TYPE (LLSD.integer 200)) =
      HttpCoroutineAdapter.getStatusFromLLSD C0 (cancelledResult K0) :=
  ⟨(getStatusFromLLSD_defaults_to_zero C0
      (LLSD.map [("http_result", LLSD.emptyMap), ("type", LLSD.integer 404),
        ("status", LLSD.integer 1)]) norequest0).1 (by rfl) (by rfl) (by rfl),
   (getStatusFromLLSD_defaults_to_zero C0 docA1 norequest0).2.1 (by rfl) (by rfl) (by rfl),
   (getStatusFromLLSD_defaults_to_zero C0 docA1 norequest0).2.2.2.1 (by rfl),
   ((getStatusFromLLSD_defaults_to_zero C0 (cancelledResult K0) norequest0).2.2.2.2 (by rfl)
      (LLSD.integer 200)).1⟩

end Independence

section PanelGroup

theorem handleClickTab_ignored (E : PanelEnv) (m : Nat) (p : LLPanelGroup)
    (hi : p.mIgnoreTransition = true) :
    LLPanelGroup.handleClickTab E (m + 1) p = Run.done { self := p, ret := (), effects := [] } := by
  simp [LLPanelGroup.handleClickTab, hi]

theorem canClose_notify_showing (E : PanelEnv) (fuel : Nat) (p : LLPanelGroup)
    (hs : p.mShowingNotifyDialog = true) :
    LLPanelGroup.canClose E fuel p = Run.done { self := p, ret := false, effects := [] } := by
  simp [LLPanelGroup.canClose, hs]

theorem attemptTransition_needs_apply (E : PanelEnv) (n : Nat) (self : LLPanelGroup) (tab : Nat)
    (hc : self.mCurrentTab = some tab) (hn : (E.needsApply tab).1 = true) :
    ∃ o, LLPanelGroup.attemptTransition E (n + 2) self = Run.done o ∧ o.ret = false ∧
      o.self.mCurrentTab = self.mCurrentTab ∧ o.self.mShowingNotifyDialog = true ∧
      o.self.mRequestedTab = self.mRequestedTab ∧
      (self.mIgnoreTransition = false ∨ self.mTabContainer.isSome = true →
        o.self.mIgnoreTransition = false) := by
  cases hcont : self.mTabContainer with
  | none =>
    refine ⟨_, by simp [LLPanelGroup.attemptTransition, hc, hn, hcont]; rfl, rfl, hc.symm, rfl, rfl, ?_⟩
    intro h
    rcases h with h | h
    · exact h
    · simp at h
  | some container =>
    cases hsel : (E.selectTabPanel container (some tab)).2 with
    | false =>
      exact ⟨_, by simp [LLPanelGroup.attemptTransition, hc, hn, hcont, hsel]; rfl,
        rfl, hc.symm, rfl, rfl, fun _ => rfl⟩
    | true =>
      refine ⟨_, by
        simp only [LLPanelGroup.attemptTransition, hc, hn, hcont, hsel, if_true]
        rw [handleClickTab_ignored E n _ rfl], rfl, hc.symm, rfl, rfl, fun _ => rfl⟩

theorem attemptTransition_nothing_to_apply (E : PanelEnv) (n : Nat) (self : LLPanelGroup)
    (hno : ∀ tab, self.mCurrentTab = some tab → (E.needsApply tab).1 = false) :
    ∃ o, LLPanelGroup.attemptTransition E (n + 2) self = Run.done o ∧ o.ret = true ∧
      (∀ requested, self.mRequestedTab = some requested →
        o.self.mCurrentTab = some requested) := by
  have hneeds : (match self.mCurrentTab with
      | some tab => if (E.needsApply tab).1 then some (tab, (E.needsApply tab).2) else none
      | none => none) = none := by
    cases hc : self.mCurrentTab with
    | none => rfl
    | some tab => simp [hno tab hc]
  cases hr : self.mRequestedTab with
  | none =>
    refine ⟨_, by simp only [LLPanelGroup.attemptTransition, hneeds, hr]; rfl, rfl, ?_⟩
    intro requested h
    exact Option.noConfusion h
  | some r =>
    refine ⟨_, by simp only [LLPanelGroup.attemptTransition, hneeds, hr]; rfl, rfl, ?_⟩
    intro requested h
    simp only [LLPanelGroup.transitionToTab, hr]
    injection h with h
    rw [h]

/-- C30: `attemptTransition` returns (with fuel for the one callback it may
run) and returns FALSE if and only if a current tab exists and reports
`needsApply`. In that case the current tab is unchanged, `mShowingNotifyDialog`
is TRUE, `mRequestedTab` is as before (the re-selection only reaches
`handleClickTab`, which returns at once while `mIgnoreTransition` is TRUE) and
`mIgnoreTransition` is FALSE on return, given that no re-selection was under
way at entry or that the tab container exists. Otherwise it returns TRUE and,
when a tab was requested, the requested tab has become the current tab.
`canClose` returns FALSE whenever the notify dialog is showing, so in particular
after `attemptTransition` has returned FALSE. -/
theorem attemptTransition_blocks_iff_needs_apply (E : PanelEnv) (n : Nat)
    (self : LLPanelGroup) :
    ∃ o, LLPanelGroup.attemptTransition E (n + 2) self = Run.done o ∧
      (o.ret = false ↔ ∃ tab, self.mCurrentTab = some tab ∧ (E.needsApply tab).1 = true) ∧
      (o.ret = false →
        o.self.mCurrentTab = self.mCurrentTab ∧ o.self.mShowingNotifyDialog = true ∧
        o.self.mRequestedTab = self.mRequestedTab ∧
        (self.mIgnoreTransition = false ∨ self.mTabContainer.isSome = true →
          o.self.mIgnoreTransition = false) ∧
        (∀ fuel, LLPanelGroup.canClose E fuel o.self =
          Run.done { self := o.self, ret := false, effects := [] })) ∧
      (o.ret = true → ∀ requested, self.mRequestedTab = some requested →
        o.self.mCurrentTab = some requested) ∧
      (∀ (p : LLPanelGroup) (m : Nat), p.mIgnoreTransition = true →
        LLPanelGroup.handleClickTab E (m + 1) p =
          Run.done { self := p, ret := (), effects := [] }) ∧
      (∀ (p : LLPanelGroup) (fuel : Nat), p.mShowingNotifyDialog = true →
        LLPanelGroup.canClose E fuel p =
          Run.done { self := p, ret := false, effects := [] }) := by
  by_cases hneed : ∃ tab, self.mCurrentTab = some tab ∧ (E.needsApply tab).1 = true
  · obtain ⟨tab, hc, hn⟩ := hneed
    obtain ⟨o, hrun, hret, hcur, hshow, hreq, hign⟩ :=
      attemptTransition_needs_apply E n self tab hc hn
    refine ⟨o, hrun, ?_, ?_, ?_, ?_, ?_⟩
    · exact ⟨fun _ => ⟨tab, hc, hn⟩, fun _ => hret⟩
    · intro _
      exact ⟨hcur, hshow, hreq, hign, fun fuel => canClose_notify_showing E fuel o.self hshow⟩
    · intro htrue
      rw [hret] at htrue
      exact Bool.noConfusion htrue
    · intro p m hi
      exact handleClickTab_ignored E m p hi
    · intro p fuel hs
      exact canClose_notify_showing E fuel p hs
  · have hno : ∀ tab, self.mCurrentTab = some tab → (E.needsApply tab).1 = false := by
      intro tab hc
      cases hv : (E.needsApply tab).1 with
      | false => rfl
      | true => exact absurd ⟨tab, hc, hv⟩ hneed
    obtain ⟨o, hrun, hret, hcur⟩ := attemptTransition_nothing_to_apply E n self hno
    refine ⟨o, hrun, ?_, ?_, ?_, ?_, ?_⟩
    · constructor
      · intro hfalse
        rw [hret] at hfalse
        exact Bool.noConfusion hfalse
      · intro h
        exact absurd h hneed
    · intro hfalse
      rw [hret] at hfalse
      exact Bool.noConfusion hfalse
    · intro _
      exact hcur
    · intro p m hi
      exact handleClickTab_ignored E m p hi
    · intro p fuel hs
      exact canClose_notify_showing E fuel p hs

theorem attemptTransition_blocks_iff_needs_apply_witness :
    LLPanelGroup.attemptTransition panelEnv0 2 panel0 =
      Run.done { self := { panel0 with mShowingNotifyDialog := true,
                                       mTabContainer := some { mCurrentPanel := some 1 } },
                 ret := false,
                 effects := [PanelEffect.notify "PanelGroupApply" "There are unapplied changes"
                   "Apply?", PanelEffect.selectTabPanel (some 1)] } ∧
    LLPanelGroup.attemptTransition panelEnv0 2 panel1 =
      Run.done { self := { panel1 with mCurrentTab := some 2 }, ret := true,
                 effects := [PanelEffect.deactivate 3, PanelEffect.activate 2] } ∧
    (∃ o, LLPanelGroup.attemptTransition panelEnv0 2 panel0 = Run.done o ∧
      (o.ret = false ↔
        ∃ tab, panel0.mCurrentTab = some tab ∧ (panelEnv0.needsApply tab).1 = true)) ∧
    LLPanelGroup.handleClickTab panelEnv0 1 { panel0 with mIgnoreTransition := true } =
      Run.done { self := { panel0 with mIgnoreTransition := true }, ret := (), effects := [] } ∧
    LLPanelGroup.canClose panelEnv0 0 { panel0 with mShowingNotifyDialog := true } =
      Run.done { self := { panel0 with mShowingNotifyDialog := true }, ret := false,
                 effects := [] } :=
  ⟨by rfl, by rfl,
   match attemptTransition_blocks_iff_needs_apply panelEnv0 0 panel0 with
   | ⟨o, hrun, hiff, _⟩ => ⟨o, hrun, hiff⟩,
   match attemptTransition_blocks_iff_needs_apply panelEnv0 0 panel0 with
   | ⟨_, _, _, _, _, hclick, _⟩ => hclick { panel0 with mIgnoreTransition := true } 0 (by rfl),
   match attemptTransition_blocks_iff_needs_apply panelEnv0 0 panel0 with
   | ⟨_, _, _, _, _, _, hclose⟩ =>
     hclose { panel0 with mShowingNotifyDialog := true } 0 (by rfl)⟩

end PanelGroup

end LLCoreHttpUtil
